import Mathlib

/-!
# Post-processing pipeline of `Scene.cpp`

A shallow embedding of the post-process stack and of the frame renderer of
`src/Scene.cpp`.

* The globals of the translation unit that the post-processing code reads or
  writes are the fields of `SceneState`; every function of the source that mutates
  them is a function `SceneState → SceneState` (explicit state passing).
* The Direct3D device context is an external collaborator.  Every call the
  source makes on it that selects a render target, a texture, a shader or a
  blend state, clears a colour target, draws, or presents, is recorded in
  order in `SceneState.gpu`, with the source's own identifiers as constructor
  names.  Calls that only touch samplers, rasteriser or depth-stencil state,
  the geometry shader, input layout, viewports, constant-buffer slots and the
  per-frame and per-model constants are not recorded; of the uploads only the
  one of `gPostProcessingConstants` is.
* `float` values are rationals (exact arithmetic), `int` values are integers
  and `%` on `int` is the truncating remainder `Int.tmod`.
* What the source obtains from `Camera.h`, `Random`, `cos` and
  `MatrixTranslation` is supplied by the structure `World`, which also fixes
  the order in which the arguments of a call are evaluated.
* The draws of a stream of device calls, with the render target and the
  textures bound when each is issued, are read off by `drawCalls`.
-/

namespace PostProcessing

/-! ## Scene data -/

/-- Available post-processes (`enum class PostProcess`). -/
inductive PostProcess
  | None
  | NightVision
  | VerticalColourGradient
  | GaussianBlurHorizontal
  | GaussianBlurVertical
  | UnderWater
  | HueVerticalColourGradient
  | Sepia
  | Inverted
  | Contour
  | GameBoy
  | Bloom
  | MergeTextures
  | Dilation
  | DualFiltering
  | DepthOfField
  | Copy
  | Tint
  | GreyNoise
  | Burn
  | Distort
  | Spiral
  | HeatHaze
  deriving DecidableEq, Repr

/-- Application modes (`enum class PostProcessMode`). -/
inductive PostProcessMode
  | Fullscreen
  | Area
  | Polygon
  deriving DecidableEq, Repr

/-- The constant `NUM_OF_WINDOWS`. -/
def NUM_OF_WINDOWS : Nat := 4

/-- Two-component float vector. -/
structure CVector2 where
  x : ℚ
  y : ℚ
  deriving DecidableEq

/-- Three-component float vector. -/
structure CVector3 where
  x : ℚ
  y : ℚ
  z : ℚ
  deriving DecidableEq

/-- Four-component float vector. -/
structure CVector4 where
  x : ℚ
  y : ℚ
  z : ℚ
  w : ℚ
  deriving DecidableEq

/-! ## Device objects -/

/-- The 2D textures that can be rendered to: the three scene textures created
in `InitGeometry` and the swap chain's back buffer. -/
inductive Texture2D
  | gSceneTexture
  | gSceneTextureTwo
  | gSceneTextureCopy
  | backBuffer
  deriving DecidableEq, Repr

/-- Render-target views used by the scene code. -/
inductive RenderTargetView
  | gSceneRenderTarget
  | gSceneRenderTargetTwo
  | gSceneRenderTargetCopy
  | gBackBufferRenderTarget
  deriving DecidableEq, Repr

/-- Shader-resource views bound by the scene code. -/
inductive ShaderResourceView
  | nullSRV
  | gSceneTextureSRV
  | gSceneTextureSRVTwo
  | gSceneTextureSRVCopy
  | gShadowMap1SRV
  | gNoiseMapSRV
  | gBurnMapSRV
  | gDistortMapSRV
  | gGroundDiffuseSpecularMapSRV
  | gCrateDiffuseSpecularMapSRV
  | gCubeDiffuseSpecularMapSRV
  | gWallDifuseSpecularMapSRV
  | gStarsDiffuseSpecularMapSRV
  | gLightDiffuseMapSRV
  deriving DecidableEq, Repr

/-- The texture a render-target view renders into (`CreateRenderTargetView`
calls of `InitGeometry`; the back buffer view is created by the device
set-up). -/
def RenderTargetView.resource : RenderTargetView → Texture2D
  | .gSceneRenderTarget => .gSceneTexture
  | .gSceneRenderTargetTwo => .gSceneTextureTwo
  | .gSceneRenderTargetCopy => .gSceneTextureCopy
  | .gBackBufferRenderTarget => .backBuffer

/-- The renderable texture a shader-resource view samples, if it samples one
(`CreateShaderResourceView` calls of `InitGeometry`). -/
def ShaderResourceView.resource : ShaderResourceView → Option Texture2D
  | .gSceneTextureSRV => some .gSceneTexture
  | .gSceneTextureSRVTwo => some .gSceneTextureTwo
  | .gSceneTextureSRVCopy => some .gSceneTextureCopy
  | _ => none

/-- Depth-stencil views. -/
inductive DepthStencilView
  | gDepthStencil
  | gShadowMap1DepthStencil
  deriving DecidableEq, Repr

/-- Pixel shaders selected by the scene code. -/
inductive PixelShader
  | gPixelLightingPixelShader
  | gTintedTexturePixelShader
  | gPixelDepthPixelShader
  | gCopyPostProcess
  | gDepthOfFieldProcess
  | gDualFilteringProcess
  | gDilationProcess
  | gMergeTexturesProcess
  | gBloomProcess
  | gGameBoyProcess
  | gContourProcess
  | gInvertedProcess
  | gSepiaProcess
  | gNightVisionProcess
  | gHueVerticalColourGradientProcess
  | gUnderWaterProcess
  | gGaussianBlurHorizontalProcess
  | gGaussianBlurVerticalProcess
  | gVerticalColourGradientProcess
  | gGreyNoisePostProcess
  | gBurnPostProcess
  | gDistortPostProcess
  | gSpiralPostProcess
  | gHeatHazePostProcess
  | gTintPostProcess
  deriving DecidableEq, Repr

/-- Vertex shaders selected by the scene code. -/
inductive VertexShader
  | gPixelLightingVertexShader
  | gBasicTransformVertexShader
  | g2DQuadVertexShader
  | g2DPolygonVertexShader
  deriving DecidableEq, Repr

/-- Blend states selected by the scene code. -/
inductive BlendState
  | gNoBlendingState
  | gAlphaBlendingState
  | gAdditiveBlendingState
  deriving DecidableEq, Repr

/-- The models whose `Render()` the scene code calls; `gLights i` is
`gLights[i].model`. -/
inductive Model
  | gGround
  | gCrate
  | gCube
  | gWall
  | gStars
  | gLights (i : Nat)
  deriving DecidableEq, Repr

/-- Clear colours passed to `ClearRenderTargetView`. -/
inductive ClearColour
  | gBackgroundColor
  | white
  deriving DecidableEq, Repr

/-- The settings block `gPostProcessingConstants` (declared in `Common.h`); the
fields are those the scene code assigns. -/
structure PostProcessingConstants where
  area2DTopLeft : CVector2
  area2DSize : CVector2
  area2DDepth : ℚ
  polygon2DPoints : List CVector4
  dualFilterIteration : Int
  elapsedTime : ℚ
  period : ℚ
  topColour : CVector3
  bottomColour : CVector3
  underWaterTimer : ℚ
  blurAmount : ℚ
  noiseScale : CVector2
  noiseOffset : CVector2
  burnHeight : ℚ
  distortLevel : ℚ
  spiralLevel : ℚ
  heatHazeTimer : ℚ
  tintColour : CVector3
  deriving DecidableEq

/-- Calls on the device context and the swap chain, in the source's names. -/
inductive Cmd
  | OMSetRenderTargets (rtv : Option RenderTargetView) (dsv : DepthStencilView)
  | ClearRenderTargetView (rtv : RenderTargetView) (colour : ClearColour)
  | ClearDepthStencilView (dsv : DepthStencilView)
  | PSSetShaderResources (slot : Nat) (srv : ShaderResourceView)
  | PSSetShader (ps : PixelShader)
  | VSSetShader (vs : VertexShader)
  | OMSetBlendState (blend : BlendState)
  | UpdateConstantBuffer (constants : PostProcessingConstants)
  | Draw
  | Render (model : Model)
  | Present (syncInterval : Nat)
  deriving DecidableEq

/-! ## External collaborators -/

/-- What the scene code asks of `Camera` (declared in `Camera.h`). -/
structure Camera where
  NearClip : ℚ
  FarClip : ℚ
  PixelFromWorldPt : CVector3 → ℚ → ℚ → CVector3
  PixelSizeInWorldSpace : ℚ → ℚ → ℚ → CVector2
  ViewProjectionMatrix : CVector4 → CVector4

/-- Values the frame code reads from outside this file: the camera, the
viewport size, the position of the cube, the two values returned by
`Random(0, 1)`, the `cos` function, the action of the matrix built by
`MatrixTranslation` on a row vector, and whether the compiler evaluates the
arguments of a call from right to left (the order is unspecified in C++). -/
structure World where
  gCamera : Camera
  gViewportWidth : ℚ
  gViewportHeight : ℚ
  gCubePosition : CVector3
  random1 : ℚ
  random2 : ℚ
  cos : ℚ → ℚ
  MatrixTranslation : CVector3 → CVector4 → CVector4
  argumentsRightToLeft : Bool

/-! ## Global state -/

/-- The globals of `Scene.cpp` used by the post-processing code, the static
local `wiggle`, and the stream of device calls issued so far. -/
structure SceneState where
  gCurrentPostProcess : PostProcess
  gCurrentPostProcessMode : PostProcessMode
  gPostProcessAndModeStack : List (PostProcess × PostProcessMode)
  windowPostProcesses : List PostProcess
  lockFPS : Bool
  gPostProcessingConstants : PostProcessingConstants
  wiggle : ℚ
  gpu : List Cmd

/-- Issue one device call. -/
def SceneState.emit (c : Cmd) (s : SceneState) : SceneState :=
  { s with gpu := s.gpu ++ [c] }

/-- The constants block with one field replaced, as an assignment to a member
of `gPostProcessingConstants`. -/
def SceneState.setConstants (f : PostProcessingConstants → PostProcessingConstants)
    (s : SceneState) : SceneState :=
  { s with gPostProcessingConstants := f s.gPostProcessingConstants }

/-- C library `fmod`: the remainder of `x / y` with the quotient truncated
towards zero. -/
def fmod (x y : ℚ) : ℚ :=
  x - y * ((x / y).num.tdiv (x / y).den : Int)

/-! ## Effect stack -/

/-- Source function `AddProcessAndMode`: `push_back` of the pair. -/
def AddProcessAndMode (process : PostProcess) (mode : PostProcessMode)
    (s : SceneState) : SceneState :=
  { s with gPostProcessAndModeStack := s.gPostProcessAndModeStack ++ [(process, mode)] }

/-- Source function `CreateWindowPostProcesses`: one `AddProcessAndMode(_, Polygon)` per element
of the argument, in order. -/
def CreateWindowPostProcesses : List PostProcess → SceneState → SceneState
  | [], s => s
  | windowPostProcess :: rest, s =>
      CreateWindowPostProcesses rest (AddProcessAndMode windowPostProcess .Polygon s)

/-- Library call `std::vector::pop_back`; undefined on an empty vector, which is `none`. -/
def pop_back (s : SceneState) : Option SceneState :=
  match s.gPostProcessAndModeStack with
  | [] => none
  | e :: rest => some { s with gPostProcessAndModeStack := (e :: rest).dropLast }

/-- Source function `RemoveProcessAndMode`; `none` when a `pop_back` is applied to an empty
vector. -/
def RemoveProcessAndMode (s : SceneState) : Option SceneState :=
  if s.gPostProcessAndModeStack.length > NUM_OF_WINDOWS then
    if s.gCurrentPostProcess = PostProcess.GaussianBlurVertical then
      pop_back s >>= pop_back
    else if s.gCurrentPostProcess = PostProcess.MergeTextures then
      pop_back s >>= pop_back >>= pop_back >>= pop_back
    else
      pop_back s
  else
    some s

/-- Source function `GetWindowPoint`; the value-initialised array returned after the `switch`
is taken to hold zero vectors. -/
def GetWindowPoint (windowIndex : Int) : List CVector3 :=
  if windowIndex = 0 then
    [⟨22, 25, -50⟩, ⟨22, 5, -50⟩, ⟨33, 25, -50⟩, ⟨33, 5, -50⟩]
  else if windowIndex = 1 then
    [⟨36, 25, -50⟩, ⟨36, 5, -50⟩, ⟨49, 25, -50⟩, ⟨49, 5, -50⟩]
  else if windowIndex = 2 then
    [⟨50, 25, -50⟩, ⟨50, 5, -50⟩, ⟨63, 25, -50⟩, ⟨63, 5, -50⟩]
  else if windowIndex = 3 then
    [⟨64, 25, -50⟩, ⟨64, 5, -50⟩, ⟨78, 25, -50⟩, ⟨78, 5, -50⟩]
  else
    [⟨0, 0, 0⟩, ⟨0, 0, 0⟩, ⟨0, 0, 0⟩, ⟨0, 0, 0⟩]

/-! ## Effect selection -/

/-- Source function `SelectPostProcessShaderAndTextures`: the chain of `if`/`else if` on the
effect, one arm per effect; `None` matches no arm. -/
def SelectPostProcessShaderAndTextures (w : World) (postProcess : PostProcess)
    (frameTime : ℚ) (s : SceneState) : SceneState :=
  match postProcess with
  | .Copy => s.emit (.PSSetShader .gCopyPostProcess)
  | .DepthOfField =>
      let s := s.emit (.PSSetShader .gDepthOfFieldProcess)
      s.emit (.PSSetShaderResources 1 .gShadowMap1SRV)
  | .DualFiltering =>
      let s := s.setConstants fun k => { k with dualFilterIteration := k.dualFilterIteration + 1 }
      s.emit (.PSSetShader .gDualFilteringProcess)
  | .Dilation =>
      let s := s.emit (.PSSetShader .gDilationProcess)
      s.setConstants fun k => { k with elapsedTime := k.elapsedTime + frameTime }
  | .MergeTextures =>
      let s := s.emit (.PSSetShader .gMergeTexturesProcess)
      s.emit (.PSSetShaderResources 1 .gSceneTextureSRVCopy)
  | .Bloom =>
      let s := s.emit (.PSSetShader .gBloomProcess)
      s.setConstants fun k => { k with dualFilterIteration := 0 }
  | .GameBoy => s.emit (.PSSetShader .gGameBoyProcess)
  | .Contour => s.emit (.PSSetShader .gContourProcess)
  | .Inverted => s.emit (.PSSetShader .gInvertedProcess)
  | .Sepia => s.emit (.PSSetShader .gSepiaProcess)
  | .NightVision => s.emit (.PSSetShader .gNightVisionProcess)
  | .HueVerticalColourGradient =>
      let s := s.emit (.PSSetShader .gHueVerticalColourGradientProcess)
      s.setConstants fun k =>
        { k with elapsedTime := k.elapsedTime + frameTime, period := 4,
                 topColour := ⟨0, 0, 1⟩, bottomColour := ⟨0, 1, 1⟩ }
  | .UnderWater =>
      let s := s.emit (.PSSetShader .gUnderWaterProcess)
      s.setConstants fun k => { k with underWaterTimer := k.underWaterTimer + frameTime }
  | .GaussianBlurHorizontal =>
      let s := s.setConstants fun k => { k with blurAmount := 1 }
      s.emit (.PSSetShader .gGaussianBlurHorizontalProcess)
  | .GaussianBlurVertical =>
      let s := s.setConstants fun k => { k with blurAmount := 1 }
      s.emit (.PSSetShader .gGaussianBlurVerticalProcess)
  | .VerticalColourGradient =>
      let s := s.emit (.PSSetShader .gVerticalColourGradientProcess)
      s.setConstants fun k => { k with topColour := ⟨0, 0, 1⟩, bottomColour := ⟨0, 1, 1⟩ }
  | .GreyNoise =>
      let s := s.emit (.PSSetShader .gGreyNoisePostProcess)
      let grainSize : ℚ := 140
      let s := s.setConstants fun k =>
        { k with noiseScale := ⟨w.gViewportWidth / grainSize, w.gViewportHeight / grainSize⟩ }
      let s := s.setConstants fun k => { k with noiseOffset := ⟨w.random1, w.random2⟩ }
      s.emit (.PSSetShaderResources 1 .gNoiseMapSRV)
  | .Burn =>
      let s := s.emit (.PSSetShader .gBurnPostProcess)
      let burnSpeed : ℚ := 2 / 10
      let s := s.setConstants fun k =>
        { k with burnHeight := fmod (k.burnHeight + burnSpeed * frameTime) 1 }
      s.emit (.PSSetShaderResources 1 .gBurnMapSRV)
  | .Distort =>
      let s := s.emit (.PSSetShader .gDistortPostProcess)
      let s := s.setConstants fun k => { k with distortLevel := 3 / 100 }
      s.emit (.PSSetShaderResources 1 .gDistortMapSRV)
  | .Spiral =>
      let s := s.emit (.PSSetShader .gSpiralPostProcess)
      let wiggleSpeed : ℚ := 1
      let s := s.setConstants fun k => { k with spiralLevel := (1 - w.cos s.wiggle) * 4 }
      { s with wiggle := s.wiggle + wiggleSpeed * frameTime }
  | .HeatHaze =>
      let s := s.emit (.PSSetShader .gHeatHazePostProcess)
      s.setConstants fun k => { k with heatHazeTimer := k.heatHazeTimer + frameTime }
  | .Tint =>
      let s := s.emit (.PSSetShader .gTintPostProcess)
      s.setConstants fun k => { k with tintColour := ⟨1, 0, 0⟩ }
  | .None => s

/-! ## Post-process modes -/

/-- Source function `FullScreenPostProcess` (lines 922 to 988). -/
def FullScreenPostProcess (w : World) (postProcess : PostProcess) (frameTime : ℚ)
    (processIndex : Int) (s : SceneState) : SceneState :=
  let s := s.emit (.VSSetShader .g2DQuadVertexShader)
  let s := s.emit (.OMSetBlendState .gNoBlendingState)
  let s := s.emit (.PSSetShaderResources 0 .nullSRV)
  let s :=
    if processIndex.tmod 2 = 0 then
      let s := s.emit (.OMSetRenderTargets (some .gSceneRenderTargetTwo) .gDepthStencil)
      s.emit (.PSSetShaderResources 0 .gSceneTextureSRV)
    else
      let s := s.emit (.OMSetRenderTargets (some .gSceneRenderTarget) .gDepthStencil)
      s.emit (.PSSetShaderResources 0 .gSceneTextureSRVTwo)
  let s := SelectPostProcessShaderAndTextures w postProcess frameTime s
  let s := s.setConstants fun k => { k with area2DTopLeft := ⟨0, 0⟩ }
  let s := s.setConstants fun k => { k with area2DSize := ⟨1, 1⟩ }
  let s := s.setConstants fun k => { k with area2DDepth := 0 }
  let s := s.emit (.UpdateConstantBuffer s.gPostProcessingConstants)
  let s := s.emit .Draw
  let s := s.emit (.OMSetRenderTargets (some .gBackBufferRenderTarget) .gDepthStencil)
  s.emit .Draw

/-- Source function `AreaPostProcess` (lines 992 to 1053). -/
def AreaPostProcess (w : World) (postProcess : PostProcess) (worldPoint : CVector3)
    (areaSize : CVector2) (frameTime : ℚ) (processIndex : Int) (s : SceneState) : SceneState :=
  let s := FullScreenPostProcess w .Copy frameTime processIndex s
  let s := SelectPostProcessShaderAndTextures w postProcess frameTime s
  let s := s.emit (.OMSetBlendState .gAlphaBlendingState)
  let worldPointTo2D := w.gCamera.PixelFromWorldPt worldPoint w.gViewportWidth w.gViewportHeight
  let area2DCentre : CVector2 := ⟨worldPointTo2D.x, worldPointTo2D.y⟩
  let areaDistance := worldPointTo2D.z
  if areaDistance < w.gCamera.NearClip then s
  else
    let area2DCentre : CVector2 :=
      ⟨area2DCentre.x / w.gViewportWidth, area2DCentre.y / w.gViewportHeight⟩
    let pixelSizeAtPoint :=
      w.gCamera.PixelSizeInWorldSpace areaDistance w.gViewportWidth w.gViewportHeight
    let area2DSize : CVector2 := ⟨areaSize.x / pixelSizeAtPoint.x, areaSize.y / pixelSizeAtPoint.y⟩
    let area2DSize : CVector2 :=
      ⟨area2DSize.x / w.gViewportWidth, area2DSize.y / w.gViewportHeight⟩
    let s := s.setConstants fun k =>
      { k with area2DTopLeft :=
          ⟨area2DCentre.x - (1 / 2) * area2DSize.x, area2DCentre.y - (1 / 2) * area2DSize.y⟩ }
    let s := s.setConstants fun k => { k with area2DSize := area2DSize }
    let s := s.setConstants fun k =>
      { k with area2DDepth :=
          w.gCamera.FarClip * (areaDistance - w.gCamera.NearClip)
            / (w.gCamera.FarClip - w.gCamera.NearClip) }
    let s := s.setConstants fun k => { k with area2DDepth := k.area2DDepth / areaDistance }
    let s := s.emit (.UpdateConstantBuffer s.gPostProcessingConstants)
    s.emit .Draw

/-- Source function `PolygonPostProcess`; `worldMatrix` is the action of the matrix on a row
vector. -/
def PolygonPostProcess (w : World) (postProcess : PostProcess) (points : List CVector3)
    (worldMatrix : CVector4 → CVector4) (frameTime : ℚ) (processIndex : Int)
    (s : SceneState) : SceneState :=
  let s := FullScreenPostProcess w .Copy frameTime processIndex s
  let s := s.emit (.PSSetShaderResources 0 .nullSRV)
  let s :=
    if processIndex.tmod 2 = 0 then
      let s := s.emit (.OMSetRenderTargets (some .gSceneRenderTargetTwo) .gDepthStencil)
      s.emit (.PSSetShaderResources 0 .gSceneTextureSRV)
    else
      let s := s.emit (.OMSetRenderTargets (some .gSceneRenderTarget) .gDepthStencil)
      s.emit (.PSSetShaderResources 0 .gSceneTextureSRVTwo)
  let s := SelectPostProcessShaderAndTextures w postProcess frameTime s
  let s := s.setConstants fun k =>
    { k with polygon2DPoints := points.map fun point =>
        let modelPosition : CVector4 := ⟨point.x, point.y, point.z, 1⟩
        let worldPosition := worldMatrix modelPosition
        w.gCamera.ViewProjectionMatrix worldPosition }
  let s := s.emit (.UpdateConstantBuffer s.gPostProcessingConstants)
  let s := s.emit (.VSSetShader .g2DPolygonVertexShader)
  let s := s.emit .Draw
  let s := s.emit (.OMSetRenderTargets (some .gBackBufferRenderTarget) .gDepthStencil)
  s.emit .Draw

/-- Source function `SaveCurrentSceneToTexture` (lines 1362 to 1422). -/
def SaveCurrentSceneToTexture (index : Int) (s : SceneState) : SceneState :=
  let s := s.emit (.VSSetShader .g2DQuadVertexShader)
  let s := s.emit (.OMSetBlendState .gNoBlendingState)
  let s := s.emit (.PSSetShaderResources 0 .nullSRV)
  let s := s.emit (.OMSetRenderTargets (some .gSceneRenderTargetCopy) .gDepthStencil)
  let s :=
    if index.tmod 2 = 0 then s.emit (.PSSetShaderResources 0 .gSceneTextureSRV)
    else s.emit (.PSSetShaderResources 0 .gSceneTextureSRVTwo)
  let s := s.emit (.PSSetShader .gCopyPostProcess)
  let s := s.setConstants fun k => { k with area2DTopLeft := ⟨0, 0⟩ }
  let s := s.setConstants fun k => { k with area2DSize := ⟨1, 1⟩ }
  let s := s.setConstants fun k => { k with area2DDepth := 0 }
  let s := s.emit (.UpdateConstantBuffer s.gPostProcessingConstants)
  let s := s.emit .Draw
  let s := s.emit (.OMSetRenderTargets (some .gBackBufferRenderTarget) .gDepthStencil)
  s.emit .Draw

/-! ## Scene rendering -/

/-- Source function `RenderDepthBufferFromCamera`, as far as it calls the device. -/
def RenderDepthBufferFromCamera (s : SceneState) : SceneState :=
  let s := s.emit (.VSSetShader .gBasicTransformVertexShader)
  let s := s.emit (.PSSetShader .gPixelDepthPixelShader)
  let s := s.emit (.OMSetBlendState .gNoBlendingState)
  let s := s.emit (.Render .gGround)
  let s := s.emit (.Render .gCrate)
  let s := s.emit (.Render .gCube)
  let s := s.emit (.Render .gWall)
  let s := s.emit (.Render .gStars)
  let s := s.emit (.Render (.gLights 0))
  s.emit (.Render (.gLights 1))

/-- Source function `RenderSceneFromCamera`, as far as it calls the device. -/
def RenderSceneFromCamera (s : SceneState) : SceneState :=
  let s := s.emit (.PSSetShader .gPixelLightingPixelShader)
  let s := s.emit (.VSSetShader .gPixelLightingVertexShader)
  let s := s.emit (.PSSetShader .gPixelLightingPixelShader)
  let s := s.emit (.OMSetBlendState .gNoBlendingState)
  let s := s.emit (.PSSetShaderResources 0 .gGroundDiffuseSpecularMapSRV)
  let s := s.emit (.Render .gGround)
  let s := s.emit (.PSSetShaderResources 0 .gCrateDiffuseSpecularMapSRV)
  let s := s.emit (.Render .gCrate)
  let s := s.emit (.PSSetShaderResources 0 .gCubeDiffuseSpecularMapSRV)
  let s := s.emit (.Render .gCube)
  let s := s.emit (.PSSetShaderResources 0 .gWallDifuseSpecularMapSRV)
  let s := s.emit (.Render .gWall)
  let s := s.emit (.VSSetShader .gBasicTransformVertexShader)
  let s := s.emit (.PSSetShader .gTintedTexturePixelShader)
  let s := s.emit (.PSSetShaderResources 0 .gStarsDiffuseSpecularMapSRV)
  let s := s.emit (.Render .gStars)
  let s := s.emit (.VSSetShader .gBasicTransformVertexShader)
  let s := s.emit (.PSSetShader .gTintedTexturePixelShader)
  let s := s.emit (.PSSetShaderResources 0 .gLightDiffuseMapSRV)
  let s := s.emit (.OMSetBlendState .gAdditiveBlendingState)
  let s := s.emit (.Render (.gLights 0))
  s.emit (.Render (.gLights 1))

/-- The first part of `RenderScene`, up to and including the call of
`RenderSceneFromCamera`: the shadow-map pass, the choice and clearing of the
render target for the scene, and the scene itself. -/
def renderMainScene (s : SceneState) : SceneState :=
  let s := s.emit (.OMSetRenderTargets none .gShadowMap1DepthStencil)
  let s := s.emit (.ClearDepthStencilView .gShadowMap1DepthStencil)
  let s := RenderDepthBufferFromCamera s
  let s :=
    if s.gPostProcessAndModeStack.length ≠ 0 then
      let s := s.emit (.OMSetRenderTargets (some .gSceneRenderTarget) .gDepthStencil)
      s.emit (.ClearRenderTargetView .gSceneRenderTarget .gBackgroundColor)
    else
      let s := s.emit (.OMSetRenderTargets (some .gBackBufferRenderTarget) .gDepthStencil)
      s.emit (.ClearRenderTargetView .gBackBufferRenderTarget .gBackgroundColor)
  let s := s.emit (.ClearDepthStencilView .gDepthStencil)
  let s := s.emit (.PSSetShaderResources 1 .gShadowMap1SRV)
  RenderSceneFromCamera s

/-- One iteration of the range-`for` of `RenderScene` on the stack entry
`postProcessAndMode`, with the running `processIndex`; returns the state and
the value of `processIndex` after the iteration.  In the Polygon call the
arguments `GetWindowPoint(processIndex)` and `processIndex++` are evaluated in
an unspecified order, so `GetWindowPoint` sees the index either before or
after the increment. -/
def renderEntry (w : World) (frameTime : ℚ) (postProcessAndMode : PostProcess × PostProcessMode)
    (processIndex : Int) (s : SceneState) : SceneState × Int :=
  let s := { s with gCurrentPostProcess := postProcessAndMode.1 }
  let s := { s with gCurrentPostProcessMode := postProcessAndMode.2 }
  if s.gCurrentPostProcessMode = PostProcessMode.Fullscreen then
    let s :=
      if s.gCurrentPostProcess = PostProcess.Bloom then SaveCurrentSceneToTexture processIndex s
      else s
    (FullScreenPostProcess w s.gCurrentPostProcess frameTime processIndex s, processIndex + 1)
  else if s.gCurrentPostProcessMode = PostProcessMode.Polygon then
    let polyMatrix := w.MatrixTranslation ⟨0, 0, 0⟩
    let points :=
      GetWindowPoint (if w.argumentsRightToLeft then processIndex + 1 else processIndex)
    (PolygonPostProcess w s.gCurrentPostProcess points polyMatrix frameTime processIndex s,
      processIndex + 1)
  else if s.gCurrentPostProcessMode = PostProcessMode.Area then
    (AreaPostProcess w s.gCurrentPostProcess w.gCubePosition ⟨10, 10⟩ frameTime processIndex s,
      processIndex + 1)
  else
    (s, processIndex)

/-- The range-`for` of `RenderScene` over the entries still to be visited. -/
def renderEntries (w : World) (frameTime : ℚ) :
    List (PostProcess × PostProcessMode) → Int → SceneState → SceneState × Int
  | [], processIndex, s => (s, processIndex)
  | postProcessAndMode :: rest, processIndex, s =>
      let r := renderEntry w frameTime postProcessAndMode processIndex s
      renderEntries w frameTime rest r.2 r.1

/-- The "scene completion" part of `RenderScene`: the loop over the stack. -/
def renderPostProcesses (w : World) (frameTime : ℚ) (s : SceneState) : SceneState :=
  if s.gPostProcessAndModeStack.length ≠ 0 then
    let processIndex : Int := 0
    (renderEntries w frameTime s.gPostProcessAndModeStack processIndex s).1
  else s

/-- The end of `RenderScene`: the block marked as temporary demonstration code
and the call of `Present`. -/
def renderPresent (s : SceneState) : SceneState :=
  let s := s.emit (.ClearRenderTargetView .gBackBufferRenderTarget .white)
  let s := RenderDepthBufferFromCamera s
  s.emit (.Present (if s.lockFPS then 1 else 0))

/-- Source function `RenderScene`: its three parts in sequence. -/
def RenderScene (w : World) (frameTime : ℚ) (s : SceneState) : SceneState :=
  renderPresent (renderPostProcesses w frameTime (renderMainScene s))

/-! ## Key handlers and initialisation -/

/-- The body of the `if (KeyHit(Key_2))` block of `UpdateScene`: the two-pass
blur is pushed as two entries. -/
def UpdateScene_Key_2 (s : SceneState) : SceneState :=
  let s := AddProcessAndMode .GaussianBlurHorizontal .Fullscreen s
  AddProcessAndMode .GaussianBlurVertical .Fullscreen s

/-- The `for` loop of the `Key_O` block of `UpdateScene`, with `n` iterations
still to run. -/
def addDualFilterings : Nat → SceneState → SceneState
  | 0, s => s
  | n + 1, s => addDualFilterings n (AddProcessAndMode .DualFiltering .Fullscreen s)

/-- The body of the `if (KeyHit(Key_O))` block of `UpdateScene`: the bloom
group. -/
def UpdateScene_Key_O (s : SceneState) : SceneState :=
  let s := AddProcessAndMode .Bloom .Fullscreen s
  let numOfDualFilterings : Nat := 8
  let s := addDualFilterings numOfDualFilterings s
  AddProcessAndMode .MergeTextures .Fullscreen s

/-- The body of the `if (KeyHit(Key_0))` block of `UpdateScene`: the stack is
cleared and the window entries are pushed again. -/
def UpdateScene_Key_0 (s : SceneState) : SceneState :=
  let s := { s with gPostProcessAndModeStack := [] }
  CreateWindowPostProcesses s.windowPostProcesses s

/-- The end of `InitScene`: the four window effects are appended to
`windowPostProcesses`, then pushed on the stack. -/
def InitScene_windows (s : SceneState) : SceneState :=
  let s := { s with windowPostProcesses := s.windowPostProcesses ++ [PostProcess.NightVision] }
  let s := { s with windowPostProcesses := s.windowPostProcesses ++ [PostProcess.Contour] }
  let s := { s with windowPostProcesses := s.windowPostProcesses ++ [PostProcess.Sepia] }
  let s := { s with windowPostProcesses := s.windowPostProcesses ++ [PostProcess.Inverted] }
  CreateWindowPostProcesses s.windowPostProcesses s

/-! ## Reading the stream of device calls -/

/-- The bindings of the device context that decide where a draw writes and what
it samples. -/
structure Pipeline where
  renderTarget : Option RenderTargetView
  texture0 : ShaderResourceView
  texture1 : ShaderResourceView
  pixelShader : PixelShader
  vertexShader : VertexShader
  blendState : BlendState
  deriving DecidableEq

/-- The effect of one device call on the bindings. -/
def Pipeline.apply (p : Pipeline) : Cmd → Pipeline
  | .OMSetRenderTargets rtv _ => { p with renderTarget := rtv }
  | .PSSetShaderResources slot srv =>
      if slot = 0 then { p with texture0 := srv }
      else if slot = 1 then { p with texture1 := srv }
      else p
  | .PSSetShader ps => { p with pixelShader := ps }
  | .VSSetShader vs => { p with vertexShader := vs }
  | .OMSetBlendState blend => { p with blendState := blend }
  | _ => p

/-- The bindings after a sequence of device calls. -/
def Pipeline.run (p : Pipeline) (cmds : List Cmd) : Pipeline :=
  cmds.foldl Pipeline.apply p

/-- A draw with the bindings in force when it was issued; `model` is `none`
for the quad of `Draw(4, 0)`. -/
structure DrawCall where
  model : Option Model
  bindings : Pipeline
  deriving DecidableEq

/-- The draws of a sequence of device calls started with the bindings `p`. -/
def drawCalls (p : Pipeline) : List Cmd → List DrawCall
  | [] => []
  | .Draw :: cmds => ⟨none, p⟩ :: drawCalls p cmds
  | .Render m :: cmds => ⟨some m, p⟩ :: drawCalls p cmds
  | c :: cmds => drawCalls (p.apply c) cmds

/-- The texture a draw writes, if a colour target is bound. -/
def DrawCall.target (d : DrawCall) : Option Texture2D :=
  d.bindings.renderTarget.map RenderTargetView.resource

/-- The renderable texture a draw samples through slot 0, if any. -/
def DrawCall.input (d : DrawCall) : Option Texture2D :=
  d.bindings.texture0.resource

/-- A texture is one of the two ping-pong scene textures. -/
def Texture2D.isPingPong : Texture2D → Bool
  | .gSceneTexture => true
  | .gSceneTextureTwo => true
  | _ => false

/-- A texture is one of the three offscreen scene textures. -/
def Texture2D.isOffscreen : Texture2D → Bool
  | .backBuffer => false
  | _ => true

/-- The renderable textures bound to texture slot 0 by a sequence of calls. -/
def boundInputs (cmds : List Cmd) : List Texture2D :=
  cmds.filterMap fun
    | .PSSetShaderResources 0 srv => srv.resource
    | _ => none

/-- The offscreen textures bound as render target by a sequence of calls. -/
def boundOffscreenTargets (cmds : List Cmd) : List Texture2D :=
  cmds.filterMap fun
    | .OMSetRenderTargets (some rtv) _ =>
        if rtv.resource.isOffscreen then some rtv.resource else none
    | _ => none

/-- A device call that binds or clears one of the offscreen scene textures,
as render target or as texture. -/
def Cmd.touchesOffscreen : Cmd → Bool
  | .OMSetRenderTargets (some rtv) _ => rtv.resource.isOffscreen
  | .ClearRenderTargetView rtv _ => rtv.resource.isOffscreen
  | .PSSetShaderResources _ srv => srv.resource.isSome
  | _ => false

/-- The device calls a state transformer adds to the stream. -/
def cmdsOf (f : SceneState → SceneState) (s : SceneState) : List Cmd :=
  (f s).gpu.drop s.gpu.length

/-- The device calls of each iteration of the loop of `RenderScene`, one list
per stack entry visited. -/
def passCmds (w : World) (frameTime : ℚ) :
    List (PostProcess × PostProcessMode) → Int → SceneState → List (List Cmd)
  | [], _, _ => []
  | postProcessAndMode :: rest, processIndex, s =>
      let r := renderEntry w frameTime postProcessAndMode processIndex s
      r.1.gpu.drop s.gpu.length :: passCmds w frameTime rest r.2 r.1

/-- The device calls of each post-process pass of one `RenderScene`. -/
def framePasses (w : World) (frameTime : ℚ) (s : SceneState) : List (List Cmd) :=
  let s := renderMainScene s
  if s.gPostProcessAndModeStack.length ≠ 0 then
    passCmds w frameTime s.gPostProcessAndModeStack 0 s
  else []

/-- The device calls `SelectPostProcessShaderAndTextures` issues for an effect. -/
def selectCmds : PostProcess → List Cmd
  | .Copy => [.PSSetShader .gCopyPostProcess]
  | .DepthOfField => [.PSSetShader .gDepthOfFieldProcess, .PSSetShaderResources 1 .gShadowMap1SRV]
  | .DualFiltering => [.PSSetShader .gDualFilteringProcess]
  | .Dilation => [.PSSetShader .gDilationProcess]
  | .MergeTextures =>
      [.PSSetShader .gMergeTexturesProcess, .PSSetShaderResources 1 .gSceneTextureSRVCopy]
  | .Bloom => [.PSSetShader .gBloomProcess]
  | .GameBoy => [.PSSetShader .gGameBoyProcess]
  | .Contour => [.PSSetShader .gContourProcess]
  | .Inverted => [.PSSetShader .gInvertedProcess]
  | .Sepia => [.PSSetShader .gSepiaProcess]
  | .NightVision => [.PSSetShader .gNightVisionProcess]
  | .HueVerticalColourGradient => [.PSSetShader .gHueVerticalColourGradientProcess]
  | .UnderWater => [.PSSetShader .gUnderWaterProcess]
  | .GaussianBlurHorizontal => [.PSSetShader .gGaussianBlurHorizontalProcess]
  | .GaussianBlurVertical => [.PSSetShader .gGaussianBlurVerticalProcess]
  | .VerticalColourGradient => [.PSSetShader .gVerticalColourGradientProcess]
  | .GreyNoise => [.PSSetShader .gGreyNoisePostProcess, .PSSetShaderResources 1 .gNoiseMapSRV]
  | .Burn => [.PSSetShader .gBurnPostProcess, .PSSetShaderResources 1 .gBurnMapSRV]
  | .Distort => [.PSSetShader .gDistortPostProcess, .PSSetShaderResources 1 .gDistortMapSRV]
  | .Spiral => [.PSSetShader .gSpiralPostProcess]
  | .HeatHaze => [.PSSetShader .gHeatHazePostProcess]
  | .Tint => [.PSSetShader .gTintPostProcess]
  | .None => []

/-- The two calls by which `FullScreenPostProcess` and `PolygonPostProcess`
select the render target and the input texture from the pass index. -/
def routeCmds (processIndex : Int) : List Cmd :=
  if processIndex.tmod 2 = 0 then
    [.OMSetRenderTargets (some .gSceneRenderTargetTwo) .gDepthStencil,
     .PSSetShaderResources 0 .gSceneTextureSRV]
  else
    [.OMSetRenderTargets (some .gSceneRenderTarget) .gDepthStencil,
     .PSSetShaderResources 0 .gSceneTextureSRVTwo]

/-- The device calls of one `FullScreenPostProcess`; `k` is the constants block
it uploads. -/
def fullScreenCmds (postProcess : PostProcess) (processIndex : Int)
    (k : PostProcessingConstants) : List Cmd :=
  [.VSSetShader .g2DQuadVertexShader, .OMSetBlendState .gNoBlendingState,
   .PSSetShaderResources 0 .nullSRV]
  ++ routeCmds processIndex ++ selectCmds postProcess
  ++ [.UpdateConstantBuffer k, .Draw,
      .OMSetRenderTargets (some .gBackBufferRenderTarget) .gDepthStencil, .Draw]

/-- The device calls of one `AreaPostProcess`; `behind` tells whether the
anchor is nearer than the near clip, `k1` and `k2` are the constants blocks
uploaded by the copy step and by the area step. -/
def areaCmds (postProcess : PostProcess) (processIndex : Int) (behind : Bool)
    (k1 k2 : PostProcessingConstants) : List Cmd :=
  fullScreenCmds .Copy processIndex k1 ++ selectCmds postProcess
  ++ [.OMSetBlendState .gAlphaBlendingState]
  ++ (if behind then [] else [.UpdateConstantBuffer k2, .Draw])

/-- The device calls of one `PolygonPostProcess`. -/
def polygonCmds (postProcess : PostProcess) (processIndex : Int)
    (k1 k2 : PostProcessingConstants) : List Cmd :=
  fullScreenCmds .Copy processIndex k1 ++ [.PSSetShaderResources 0 .nullSRV]
  ++ routeCmds processIndex ++ selectCmds postProcess
  ++ [.UpdateConstantBuffer k2, .VSSetShader .g2DPolygonVertexShader, .Draw,
      .OMSetRenderTargets (some .gBackBufferRenderTarget) .gDepthStencil, .Draw]

/-- The device calls of one `SaveCurrentSceneToTexture`. -/
def saveCmds (index : Int) (k : PostProcessingConstants) : List Cmd :=
  [.VSSetShader .g2DQuadVertexShader, .OMSetBlendState .gNoBlendingState,
   .PSSetShaderResources 0 .nullSRV,
   .OMSetRenderTargets (some .gSceneRenderTargetCopy) .gDepthStencil,
   .PSSetShaderResources 0
     (if index.tmod 2 = 0 then .gSceneTextureSRV else .gSceneTextureSRVTwo),
   .PSSetShader .gCopyPostProcess, .UpdateConstantBuffer k, .Draw,
   .OMSetRenderTargets (some .gBackBufferRenderTarget) .gDepthStencil, .Draw]

/-- The device calls of one iteration of the loop of `RenderScene`, by mode. -/
def entryCmds (postProcessAndMode : PostProcess × PostProcessMode) (processIndex : Int)
    (behind : Bool) (k0 k1 k2 : PostProcessingConstants) : List Cmd :=
  match postProcessAndMode.2 with
  | .Fullscreen =>
      (if postProcessAndMode.1 = PostProcess.Bloom then saveCmds processIndex k0 else [])
        ++ fullScreenCmds postProcessAndMode.1 processIndex k1
  | .Polygon => polygonCmds postProcessAndMode.1 processIndex k1 k2
  | .Area => areaCmds postProcessAndMode.1 processIndex behind k1 k2

/-- Whether the anchor of the Area mode, the cube, is nearer than the near clip
plane of the camera. -/
def areaBehind (w : World) : Bool :=
  decide ((w.gCamera.PixelFromWorldPt w.gCubePosition w.gViewportWidth w.gViewportHeight).z
    < w.gCamera.NearClip)

/-- Where a draw writes and what it samples through slot 0. -/
def DrawCall.route (d : DrawCall) : Option Texture2D × Option Texture2D :=
  (d.target, d.input)

/-- The scene texture that the parity test of the pass index selects as input. -/
def readTexture (processIndex : Int) : Texture2D :=
  if processIndex.tmod 2 = 0 then .gSceneTexture else .gSceneTextureTwo

/-- The scene texture that the parity test of the pass index selects as render
target. -/
def writeTexture (processIndex : Int) : Texture2D :=
  if processIndex.tmod 2 = 0 then .gSceneTextureTwo else .gSceneTexture

/-- The routes of the draws of one iteration of the loop of `RenderScene`, in
order. -/
def entryRoutes (postProcessAndMode : PostProcess × PostProcessMode) (processIndex : Int)
    (behind : Bool) : List (Option Texture2D × Option Texture2D) :=
  let r := some (readTexture processIndex)
  let o := some (writeTexture processIndex)
  match postProcessAndMode.2 with
  | .Fullscreen =>
      (if postProcessAndMode.1 = PostProcess.Bloom then
        [(some .gSceneTextureCopy, r), (some .backBuffer, r)] else [])
        ++ [(o, r), (some .backBuffer, r)]
  | .Polygon => [(o, r), (some .backBuffer, r), (o, r), (some .backBuffer, r)]
  | .Area => [(o, r), (some .backBuffer, r)] ++ (if behind then [] else [(some .backBuffer, r)])

/-- The device calls of `RenderDepthBufferFromCamera`. -/
def depthCmds : List Cmd :=
  [.VSSetShader .gBasicTransformVertexShader, .PSSetShader .gPixelDepthPixelShader,
   .OMSetBlendState .gNoBlendingState, .Render .gGround, .Render .gCrate, .Render .gCube,
   .Render .gWall, .Render .gStars, .Render (.gLights 0), .Render (.gLights 1)]

/-- The device calls of `RenderSceneFromCamera`. -/
def sceneCmds : List Cmd :=
  [.PSSetShader .gPixelLightingPixelShader, .VSSetShader .gPixelLightingVertexShader,
   .PSSetShader .gPixelLightingPixelShader, .OMSetBlendState .gNoBlendingState,
   .PSSetShaderResources 0 .gGroundDiffuseSpecularMapSRV, .Render .gGround,
   .PSSetShaderResources 0 .gCrateDiffuseSpecularMapSRV, .Render .gCrate,
   .PSSetShaderResources 0 .gCubeDiffuseSpecularMapSRV, .Render .gCube,
   .PSSetShaderResources 0 .gWallDifuseSpecularMapSRV, .Render .gWall,
   .VSSetShader .gBasicTransformVertexShader, .PSSetShader .gTintedTexturePixelShader,
   .PSSetShaderResources 0 .gStarsDiffuseSpecularMapSRV, .Render .gStars,
   .VSSetShader .gBasicTransformVertexShader, .PSSetShader .gTintedTexturePixelShader,
   .PSSetShaderResources 0 .gLightDiffuseMapSRV, .OMSetBlendState .gAdditiveBlendingState,
   .Render (.gLights 0), .Render (.gLights 1)]

/-- The device calls of the first part of `RenderScene`, for the render target
`rtv` chosen from the emptiness of the stack. -/
def mainSceneCmds (rtv : RenderTargetView) : List Cmd :=
  [.OMSetRenderTargets none .gShadowMap1DepthStencil,
   .ClearDepthStencilView .gShadowMap1DepthStencil]
  ++ depthCmds
  ++ [.OMSetRenderTargets (some rtv) .gDepthStencil, .ClearRenderTargetView rtv .gBackgroundColor,
      .ClearDepthStencilView .gDepthStencil, .PSSetShaderResources 1 .gShadowMap1SRV]
  ++ sceneCmds

/-- The device calls of the end of `RenderScene`. -/
def presentCmds (lockFPS : Bool) : List Cmd :=
  [.ClearRenderTargetView .gBackBufferRenderTarget .white] ++ depthCmds
  ++ [.Present (if lockFPS then 1 else 0)]

/-- The mode-level pass for the stack entry at position `k`, run with pass
index `k`: the current effect and mode are set to the entry, then exactly one
of `FullScreenPostProcess` (after the snapshot, for Bloom), `PolygonPostProcess`
and `AreaPostProcess` is called, by the mode of the entry. -/
def modePass (w : World) (frameTime : ℚ) (k : Nat) (e : PostProcess × PostProcessMode)
    (s : SceneState) : SceneState :=
  let s := { s with gCurrentPostProcess := e.1, gCurrentPostProcessMode := e.2 }
  match e.2 with
  | .Fullscreen =>
      FullScreenPostProcess w e.1 frameTime k
        (if e.1 = PostProcess.Bloom then SaveCurrentSceneToTexture k s else s)
  | .Polygon =>
      PolygonPostProcess w e.1 (GetWindowPoint (if w.argumentsRightToLeft then k + 1 else k))
        (w.MatrixTranslation ⟨0, 0, 0⟩) frameTime k s
  | .Area => AreaPostProcess w e.1 w.gCubePosition ⟨10, 10⟩ frameTime k s

/-- The effect of `n` successive calls of `RemoveProcessAndMode`. -/
def removeTimes : Nat → SceneState → Option SceneState
  | 0, s => some s
  | n + 1, s => RemoveProcessAndMode s >>= removeTimes n

/-! ## Sample inputs -/

/-- A camera at the origin looking along the z axis: the distance of a point is
its z coordinate. -/
def sampleCamera : Camera where
  NearClip := 1 / 10
  FarClip := 10000
  PixelFromWorldPt := fun pt _ _ => pt
  PixelSizeInWorldSpace := fun _ _ _ => ⟨1, 1⟩
  ViewProjectionMatrix := fun v => v

/-- A world in which the cube, the anchor of the Area mode, is in front of the
camera. -/
def sampleWorld : World where
  gCamera := sampleCamera
  gViewportWidth := 1280
  gViewportHeight := 960
  gCubePosition := ⟨42, 5, 30⟩
  random1 := 0
  random2 := 0
  cos := fun _ => 1
  MatrixTranslation := fun t v => ⟨v.x + t.x * v.w, v.y + t.y * v.w, v.z + t.z * v.w, v.w⟩
  argumentsRightToLeft := true

/-- A constants block with every value zero. -/
def zeroConstants : PostProcessingConstants where
  area2DTopLeft := ⟨0, 0⟩
  area2DSize := ⟨0, 0⟩
  area2DDepth := 0
  polygon2DPoints := []
  dualFilterIteration := 0
  elapsedTime := 0
  period := 0
  topColour := ⟨0, 0, 0⟩
  bottomColour := ⟨0, 0, 0⟩
  underWaterTimer := 0
  blurAmount := 0
  noiseScale := ⟨0, 0⟩
  noiseOffset := ⟨0, 0⟩
  burnHeight := 0
  distortLevel := 0
  spiralLevel := 0
  heatHazeTimer := 0
  tintColour := ⟨0, 0, 0⟩

/-- The globals as initialised, with the given stack and current effect, and
no device call issued yet. -/
def sampleState (stack : List (PostProcess × PostProcessMode)) (current : PostProcess) :
    SceneState where
  gCurrentPostProcess := current
  gCurrentPostProcessMode := .Fullscreen
  gPostProcessAndModeStack := stack
  windowPostProcesses := [.NightVision, .Contour, .Sepia, .Inverted]
  lockFPS := true
  gPostProcessingConstants := zeroConstants
  wiggle := 0
  gpu := []

/-- The four window entries pushed by `InitScene`. -/
def windowStack : List (PostProcess × PostProcessMode) :=
  [(.NightVision, .Polygon), (.Contour, .Polygon), (.Sepia, .Polygon), (.Inverted, .Polygon)]

/-- Bindings before any call of the frame. -/
def samplePipeline : Pipeline where
  renderTarget := none
  texture0 := .nullSRV
  texture1 := .nullSRV
  pixelShader := .gPixelLightingPixelShader
  vertexShader := .gPixelLightingVertexShader
  blendState := .gNoBlendingState

/-- The routes of the draws of the passes over a stack, one list per entry,
the first entry being run with pass index `processIndex`. -/
def stackRoutes (behind : Bool) :
    List (PostProcess × PostProcessMode) → Int → List (List (Option Texture2D × Option Texture2D))
  | [], _ => []
  | e :: rest, processIndex =>
      entryRoutes e processIndex behind :: stackRoutes behind rest (processIndex + 1)

/-! ## Derived views of the state and of a pass -/

/-- The globals that the rendering functions only read, together with the two
that the loop of `RenderScene` assigns. -/
def SceneState.control (s : SceneState) :
    PostProcess × PostProcessMode × List (PostProcess × PostProcessMode)
      × List PostProcess × Bool :=
  (s.gCurrentPostProcess, s.gCurrentPostProcessMode, s.gPostProcessAndModeStack,
    s.windowPostProcesses, s.lockFPS)

/-- The two timers of the constants block. -/
def PostProcessingConstants.timers (k : PostProcessingConstants) : ℚ × ℚ :=
  (k.underWaterTimer, k.heatHazeTimer)

/-- The three area constants of the constants block. -/
def PostProcessingConstants.area (k : PostProcessingConstants) : CVector2 × CVector2 × ℚ :=
  (k.area2DTopLeft, k.area2DSize, k.area2DDepth)

/-- A device call with the payload of a constants upload erased. -/
def Cmd.shape : Cmd → Cmd
  | .UpdateConstantBuffer _ => .UpdateConstantBuffer zeroConstants
  | c => c

/-- Whether the calls of a pass begin with the calls of a complete
`FullScreenPostProcess(Copy, _, processIndex)` and go on after it, that is,
whether the pass performs a copy step before its own step; the constants
uploaded are not compared. -/
def beginsWithCopyStep (processIndex : Int) (seg : List Cmd) : Bool :=
  let copy := (fullScreenCmds .Copy processIndex zeroConstants).map Cmd.shape
  decide ((seg.map Cmd.shape).take copy.length = copy) && decide (copy.length < seg.length)

/-- The number of passes that perform a copy step before their own step, the
first pass of the list having pass index `processIndex`. -/
def implicitCopySteps : List (List Cmd) → Int → Nat
  | [], _ => 0
  | seg :: rest, processIndex =>
      (if beginsWithCopyStep processIndex seg then 1 else 0)
        + implicitCopySteps rest (processIndex + 1)

/-- The sample world with the cube exactly at the near clip distance. -/
def nearWorld : World :=
  { sampleWorld with gCubePosition := ⟨42, 5, 1 / 10⟩ }

/-- The sample world with the cube behind the camera. -/
def behindWorld : World :=
  { sampleWorld with gCubePosition := ⟨42, 5, -3⟩ }

/-! ## Key input and the update step -/

/-- The key codes that `UpdateScene` tests with `KeyHit`. -/
inductive KeyCode
  | Key_1
  | Key_2
  | Key_3
  | Key_4
  | Key_5
  | Key_6
  | Key_7
  | Key_8
  | Key_9
  | Key_0
  | Key_Q
  | Key_E
  | Key_R
  | Key_T
  | Key_Y
  | Key_U
  | Key_I
  | Key_O
  | Key_P
  | Key_L
  | Key_Back
  deriving DecidableEq, Repr

/-- Source function `UpdateScene`, as far as it touches the post-processing
globals.  `KeyHit` is declared in `Input.h`; its results are an input here:
`KeyHit key n` is what the test number `n` (from 0) of `key` within this call
returns, so that both a `KeyHit` that consumes the key press and one that does
not are covered (`Key_Q` and `Key_P` are tested twice).  The light orbit, the
camera control and the window title are not modelled.  The result is `none`
when `RemoveProcessAndMode` pops an empty vector. -/
def UpdateScene (KeyHit : KeyCode → Nat → Bool) (s : SceneState) : Option SceneState :=
  let s := if KeyHit .Key_1 0 then AddProcessAndMode .VerticalColourGradient .Fullscreen s else s
  let s := if KeyHit .Key_2 0 then UpdateScene_Key_2 s else s
  let s := if KeyHit .Key_3 0 then AddProcessAndMode .UnderWater .Fullscreen s else s
  let s := if KeyHit .Key_4 0 then AddProcessAndMode .DepthOfField .Fullscreen s else s
  let s := if KeyHit .Key_5 0 then AddProcessAndMode .Distort .Fullscreen s else s
  let s := if KeyHit .Key_6 0 then AddProcessAndMode .Spiral .Fullscreen s else s
  let s := if KeyHit .Key_7 0 then AddProcessAndMode .HeatHaze .Fullscreen s else s
  let s := if KeyHit .Key_8 0 then AddProcessAndMode .Tint .Fullscreen s else s
  let s := if KeyHit .Key_9 0 then AddProcessAndMode .GreyNoise .Fullscreen s else s
  let s := if KeyHit .Key_Q 0 then AddProcessAndMode .Copy .Fullscreen s else s
  let s := if KeyHit .Key_Q 1 then AddProcessAndMode .Copy .Fullscreen s else s
  let s := if KeyHit .Key_E 0 then AddProcessAndMode .HueVerticalColourGradient .Fullscreen s else s
  let s := if KeyHit .Key_R 0 then AddProcessAndMode .NightVision .Fullscreen s else s
  let s := if KeyHit .Key_T 0 then AddProcessAndMode .Sepia .Fullscreen s else s
  let s := if KeyHit .Key_Y 0 then AddProcessAndMode .Inverted .Fullscreen s else s
  let s := if KeyHit .Key_U 0 then AddProcessAndMode .Contour .Fullscreen s else s
  let s := if KeyHit .Key_I 0 then AddProcessAndMode .GameBoy .Fullscreen s else s
  let s := if KeyHit .Key_O 0 then UpdateScene_Key_O s else s
  let s := if KeyHit .Key_P 0 then AddProcessAndMode .Burn .Fullscreen s else s
  let s := if KeyHit .Key_0 0 then UpdateScene_Key_0 s else s
  let r := if KeyHit .Key_Back 0 then RemoveProcessAndMode s else some s
  r.map fun s => if KeyHit .Key_P 1 then { s with lockFPS := !s.lockFPS } else s

/-- The key input in which exactly the first test of `key` succeeds. -/
def onlyKey (key : KeyCode) : KeyCode → Nat → Bool :=
  fun k n => decide (k = key ∧ n = 0)

/-! ## Accumulators and intermediate states of a frame -/

/-- The values that `SelectPostProcessShaderAndTextures` computes from their
own previous value: the iteration counter, the three timers, the burn height
and the static local `wiggle`. -/
inductive Accumulator
  | dualFilterIteration
  | elapsedTime
  | underWaterTimer
  | burnHeight
  | wiggle
  | heatHazeTimer
  deriving DecidableEq, Repr

/-- The current value of an accumulator. -/
def Accumulator.value : Accumulator → SceneState → ℚ
  | .dualFilterIteration, s => s.gPostProcessingConstants.dualFilterIteration
  | .elapsedTime, s => s.gPostProcessingConstants.elapsedTime
  | .underWaterTimer, s => s.gPostProcessingConstants.underWaterTimer
  | .burnHeight, s => s.gPostProcessingConstants.burnHeight
  | .wiggle, s => s.wiggle
  | .heatHazeTimer, s => s.gPostProcessingConstants.heatHazeTimer

/-- All six accumulators. -/
def Accumulator.all : List Accumulator :=
  [.dualFilterIteration, .elapsedTime, .underWaterTimer, .burnHeight, .wiggle, .heatHazeTimer]

/-- Selecting the effect can change the accumulator: some state and frame time
exist for which `SelectPostProcessShaderAndTextures` gives it a new value. -/
def updates (postProcess : PostProcess) (acc : Accumulator) : Prop :=
  ∃ (w : World) (t : ℚ) (s : SceneState),
    acc.value (SelectPostProcessShaderAndTextures w postProcess t s) ≠ acc.value s

/-- The state of `RenderScene` after the first `k` iterations of its loop over
the stack. -/
def stateAfterPasses (w : World) (frameTime : ℚ) (s : SceneState) (k : Nat) : SceneState :=
  (renderEntries w frameTime (s.gPostProcessAndModeStack.take k) 0 (renderMainScene s)).1

/-- The constants blocks uploaded by a sequence of device calls, in order. -/
def uploads (cmds : List Cmd) : List PostProcessingConstants :=
  cmds.filterMap fun
    | .UpdateConstantBuffer k => some k
    | _ => none

/-- The effects whose arm of `SelectPostProcessShaderAndTextures` assigns the
accumulator. -/
def assigns : PostProcess → Accumulator → Bool
  | .DualFiltering, .dualFilterIteration => true
  | .Bloom, .dualFilterIteration => true
  | .Dilation, .elapsedTime => true
  | .HueVerticalColourGradient, .elapsedTime => true
  | .UnderWater, .underWaterTimer => true
  | .Burn, .burnHeight => true
  | .Spiral, .wiggle => true
  | .HeatHaze, .heatHazeTimer => true
  | _, _ => false

/-- The two pairs of effects that assign a common accumulator: Dilation and
HueVerticalColourGradient (`elapsedTime`), Bloom and DualFiltering
(`dualFilterIteration`). -/
def sharePair (a b : PostProcess) : Bool :=
  (a = .Dilation && b = .HueVerticalColourGradient)
  || (a = .HueVerticalColourGradient && b = .Dilation)
  || (a = .Bloom && b = .DualFiltering)
  || (a = .DualFiltering && b = .Bloom)

/-- The sample state with the iteration counter and the elapsed time set. -/
def countingState : SceneState :=
  (sampleState [] .None).setConstants fun k =>
    { k with dualFilterIteration := 5, elapsedTime := 2 }

/-! ## Basic facts about the stream -/

theorem select_gpu (w : World) (pp : PostProcess) (t : ℚ) (s : SceneState) :
    (SelectPostProcessShaderAndTextures w pp t s).gpu = s.gpu ++ selectCmds pp := by
  cases pp <;>
    simp [SelectPostProcessShaderAndTextures, selectCmds, SceneState.emit, SceneState.setConstants]

theorem select_stack (w : World) (pp : PostProcess) (t : ℚ) (s : SceneState) :
    (SelectPostProcessShaderAndTextures w pp t s).gPostProcessAndModeStack
      = s.gPostProcessAndModeStack := by
  cases pp <;>
    simp [SelectPostProcessShaderAndTextures, SceneState.emit, SceneState.setConstants]

theorem fullScreen_gpu (w : World) (pp : PostProcess) (t : ℚ) (i : Int) (s : SceneState) :
    (FullScreenPostProcess w pp t i s).gpu
      = s.gpu ++ fullScreenCmds pp i (FullScreenPostProcess w pp t i s).gPostProcessingConstants := by
  by_cases h : i.tmod 2 = 0 <;>
    simp [FullScreenPostProcess, fullScreenCmds, routeCmds, h, select_gpu, SceneState.emit,
      SceneState.setConstants]

theorem save_gpu (i : Int) (s : SceneState) :
    (SaveCurrentSceneToTexture i s).gpu
      = s.gpu ++ saveCmds i (SaveCurrentSceneToTexture i s).gPostProcessingConstants := by
  by_cases h : i.tmod 2 = 0 <;>
    simp [SaveCurrentSceneToTexture, saveCmds, h, SceneState.emit, SceneState.setConstants]

theorem polygon_gpu (w : World) (pp : PostProcess) (pts : List CVector3)
    (m : CVector4 → CVector4) (t : ℚ) (i : Int) (s : SceneState) :
    ∃ k1 k2, (PolygonPostProcess w pp pts m t i s).gpu = s.gpu ++ polygonCmds pp i k1 k2 := by
  refine ⟨(FullScreenPostProcess w .Copy t i s).gPostProcessingConstants,
    (PolygonPostProcess w pp pts m t i s).gPostProcessingConstants, ?_⟩
  by_cases h : i.tmod 2 = 0 <;>
    simp [PolygonPostProcess, polygonCmds, routeCmds, h, select_gpu, fullScreen_gpu,
      SceneState.emit, SceneState.setConstants]

theorem area_gpu (w : World) (pp : PostProcess) (pt : CVector3) (size : CVector2) (t : ℚ)
    (i : Int) (s : SceneState) :
    ∃ k1 k2, (AreaPostProcess w pp pt size t i s).gpu
      = s.gpu ++ areaCmds pp i
          (decide ((w.gCamera.PixelFromWorldPt pt w.gViewportWidth w.gViewportHeight).z
            < w.gCamera.NearClip)) k1 k2 := by
  refine ⟨(FullScreenPostProcess w .Copy t i s).gPostProcessingConstants,
    (AreaPostProcess w pp pt size t i s).gPostProcessingConstants, ?_⟩
  by_cases h : (w.gCamera.PixelFromWorldPt pt w.gViewportWidth w.gViewportHeight).z
      < w.gCamera.NearClip <;>
    simp [AreaPostProcess, areaCmds, h, select_gpu, fullScreen_gpu,
      SceneState.emit, SceneState.setConstants]

theorem save_current (i : Int) (s : SceneState) :
    (SaveCurrentSceneToTexture i s).gCurrentPostProcess = s.gCurrentPostProcess := by
  by_cases h : i.tmod 2 = 0 <;>
    simp [SaveCurrentSceneToTexture, h, SceneState.emit, SceneState.setConstants]

theorem renderEntry_index (w : World) (t : ℚ) (e : PostProcess × PostProcessMode) (i : Int)
    (s : SceneState) : (renderEntry w t e i s).2 = i + 1 := by
  obtain ⟨pp, mode⟩ := e
  cases mode <;> simp [renderEntry]

theorem renderEntry_gpu (w : World) (t : ℚ) (e : PostProcess × PostProcessMode) (i : Int)
    (s : SceneState) :
    ∃ k0 k1 k2, (renderEntry w t e i s).1.gpu = s.gpu ++ entryCmds e i (areaBehind w) k0 k1 k2 := by
  obtain ⟨pp, mode⟩ := e
  cases mode
  · refine ⟨(SaveCurrentSceneToTexture i
        { s with gCurrentPostProcess := pp, gCurrentPostProcessMode := .Fullscreen }
      ).gPostProcessingConstants,
      (renderEntry w t (pp, .Fullscreen) i s).1.gPostProcessingConstants,
      (renderEntry w t (pp, .Fullscreen) i s).1.gPostProcessingConstants, ?_⟩
    by_cases hb : pp = PostProcess.Bloom <;>
      simp [renderEntry, entryCmds, hb, fullScreen_gpu, save_gpu, save_current]
  · obtain ⟨k1, k2, h⟩ := area_gpu w pp w.gCubePosition ⟨10, 10⟩ t i
      { s with gCurrentPostProcess := pp, gCurrentPostProcessMode := .Area }
    exact ⟨k1, k1, k2, by simpa [renderEntry, entryCmds, areaBehind] using h⟩
  · obtain ⟨k1, k2, h⟩ := polygon_gpu w pp
      (GetWindowPoint (if w.argumentsRightToLeft then i + 1 else i))
      (w.MatrixTranslation ⟨0, 0, 0⟩) t i
      { s with gCurrentPostProcess := pp, gCurrentPostProcessMode := .Polygon }
    exact ⟨k1, k1, k2, by simpa [renderEntry, entryCmds] using h⟩

theorem cmdsOf_eq (f : SceneState → SceneState) (s : SceneState) (l : List Cmd)
    (h : (f s).gpu = s.gpu ++ l) : cmdsOf f s = l := by
  simp [cmdsOf, h]

theorem fullScreen_routes (p : Pipeline) (pp : PostProcess) (i : Int)
    (k : PostProcessingConstants) :
    (drawCalls p (fullScreenCmds pp i k)).map DrawCall.route
      = [(some (writeTexture i), some (readTexture i)), (some .backBuffer, some (readTexture i))] := by
  by_cases h : i.tmod 2 = 0 <;> cases pp <;>
    simp [fullScreenCmds, routeCmds, selectCmds, drawCalls, Pipeline.apply, DrawCall.route,
      DrawCall.target, DrawCall.input, readTexture, writeTexture, h,
      RenderTargetView.resource, ShaderResourceView.resource]

set_option maxHeartbeats 1000000 in
theorem area_routes (p : Pipeline) (pp : PostProcess) (i : Int)
    (behind : Bool) (k1 k2 : PostProcessingConstants) :
    (drawCalls p (areaCmds pp i behind k1 k2)).map DrawCall.route
      = entryRoutes (pp, .Area) i behind := by
  by_cases h : i.tmod 2 = 0 <;> cases behind <;> cases pp <;>
    simp [entryRoutes, areaCmds, fullScreenCmds, routeCmds,
      selectCmds, drawCalls, Pipeline.apply, DrawCall.route,
      DrawCall.target, DrawCall.input, readTexture, writeTexture, h,
      RenderTargetView.resource, ShaderResourceView.resource]

set_option maxHeartbeats 1000000 in
theorem polygon_routes (p : Pipeline) (pp : PostProcess) (i : Int)
    (k1 k2 : PostProcessingConstants) (behind : Bool) :
    (drawCalls p (polygonCmds pp i k1 k2)).map DrawCall.route
      = entryRoutes (pp, .Polygon) i behind := by
  by_cases h : i.tmod 2 = 0 <;> cases pp <;>
    simp [entryRoutes, polygonCmds, fullScreenCmds, routeCmds,
      selectCmds, drawCalls, Pipeline.apply, DrawCall.route,
      DrawCall.target, DrawCall.input, readTexture, writeTexture, h,
      RenderTargetView.resource, ShaderResourceView.resource]

set_option maxHeartbeats 1000000 in
theorem fullscreen_entry_routes (p : Pipeline) (pp : PostProcess) (i : Int)
    (k0 k1 : PostProcessingConstants) (behind : Bool) :
    (drawCalls p ((if pp = PostProcess.Bloom then saveCmds i k0 else [])
        ++ fullScreenCmds pp i k1)).map DrawCall.route
      = entryRoutes (pp, .Fullscreen) i behind := by
  by_cases h : i.tmod 2 = 0 <;> cases pp <;>
    simp [entryRoutes, saveCmds, fullScreenCmds, routeCmds,
      selectCmds, drawCalls, Pipeline.apply, DrawCall.route,
      DrawCall.target, DrawCall.input, readTexture, writeTexture, h,
      RenderTargetView.resource, ShaderResourceView.resource]

theorem entry_routes (p : Pipeline) (e : PostProcess × PostProcessMode) (i : Int)
    (behind : Bool) (k0 k1 k2 : PostProcessingConstants) :
    (drawCalls p (entryCmds e i behind k0 k1 k2)).map DrawCall.route
      = entryRoutes e i behind := by
  obtain ⟨pp, mode⟩ := e
  cases mode
  · exact fullscreen_entry_routes p pp i k0 k1 behind
  · exact area_routes p pp i behind k1 k2
  · exact polygon_routes p pp i k1 k2 behind

theorem depth_gpu (s : SceneState) :
    (RenderDepthBufferFromCamera s).gpu = s.gpu ++ depthCmds := by
  simp [RenderDepthBufferFromCamera, depthCmds, SceneState.emit]

theorem depth_stack (s : SceneState) :
    (RenderDepthBufferFromCamera s).gPostProcessAndModeStack = s.gPostProcessAndModeStack := by
  simp [RenderDepthBufferFromCamera, SceneState.emit]

theorem scene_gpu (s : SceneState) :
    (RenderSceneFromCamera s).gpu = s.gpu ++ sceneCmds := by
  simp [RenderSceneFromCamera, sceneCmds, SceneState.emit]

theorem mainScene_gpu (s : SceneState) :
    (renderMainScene s).gpu = s.gpu ++ mainSceneCmds
      (if s.gPostProcessAndModeStack.length ≠ 0 then .gSceneRenderTarget
        else .gBackBufferRenderTarget) := by
  by_cases h : s.gPostProcessAndModeStack = [] <;>
    simp [renderMainScene, mainSceneCmds, scene_gpu, depth_gpu, depth_stack, h, SceneState.emit]

theorem mainScene_stack (s : SceneState) :
    (renderMainScene s).gPostProcessAndModeStack = s.gPostProcessAndModeStack := by
  by_cases h : s.gPostProcessAndModeStack = [] <;>
    simp [renderMainScene, RenderSceneFromCamera, depth_stack, h, SceneState.emit]

theorem present_gpu (s : SceneState) :
    (renderPresent s).gpu = s.gpu ++ presentCmds s.lockFPS := by
  simp [renderPresent, presentCmds, depthCmds, RenderDepthBufferFromCamera, SceneState.emit]

theorem passCmds_length (w : World) (t : ℚ) (l : List (PostProcess × PostProcessMode)) :
    ∀ (i : Int) (s : SceneState), (passCmds w t l i s).length = l.length := by
  induction l with
  | nil => intro i s; rfl
  | cons e rest ih => intro i s; simp [passCmds, ih]

theorem passCmds_getElem (w : World) (t : ℚ) (l : List (PostProcess × PostProcessMode)) :
    ∀ (i : Int) (s : SceneState) (k : Nat) (seg : List Cmd),
      (passCmds w t l i s)[k]? = some seg →
      ∃ e k0 k1 k2, l[k]? = some e ∧ seg = entryCmds e (i + k) (areaBehind w) k0 k1 k2 := by
  induction l with
  | nil => intro i s k seg h; simp [passCmds] at h
  | cons e rest ih =>
    intro i s k seg h
    cases k with
    | zero =>
      obtain ⟨k0, k1, k2, hg⟩ := renderEntry_gpu w t e i s
      refine ⟨e, k0, k1, k2, by simp, ?_⟩
      simp [passCmds, hg] at h
      simp [← h]
    | succ k =>
      simp only [passCmds, List.getElem?_cons_succ, renderEntry_index] at h
      obtain ⟨e', k0, k1, k2, he, hs⟩ := ih _ _ k seg h
      refine ⟨e', k0, k1, k2, by simpa using he, ?_⟩
      rw [hs]
      congr 1
      push_cast
      ring

theorem renderEntries_gpu (w : World) (t : ℚ) (l : List (PostProcess × PostProcessMode)) :
    ∀ (i : Int) (s : SceneState),
      (renderEntries w t l i s).1.gpu = s.gpu ++ (passCmds w t l i s).flatten := by
  induction l with
  | nil => intro i s; simp [renderEntries, passCmds]
  | cons e rest ih =>
    intro i s
    obtain ⟨k0, k1, k2, hg⟩ := renderEntry_gpu w t e i s
    simp [renderEntries, passCmds, ih, hg]

theorem read_ne_write (i : Int) : readTexture i ≠ writeTexture i := by
  by_cases h : i.tmod 2 = 0 <;> simp [readTexture, writeTexture, h]

theorem fullScreen_bound (pp : PostProcess) (i : Int) (k : PostProcessingConstants) :
    boundInputs (fullScreenCmds pp i k) = [readTexture i]
      ∧ boundOffscreenTargets (fullScreenCmds pp i k) = [writeTexture i] := by
  by_cases h : i.tmod 2 = 0 <;> cases pp <;>
    simp [fullScreenCmds, routeCmds, selectCmds, boundInputs, boundOffscreenTargets,
      readTexture, writeTexture, h, RenderTargetView.resource, ShaderResourceView.resource,
      Texture2D.isOffscreen]

set_option maxHeartbeats 1000000 in
theorem polygon_bound (pp : PostProcess) (i : Int) (k1 k2 : PostProcessingConstants) :
    boundInputs (polygonCmds pp i k1 k2) = [readTexture i, readTexture i]
      ∧ boundOffscreenTargets (polygonCmds pp i k1 k2) = [writeTexture i, writeTexture i] := by
  by_cases h : i.tmod 2 = 0 <;> cases pp <;>
    simp [polygonCmds, fullScreenCmds, routeCmds, selectCmds, boundInputs,
      boundOffscreenTargets, readTexture, writeTexture, h, RenderTargetView.resource,
      ShaderResourceView.resource, Texture2D.isOffscreen]

theorem route_mem {p : Pipeline} {cmds : List Cmd} {d : DrawCall} (h : d ∈ drawCalls p cmds) :
    (d.target, d.input) ∈ (drawCalls p cmds).map DrawCall.route :=
  List.mem_map.mpr ⟨d, h, rfl⟩

theorem passCmds_routes (w : World) (t : ℚ) (p : Pipeline)
    (l : List (PostProcess × PostProcessMode)) :
    ∀ (i : Int) (s : SceneState),
      (passCmds w t l i s).map (fun seg => (drawCalls p seg).map DrawCall.route)
        = stackRoutes (areaBehind w) l i := by
  induction l with
  | nil => intro i s; rfl
  | cons e rest ih =>
    intro i s
    obtain ⟨k0, k1, k2, hg⟩ := renderEntry_gpu w t e i s
    simp [passCmds, stackRoutes, ih, hg, entry_routes, renderEntry_index]

theorem framePasses_eq (w : World) (t : ℚ) (s : SceneState) :
    framePasses w t s = passCmds w t s.gPostProcessAndModeStack 0 (renderMainScene s) := by
  by_cases h : s.gPostProcessAndModeStack = [] <;>
    simp [framePasses, mainScene_stack, h, passCmds]

theorem framePasses_getElem (w : World) (t : ℚ) (s : SceneState) (k : Nat) (seg : List Cmd)
    (h : (framePasses w t s)[k]? = some seg) (p : Pipeline) :
    ∃ e, s.gPostProcessAndModeStack[k]? = some e
      ∧ (drawCalls p seg).map DrawCall.route = entryRoutes e k (areaBehind w) := by
  rw [framePasses_eq] at h
  obtain ⟨e, k0, k1, k2, he, hs⟩ := passCmds_getElem w t _ 0 _ k seg h
  refine ⟨e, he, ?_⟩
  rw [hs, entry_routes, zero_add]

theorem nat_tmod (k : Nat) : (k : Int).tmod 2 = (k : Int) % 2 :=
  Int.tmod_eq_emod (Int.ofNat_nonneg k) (by norm_num)

theorem read_succ (k : Nat) : readTexture ((k : Int) + 1) = writeTexture k := by
  have h1 := nat_tmod k
  have h2 := nat_tmod (k + 1)
  push_cast at h2
  by_cases h : (k : Int) % 2 = 0
  · have : ((k : Int) + 1) % 2 = 1 := by omega
    simp [readTexture, writeTexture, h1, h2, h, this]
  · have : ((k : Int) + 1) % 2 = 0 := by omega
    simp [readTexture, writeTexture, h1, h2, h, this]

theorem write_pingPong (i : Int) : (writeTexture i).isPingPong = true := by
  by_cases h : i.tmod 2 = 0 <;> simp [writeTexture, h, Texture2D.isPingPong]

theorem entryRoutes_input (e : PostProcess × PostProcessMode) (i : Int) (b : Bool) :
    ∀ r ∈ entryRoutes e i b, r.2 = some (readTexture i) := by
  obtain ⟨pp, mode⟩ := e
  cases mode <;> cases b <;> by_cases hb : pp = PostProcess.Bloom <;>
    simp [entryRoutes, hb]

theorem entryRoutes_target (e : PostProcess × PostProcessMode) (i : Int) (b : Bool) :
    ∀ r ∈ entryRoutes e i b, ∀ x, r.1 = some x → x.isPingPong = true → x = writeTexture i := by
  obtain ⟨pp, mode⟩ := e
  cases mode <;> cases b <;> by_cases hb : pp = PostProcess.Bloom <;>
    simp [entryRoutes, hb, Texture2D.isPingPong]

theorem entryRoutes_write (e : PostProcess × PostProcessMode) (i : Int) (b : Bool) :
    (some (writeTexture i), some (readTexture i)) ∈ entryRoutes e i b := by
  obtain ⟨pp, mode⟩ := e
  cases mode <;> cases b <;> by_cases hb : pp = PostProcess.Bloom <;> simp [entryRoutes, hb]

theorem entryRoutes_last (e : PostProcess × PostProcessMode) (i : Int) (b : Bool) :
    (entryRoutes e i b).getLast? = some (some .backBuffer, some (readTexture i)) := by
  obtain ⟨pp, mode⟩ := e
  cases mode <;> cases b <;> by_cases hb : pp = PostProcess.Bloom <;> simp [entryRoutes, hb]

theorem framePasses_routes (w : World) (t : ℚ) (s : SceneState) (p : Pipeline) :
    (framePasses w t s).map (fun seg => (drawCalls p seg).map DrawCall.route)
      = stackRoutes (areaBehind w) s.gPostProcessAndModeStack 0 := by
  rw [framePasses_eq, passCmds_routes]

theorem write_nat (k : Nat) :
    writeTexture (k : Int) = if k % 2 = 0 then .gSceneTextureTwo else .gSceneTexture := by
  have h1 := nat_tmod k
  by_cases h : k % 2 = 0
  · have : (k : Int) % 2 = 0 := by omega
    simp [writeTexture, h1, h, this]
  · have : ¬ (k : Int) % 2 = 0 := by omega
    simp [writeTexture, h1, h, this]

theorem select_lockFPS (w : World) (pp : PostProcess) (t : ℚ) (s : SceneState) :
    (SelectPostProcessShaderAndTextures w pp t s).lockFPS = s.lockFPS := by
  cases pp <;>
    simp [SelectPostProcessShaderAndTextures, SceneState.emit, SceneState.setConstants]

theorem fullScreen_lockFPS (w : World) (pp : PostProcess) (t : ℚ) (i : Int) (s : SceneState) :
    (FullScreenPostProcess w pp t i s).lockFPS = s.lockFPS := by
  by_cases h : i.tmod 2 = 0 <;>
    simp [FullScreenPostProcess, h, select_lockFPS, SceneState.emit, SceneState.setConstants]

theorem save_lockFPS (i : Int) (s : SceneState) :
    (SaveCurrentSceneToTexture i s).lockFPS = s.lockFPS := by
  by_cases h : i.tmod 2 = 0 <;>
    simp [SaveCurrentSceneToTexture, h, SceneState.emit, SceneState.setConstants]

theorem polygon_lockFPS (w : World) (pp : PostProcess) (pts : List CVector3)
    (m : CVector4 → CVector4) (t : ℚ) (i : Int) (s : SceneState) :
    (PolygonPostProcess w pp pts m t i s).lockFPS = s.lockFPS := by
  by_cases h : i.tmod 2 = 0 <;>
    simp [PolygonPostProcess, h, select_lockFPS, fullScreen_lockFPS, SceneState.emit,
      SceneState.setConstants]

theorem area_lockFPS (w : World) (pp : PostProcess) (pt : CVector3) (size : CVector2) (t : ℚ)
    (i : Int) (s : SceneState) :
    (AreaPostProcess w pp pt size t i s).lockFPS = s.lockFPS := by
  by_cases h : (w.gCamera.PixelFromWorldPt pt w.gViewportWidth w.gViewportHeight).z
      < w.gCamera.NearClip <;>
    simp [AreaPostProcess, h, select_lockFPS, fullScreen_lockFPS, SceneState.emit,
      SceneState.setConstants]

theorem renderEntry_lockFPS (w : World) (t : ℚ) (e : PostProcess × PostProcessMode) (i : Int)
    (s : SceneState) : (renderEntry w t e i s).1.lockFPS = s.lockFPS := by
  obtain ⟨pp, mode⟩ := e
  cases mode
  · by_cases hb : pp = PostProcess.Bloom <;>
      simp [renderEntry, hb, fullScreen_lockFPS, save_lockFPS]
  · simp [renderEntry, area_lockFPS]
  · simp [renderEntry, polygon_lockFPS]

theorem renderEntries_lockFPS (w : World) (t : ℚ) (l : List (PostProcess × PostProcessMode)) :
    ∀ (i : Int) (s : SceneState), (renderEntries w t l i s).1.lockFPS = s.lockFPS := by
  induction l with
  | nil => intro i s; rfl
  | cons e rest ih => intro i s; simp [renderEntries, ih, renderEntry_lockFPS]

theorem mainScene_lockFPS (s : SceneState) : (renderMainScene s).lockFPS = s.lockFPS := by
  by_cases h : s.gPostProcessAndModeStack = [] <;>
    simp [renderMainScene, RenderSceneFromCamera, RenderDepthBufferFromCamera, h,
      SceneState.emit]

theorem renderScene_gpu (w : World) (t : ℚ) (s : SceneState) :
    cmdsOf (RenderScene w t) s
      = mainSceneCmds (if s.gPostProcessAndModeStack.length ≠ 0 then .gSceneRenderTarget
          else .gBackBufferRenderTarget)
        ++ (framePasses w t s).flatten ++ presentCmds s.lockFPS := by
  apply cmdsOf_eq
  rw [RenderScene, present_gpu]
  by_cases h : s.gPostProcessAndModeStack = []
  · simp [renderPostProcesses, framePasses, mainScene_stack, mainScene_gpu, mainScene_lockFPS, h]
  · have hlen : s.gPostProcessAndModeStack.length ≠ 0 := by
      simpa [List.length_eq_zero] using h
    simp only [renderPostProcesses, mainScene_stack, hlen, framePasses, renderEntries_gpu,
      renderEntries_lockFPS, mainScene_gpu, mainScene_lockFPS, ne_eq, not_false_eq_true,
      if_true, List.append_assoc]

theorem renderEntry_modePass (w : World) (t : ℚ) (e : PostProcess × PostProcessMode) (k : Nat)
    (s : SceneState) : renderEntry w t e k s = (modePass w t k e s, (k : Int) + 1) := by
  obtain ⟨pp, mode⟩ := e
  cases mode
  · by_cases hb : pp = PostProcess.Bloom <;> simp [renderEntry, modePass, hb, save_current]
  · simp [renderEntry, modePass]
  · simp [renderEntry, modePass]

theorem renderEntries_fold (w : World) (t : ℚ) (l : List (PostProcess × PostProcessMode)) :
    ∀ (n : Nat) (s : SceneState),
      (renderEntries w t l n s).1
        = (l.enumFrom n).foldl (fun st ke => modePass w t ke.1 ke.2 st) s := by
  induction l with
  | nil => intro n s; rfl
  | cons e rest ih =>
    intro n s
    have := ih (n + 1) (modePass w t n e s)
    push_cast at this
    simp [renderEntries, renderEntry_modePass, List.enumFrom, this]

theorem remove_at_floor (s : SceneState) (h : s.gPostProcessAndModeStack.length ≤ NUM_OF_WINDOWS) :
    RemoveProcessAndMode s = some s := by
  have : ¬ s.gPostProcessAndModeStack.length > NUM_OF_WINDOWS := by omega
  simp [RemoveProcessAndMode, this]

theorem select_control (w : World) (pp : PostProcess) (t : ℚ) (s : SceneState) :
    (SelectPostProcessShaderAndTextures w pp t s).control = s.control := by
  cases pp <;>
    simp [SelectPostProcessShaderAndTextures, SceneState.control, SceneState.emit,
      SceneState.setConstants]

theorem fullScreen_control (w : World) (pp : PostProcess) (t : ℚ) (i : Int) (s : SceneState) :
    (FullScreenPostProcess w pp t i s).control = s.control := by
  have h := select_control w pp t
  simp only [SceneState.control, Prod.mk.injEq] at h
  by_cases hi : i.tmod 2 = 0 <;>
    simp [FullScreenPostProcess, hi, SceneState.control, h, SceneState.emit,
      SceneState.setConstants]

theorem save_control (i : Int) (s : SceneState) :
    (SaveCurrentSceneToTexture i s).control = s.control := by
  by_cases hi : i.tmod 2 = 0 <;>
    simp [SaveCurrentSceneToTexture, hi, SceneState.control, SceneState.emit,
      SceneState.setConstants]

theorem polygon_control (w : World) (pp : PostProcess) (pts : List CVector3)
    (m : CVector4 → CVector4) (t : ℚ) (i : Int) (s : SceneState) :
    (PolygonPostProcess w pp pts m t i s).control = s.control := by
  have h := select_control w pp t
  have hf := fullScreen_control w .Copy t i s
  simp only [SceneState.control, Prod.mk.injEq] at h hf
  by_cases hi : i.tmod 2 = 0 <;>
    simp [PolygonPostProcess, hi, SceneState.control, h, hf, SceneState.emit,
      SceneState.setConstants]

theorem area_control (w : World) (pp : PostProcess) (pt : CVector3) (size : CVector2) (t : ℚ)
    (i : Int) (s : SceneState) :
    (AreaPostProcess w pp pt size t i s).control = s.control := by
  have h := select_control w pp t
  have hf := fullScreen_control w .Copy t i s
  simp only [SceneState.control, Prod.mk.injEq] at h hf
  by_cases hb : (w.gCamera.PixelFromWorldPt pt w.gViewportWidth w.gViewportHeight).z
      < w.gCamera.NearClip <;>
    simp [AreaPostProcess, hb, SceneState.control, h, hf, SceneState.emit,
      SceneState.setConstants]

theorem renderEntry_control (w : World) (t : ℚ) (e : PostProcess × PostProcessMode) (i : Int)
    (s : SceneState) :
    (renderEntry w t e i s).1.control
      = (e.1, e.2, s.gPostProcessAndModeStack, s.windowPostProcesses, s.lockFPS) := by
  obtain ⟨pp, mode⟩ := e
  cases mode
  · by_cases hb : pp = PostProcess.Bloom <;>
      simp [renderEntry, hb, fullScreen_control, save_control] <;> rfl
  · simp [renderEntry, area_control]; rfl
  · simp [renderEntry, polygon_control]; rfl

theorem renderEntries_control (w : World) (t : ℚ) (l : List (PostProcess × PostProcessMode)) :
    ∀ (i : Int) (s : SceneState),
      (renderEntries w t l i s).1.control
        = ((l.getLast?.map Prod.fst).getD s.gCurrentPostProcess,
           (l.getLast?.map Prod.snd).getD s.gCurrentPostProcessMode,
           s.gPostProcessAndModeStack, s.windowPostProcesses, s.lockFPS) := by
  induction l with
  | nil => intro i s; rfl
  | cons e rest ih =>
    intro i s
    have h := renderEntry_control w t e i s
    simp only [SceneState.control, Prod.mk.injEq] at h
    rw [renderEntries, ih]
    cases rest with
    | nil => simp [h]
    | cons e' rest' =>
      cases hx : (e' :: rest').getLast? with
      | none => simp at hx
      | some x => simp [h, hx, List.getLast?_cons_cons]

theorem mainScene_control (s : SceneState) : (renderMainScene s).control = s.control := by
  by_cases h : s.gPostProcessAndModeStack = [] <;>
    simp [renderMainScene, RenderSceneFromCamera, RenderDepthBufferFromCamera, h,
      SceneState.control, SceneState.emit]

theorem present_control (s : SceneState) : (renderPresent s).control = s.control := by
  simp [renderPresent, RenderDepthBufferFromCamera, SceneState.control, SceneState.emit]

theorem renderScene_control (w : World) (t : ℚ) (s : SceneState) :
    (RenderScene w t s).control
      = ((s.gPostProcessAndModeStack.getLast?.map Prod.fst).getD s.gCurrentPostProcess,
         (s.gPostProcessAndModeStack.getLast?.map Prod.snd).getD s.gCurrentPostProcessMode,
         s.gPostProcessAndModeStack, s.windowPostProcesses, s.lockFPS) := by
  have hm := mainScene_control s
  simp only [SceneState.control, Prod.mk.injEq] at hm
  rw [RenderScene, present_control]
  by_cases h : s.gPostProcessAndModeStack = []
  · simp [renderPostProcesses, hm, h, SceneState.control]
  · have hlen : s.gPostProcessAndModeStack.length ≠ 0 := by
      simpa [List.length_eq_zero] using h
    simp only [renderPostProcesses, hm, hlen, ne_eq, not_false_eq_true, if_true,
      renderEntries_control]

theorem renderScene_stack (w : World) (t : ℚ) (s : SceneState) :
    (RenderScene w t s).gPostProcessAndModeStack = s.gPostProcessAndModeStack := by
  have h := renderScene_control w t s
  simp only [SceneState.control, Prod.mk.injEq] at h
  exact h.2.2.1

theorem renderScene_current (w : World) (t : ℚ) (s : SceneState) :
    (RenderScene w t s).gCurrentPostProcess
      = (s.gPostProcessAndModeStack.getLast?.map Prod.fst).getD s.gCurrentPostProcess := by
  have h := renderScene_control w t s
  simp only [SceneState.control, Prod.mk.injEq] at h
  exact h.1

theorem pop_back_stack (s : SceneState) (h : s.gPostProcessAndModeStack ≠ []) :
    pop_back s = some { s with gPostProcessAndModeStack := s.gPostProcessAndModeStack.dropLast } := by
  unfold pop_back
  cases hs : s.gPostProcessAndModeStack with
  | nil => exact absurd hs h
  | cons e rest => rfl

theorem addDualFilterings_stack (n : Nat) :
    ∀ s : SceneState, (addDualFilterings n s).gPostProcessAndModeStack
      = s.gPostProcessAndModeStack ++ List.replicate n (.DualFiltering, .Fullscreen) := by
  induction n with
  | zero => intro s; simp [addDualFilterings]
  | succ n ih =>
    intro s
    simp [addDualFilterings, ih, AddProcessAndMode, List.replicate_succ]

theorem key2_stack (s : SceneState) :
    (UpdateScene_Key_2 s).gPostProcessAndModeStack
      = s.gPostProcessAndModeStack
        ++ [(.GaussianBlurHorizontal, .Fullscreen), (.GaussianBlurVertical, .Fullscreen)] := by
  simp [UpdateScene_Key_2, AddProcessAndMode]

theorem keyO_stack (s : SceneState) :
    (UpdateScene_Key_O s).gPostProcessAndModeStack
      = s.gPostProcessAndModeStack ++ [(.Bloom, .Fullscreen)]
        ++ List.replicate 8 (.DualFiltering, .Fullscreen) ++ [(.MergeTextures, .Fullscreen)] := by
  simp [UpdateScene_Key_O, AddProcessAndMode, addDualFilterings_stack]

theorem createWindows_stack (b : List PostProcess) :
    ∀ s : SceneState, (CreateWindowPostProcesses b s).gPostProcessAndModeStack
      = s.gPostProcessAndModeStack ++ b.map (fun e => (e, PostProcessMode.Polygon)) := by
  induction b with
  | nil => intro s; simp [CreateWindowPostProcesses]
  | cons e rest ih => intro s; simp [CreateWindowPostProcesses, ih, AddProcessAndMode]

theorem createWindows_windows (b : List PostProcess) :
    ∀ s : SceneState, (CreateWindowPostProcesses b s).windowPostProcesses
      = s.windowPostProcesses := by
  induction b with
  | nil => intro s; simp [CreateWindowPostProcesses]
  | cons e rest ih => intro s; simp [CreateWindowPostProcesses, ih, AddProcessAndMode]

theorem remove_stack (s : SceneState) (h : NUM_OF_WINDOWS < s.gPostProcessAndModeStack.length) :
    (RemoveProcessAndMode s).map (fun s' => s'.gPostProcessAndModeStack)
      = some (if s.gCurrentPostProcess = PostProcess.GaussianBlurVertical then
          s.gPostProcessAndModeStack.dropLast.dropLast
        else if s.gCurrentPostProcess = PostProcess.MergeTextures then
          s.gPostProcessAndModeStack.dropLast.dropLast.dropLast.dropLast
        else s.gPostProcessAndModeStack.dropLast) := by
  have key : ∀ s' : SceneState, 0 < s'.gPostProcessAndModeStack.length →
      pop_back s' = some { s' with gPostProcessAndModeStack := s'.gPostProcessAndModeStack.dropLast } :=
    fun s' h' => pop_back_stack s' (List.length_pos.mp h')
  have h4 : 4 < s.gPostProcessAndModeStack.length := h
  have hgt : s.gPostProcessAndModeStack.length > NUM_OF_WINDOWS := h
  simp only [RemoveProcessAndMode, hgt, if_true]
  by_cases h1 : s.gCurrentPostProcess = PostProcess.GaussianBlurVertical
  · simp only [h1, if_true]
    rw [key s (by omega)]
    simp only [Option.bind_eq_bind, Option.some_bind]
    rw [key _ (by simp only [List.length_dropLast]; omega)]
    rfl
  · by_cases h2 : s.gCurrentPostProcess = PostProcess.MergeTextures
    · simp only [h1, h2, if_true, if_false]
      rw [key s (by omega)]
      simp only [Option.bind_eq_bind, Option.some_bind]
      rw [key _ (by simp only [List.length_dropLast]; omega)]
      simp only [Option.bind_eq_bind, Option.some_bind]
      rw [key _ (by simp only [List.length_dropLast]; omega)]
      simp only [Option.bind_eq_bind, Option.some_bind]
      rw [key _ (by simp only [List.length_dropLast]; omega)]
      rfl
    · simp only [h1, h2, if_false]
      rw [key s (by omega)]
      rfl

theorem createWindows_eq (b : List PostProcess) :
    ∀ s : SceneState, CreateWindowPostProcesses b s
      = { s with gPostProcessAndModeStack :=
            s.gPostProcessAndModeStack ++ b.map (fun e => (e, PostProcessMode.Polygon)) } := by
  induction b with
  | nil => intro s; simp [CreateWindowPostProcesses]
  | cons e rest ih => intro s; simp [CreateWindowPostProcesses, ih, AddProcessAndMode]

theorem tmod_two_eq_zero_iff (i : Int) : i.tmod 2 = 0 ↔ i % 2 = 0 := by
  rw [← Int.dvd_iff_tmod_eq_zero, Int.dvd_iff_emod_eq_zero]

theorem select_area (w : World) (pp : PostProcess) (t : ℚ) (s : SceneState) :
    (SelectPostProcessShaderAndTextures w pp t s).gPostProcessingConstants.area
      = s.gPostProcessingConstants.area := by
  cases pp <;>
    simp [SelectPostProcessShaderAndTextures, PostProcessingConstants.area, SceneState.emit,
      SceneState.setConstants]

theorem fullScreen_area (w : World) (pp : PostProcess) (t : ℚ) (i : Int) (s : SceneState) :
    (FullScreenPostProcess w pp t i s).gPostProcessingConstants.area = (⟨0, 0⟩, ⟨1, 1⟩, 0) := by
  by_cases hi : i.tmod 2 = 0 <;>
    simp [FullScreenPostProcess, hi, PostProcessingConstants.area, SceneState.emit,
      SceneState.setConstants]

theorem drawCalls_append (a b : List Cmd) :
    ∀ p : Pipeline, drawCalls p (a ++ b) = drawCalls p a ++ drawCalls (p.run a) b := by
  induction a with
  | nil => intro p; rfl
  | cons c rest ih =>
    intro p
    cases c <;> simp [drawCalls, Pipeline.run, ih] <;> rfl

theorem select_no_draw (pp : PostProcess) (p : Pipeline) :
    drawCalls p (selectCmds pp ++ [Cmd.OMSetBlendState .gAlphaBlendingState]) = [] := by
  cases pp <;> simp [selectCmds, drawCalls]

theorem area_behind_gpu (w : World) (pp : PostProcess) (pt : CVector3) (size : CVector2) (t : ℚ)
    (i : Int) (s : SceneState)
    (h : (w.gCamera.PixelFromWorldPt pt w.gViewportWidth w.gViewportHeight).z
      < w.gCamera.NearClip) :
    cmdsOf (AreaPostProcess w pp pt size t i) s
      = cmdsOf (FullScreenPostProcess w .Copy t i) s ++ selectCmds pp
        ++ [Cmd.OMSetBlendState .gAlphaBlendingState] := by
  rw [cmdsOf_eq _ s _ (fullScreen_gpu w .Copy t i s)]
  apply cmdsOf_eq
  simp [AreaPostProcess, h, select_gpu, fullScreen_gpu, SceneState.emit]

theorem area_depth (w : World) (pp : PostProcess) (pt : CVector3) (size : CVector2) (t : ℚ)
    (i : Int) (s : SceneState)
    (h : ¬ (w.gCamera.PixelFromWorldPt pt w.gViewportWidth w.gViewportHeight).z
      < w.gCamera.NearClip) :
    (AreaPostProcess w pp pt size t i s).gPostProcessingConstants.area2DDepth
      = w.gCamera.FarClip
          * ((w.gCamera.PixelFromWorldPt pt w.gViewportWidth w.gViewportHeight).z
            - w.gCamera.NearClip)
          / (w.gCamera.FarClip - w.gCamera.NearClip)
          / (w.gCamera.PixelFromWorldPt pt w.gViewportWidth w.gViewportHeight).z := by
  simp [AreaPostProcess, h, SceneState.emit, SceneState.setConstants]

set_option maxHeartbeats 1000000 in
theorem entry_begins (e : PostProcess × PostProcessMode) (i : Int) (b : Bool)
    (k0 k1 k2 : PostProcessingConstants) :
    beginsWithCopyStep i (entryCmds e i b k0 k1 k2)
      = decide (e.2 ≠ PostProcessMode.Fullscreen) := by
  obtain ⟨pp, mode⟩ := e
  by_cases h : i.tmod 2 = 0 <;> cases mode <;> cases b <;> cases pp <;>
    simp [beginsWithCopyStep, entryCmds, areaCmds, polygonCmds, saveCmds, fullScreenCmds,
      routeCmds, selectCmds, Cmd.shape, h]

theorem passCmds_copySteps (w : World) (t : ℚ) (l : List (PostProcess × PostProcessMode)) :
    ∀ (i : Int) (s : SceneState),
      implicitCopySteps (passCmds w t l i s) i
        = l.countP (fun e => decide (e.2 ≠ PostProcessMode.Fullscreen)) := by
  induction l with
  | nil => intro i s; rfl
  | cons e rest ih =>
    intro i s
    obtain ⟨k0, k1, k2, hg⟩ := renderEntry_gpu w t e i s
    simp only [passCmds, implicitCopySteps, hg, List.drop_left, entry_begins, renderEntry_index,
      ih, List.countP_cons]
    omega

theorem area_split (w : World) (pp : PostProcess) (pt : CVector3) (size : CVector2) (t : ℚ)
    (i : Int) (s : SceneState) :
    ∃ rest, cmdsOf (AreaPostProcess w pp pt size t i) s
      = cmdsOf (FullScreenPostProcess w .Copy t i) s ++ selectCmds pp ++ rest := by
  rw [cmdsOf_eq _ s _ (fullScreen_gpu w .Copy t i s)]
  by_cases h : (w.gCamera.PixelFromWorldPt pt w.gViewportWidth w.gViewportHeight).z
      < w.gCamera.NearClip
  · refine ⟨[Cmd.OMSetBlendState .gAlphaBlendingState], cmdsOf_eq _ s _ ?_⟩
    simp [AreaPostProcess, h, select_gpu, fullScreen_gpu, SceneState.emit]
  · refine ⟨[Cmd.OMSetBlendState .gAlphaBlendingState,
      Cmd.UpdateConstantBuffer (AreaPostProcess w pp pt size t i s).gPostProcessingConstants,
      Cmd.Draw], cmdsOf_eq _ s _ ?_⟩
    simp [AreaPostProcess, h, select_gpu, fullScreen_gpu, SceneState.emit,
      SceneState.setConstants]

theorem polygon_split (w : World) (pp : PostProcess) (pts : List CVector3)
    (m : CVector4 → CVector4) (t : ℚ) (i : Int) (s : SceneState) :
    ∃ rest, cmdsOf (PolygonPostProcess w pp pts m t i) s
      = cmdsOf (FullScreenPostProcess w .Copy t i) s
        ++ ([Cmd.PSSetShaderResources 0 .nullSRV] ++ routeCmds i) ++ selectCmds pp ++ rest := by
  rw [cmdsOf_eq _ s _ (fullScreen_gpu w .Copy t i s)]
  refine ⟨[Cmd.UpdateConstantBuffer
      (PolygonPostProcess w pp pts m t i s).gPostProcessingConstants,
    Cmd.VSSetShader .g2DPolygonVertexShader, Cmd.Draw,
    Cmd.OMSetRenderTargets (some .gBackBufferRenderTarget) .gDepthStencil, Cmd.Draw],
    cmdsOf_eq _ s _ ?_⟩
  by_cases h : i.tmod 2 = 0 <;>
    simp [PolygonPostProcess, routeCmds, h, select_gpu, fullScreen_gpu, SceneState.emit,
      SceneState.setConstants]

theorem save_bound (i : Int) (k : PostProcessingConstants) :
    boundInputs (saveCmds i k) = [readTexture i]
      ∧ boundOffscreenTargets (saveCmds i k) = [.gSceneTextureCopy]
      ∧ (∀ p, (drawCalls p (saveCmds i k)).map DrawCall.route
          = [(some .gSceneTextureCopy, some (readTexture i)),
             (some .backBuffer, some (readTexture i))])
      ∧ (∀ rtv dsv, Cmd.OMSetRenderTargets (some rtv) dsv ∈ saveCmds i k →
          rtv = .gSceneRenderTargetCopy ∨ rtv = .gBackBufferRenderTarget) := by
  by_cases h : i.tmod 2 = 0 <;>
    simp [saveCmds, boundInputs, boundOffscreenTargets, readTexture, h, drawCalls,
      Pipeline.apply, DrawCall.route, DrawCall.target, DrawCall.input,
      RenderTargetView.resource, ShaderResourceView.resource, Texture2D.isOffscreen] <;>
    (intro rtv dsv hm; rcases hm with ⟨h1, -⟩ | ⟨h1, -⟩ <;> simp [h1])

theorem area_bound (pp : PostProcess) (i : Int) (b : Bool) (k1 k2 : PostProcessingConstants) :
    boundOffscreenTargets (areaCmds pp i b k1 k2) = [writeTexture i] := by
  by_cases h : i.tmod 2 = 0 <;> cases pp <;> cases b <;>
    simp [areaCmds, fullScreenCmds, routeCmds, selectCmds, boundOffscreenTargets, writeTexture,
      h, RenderTargetView.resource, Texture2D.isOffscreen]

theorem write_ne_copy (i : Int) : writeTexture i ≠ .gSceneTextureCopy := by
  by_cases h : i.tmod 2 = 0 <;> simp [writeTexture, h]

theorem select_timers (w : World) (pp : PostProcess) (t : ℚ) (s : SceneState) :
    (SelectPostProcessShaderAndTextures w pp t s).gPostProcessingConstants.timers
      = (s.gPostProcessingConstants.underWaterTimer
          + (if pp = PostProcess.UnderWater then t else 0),
         s.gPostProcessingConstants.heatHazeTimer
          + (if pp = PostProcess.HeatHaze then t else 0)) := by
  cases pp <;>
    simp [SelectPostProcessShaderAndTextures, PostProcessingConstants.timers, SceneState.emit,
      SceneState.setConstants]

theorem fullScreen_timers (w : World) (pp : PostProcess) (t : ℚ) (i : Int) (s : SceneState) :
    (FullScreenPostProcess w pp t i s).gPostProcessingConstants.timers
      = (s.gPostProcessingConstants.underWaterTimer
          + (if pp = PostProcess.UnderWater then t else 0),
         s.gPostProcessingConstants.heatHazeTimer
          + (if pp = PostProcess.HeatHaze then t else 0)) := by
  have h := select_timers w pp t
  simp only [PostProcessingConstants.timers, Prod.mk.injEq] at h
  by_cases hi : i.tmod 2 = 0 <;>
    simp [FullScreenPostProcess, hi, PostProcessingConstants.timers, h, SceneState.emit,
      SceneState.setConstants]

theorem save_timers (i : Int) (s : SceneState) :
    (SaveCurrentSceneToTexture i s).gPostProcessingConstants.timers
      = s.gPostProcessingConstants.timers := by
  by_cases hi : i.tmod 2 = 0 <;>
    simp [SaveCurrentSceneToTexture, hi, PostProcessingConstants.timers, SceneState.emit,
      SceneState.setConstants]

theorem polygon_timers (w : World) (pp : PostProcess) (pts : List CVector3)
    (m : CVector4 → CVector4) (t : ℚ) (i : Int) (s : SceneState) :
    (PolygonPostProcess w pp pts m t i s).gPostProcessingConstants.timers
      = (s.gPostProcessingConstants.underWaterTimer
          + (if pp = PostProcess.UnderWater then t else 0),
         s.gPostProcessingConstants.heatHazeTimer
          + (if pp = PostProcess.HeatHaze then t else 0)) := by
  have h := select_timers w pp t
  have hf := fullScreen_timers w .Copy t i s
  simp only [PostProcessingConstants.timers, Prod.mk.injEq] at h hf
  by_cases hi : i.tmod 2 = 0 <;>
    simp [PolygonPostProcess, hi, PostProcessingConstants.timers, h, hf, SceneState.emit,
      SceneState.setConstants]

theorem area_timers (w : World) (pp : PostProcess) (pt : CVector3) (size : CVector2) (t : ℚ)
    (i : Int) (s : SceneState) :
    (AreaPostProcess w pp pt size t i s).gPostProcessingConstants.timers
      = (s.gPostProcessingConstants.underWaterTimer
          + (if pp = PostProcess.UnderWater then t else 0),
         s.gPostProcessingConstants.heatHazeTimer
          + (if pp = PostProcess.HeatHaze then t else 0)) := by
  have h := select_timers w pp t
  have hf := fullScreen_timers w .Copy t i s
  simp only [PostProcessingConstants.timers, Prod.mk.injEq] at h hf
  by_cases hb : (w.gCamera.PixelFromWorldPt pt w.gViewportWidth w.gViewportHeight).z
      < w.gCamera.NearClip <;>
    simp [AreaPostProcess, hb, PostProcessingConstants.timers, h, hf, SceneState.emit,
      SceneState.setConstants]

theorem renderEntry_timers (w : World) (t : ℚ) (e : PostProcess × PostProcessMode) (i : Int)
    (s : SceneState) :
    (renderEntry w t e i s).1.gPostProcessingConstants.timers
      = (s.gPostProcessingConstants.underWaterTimer
          + (if e.1 = PostProcess.UnderWater then t else 0),
         s.gPostProcessingConstants.heatHazeTimer
          + (if e.1 = PostProcess.HeatHaze then t else 0)) := by
  obtain ⟨pp, mode⟩ := e
  have hs := save_timers i
  simp only [PostProcessingConstants.timers, Prod.mk.injEq] at hs
  cases mode
  · by_cases hb : pp = PostProcess.Bloom <;>
      simp [renderEntry, hb, fullScreen_timers, save_current, hs]
  · simp [renderEntry, area_timers]
  · simp [renderEntry, polygon_timers]

theorem renderEntries_timers (w : World) (t : ℚ) (l : List (PostProcess × PostProcessMode)) :
    ∀ (i : Int) (s : SceneState),
      (renderEntries w t l i s).1.gPostProcessingConstants.timers
        = (s.gPostProcessingConstants.underWaterTimer
            + t * (l.countP (fun e => decide (e.1 = PostProcess.UnderWater)) : Nat),
           s.gPostProcessingConstants.heatHazeTimer
            + t * (l.countP (fun e => decide (e.1 = PostProcess.HeatHaze)) : Nat)) := by
  induction l with
  | nil => intro i s; simp [renderEntries, PostProcessingConstants.timers]
  | cons e rest ih =>
    intro i s
    have h := renderEntry_timers w t e i s
    simp only [PostProcessingConstants.timers, Prod.mk.injEq] at h
    rw [renderEntries, ih, h.1, h.2]
    simp only [List.countP_cons, decide_eq_true_eq, Prod.mk.injEq]
    constructor
    · by_cases hu : e.1 = PostProcess.UnderWater <;> simp [hu]
      ring
    · by_cases hh : e.1 = PostProcess.HeatHaze <;> simp [hh]
      ring

theorem mainScene_constants (s : SceneState) :
    (renderMainScene s).gPostProcessingConstants = s.gPostProcessingConstants := by
  by_cases h : s.gPostProcessAndModeStack = [] <;>
    simp [renderMainScene, RenderSceneFromCamera, RenderDepthBufferFromCamera, h,
      SceneState.emit]

theorem present_constants (s : SceneState) :
    (renderPresent s).gPostProcessingConstants = s.gPostProcessingConstants := by
  simp [renderPresent, RenderDepthBufferFromCamera, SceneState.emit]

set_option maxHeartbeats 1000000 in
theorem select_acc_unchanged (w : World) (pp : PostProcess) (t : ℚ) (s : SceneState)
    (acc : Accumulator) (h : assigns pp acc = false) :
    acc.value (SelectPostProcessShaderAndTextures w pp t s) = acc.value s := by
  cases pp <;> cases acc <;>
    first
    | (simp [assigns] at h; done)
    | simp [SelectPostProcessShaderAndTextures, Accumulator.value, SceneState.emit,
        SceneState.setConstants]

theorem updates_assigns (pp : PostProcess) (acc : Accumulator) (h : updates pp acc) :
    assigns pp acc = true := by
  by_contra hn
  obtain ⟨w, t, s, hne⟩ := h
  exact hne (select_acc_unchanged w pp t s acc (by simpa using hn))

theorem updates_dualFiltering : updates .DualFiltering .dualFilterIteration :=
  ⟨sampleWorld, 0, sampleState [] .None, by
    simp [SelectPostProcessShaderAndTextures, Accumulator.value, SceneState.emit,
      SceneState.setConstants, sampleState, zeroConstants]⟩

theorem updates_hue : updates .HueVerticalColourGradient .elapsedTime :=
  ⟨sampleWorld, 1, sampleState [] .None, by
    simp [SelectPostProcessShaderAndTextures, Accumulator.value, SceneState.emit,
      SceneState.setConstants, sampleState, zeroConstants]⟩

theorem select_counter (w : World) (pp : PostProcess) (t : ℚ) (s : SceneState) :
    (SelectPostProcessShaderAndTextures w pp t s).gPostProcessingConstants.dualFilterIteration
      = if pp = PostProcess.Bloom then 0
        else if pp = PostProcess.DualFiltering then
          s.gPostProcessingConstants.dualFilterIteration + 1
        else s.gPostProcessingConstants.dualFilterIteration := by
  cases pp <;>
    simp [SelectPostProcessShaderAndTextures, SceneState.emit, SceneState.setConstants]

theorem fullScreen_counter (w : World) (pp : PostProcess) (t : ℚ) (i : Int) (s : SceneState) :
    (FullScreenPostProcess w pp t i s).gPostProcessingConstants.dualFilterIteration
      = if pp = PostProcess.Bloom then 0
        else if pp = PostProcess.DualFiltering then
          s.gPostProcessingConstants.dualFilterIteration + 1
        else s.gPostProcessingConstants.dualFilterIteration := by
  by_cases hi : i.tmod 2 = 0 <;>
    simp [FullScreenPostProcess, hi, select_counter, SceneState.emit, SceneState.setConstants]

theorem save_counter (i : Int) (s : SceneState) :
    (SaveCurrentSceneToTexture i s).gPostProcessingConstants.dualFilterIteration
      = s.gPostProcessingConstants.dualFilterIteration := by
  by_cases hi : i.tmod 2 = 0 <;>
    simp [SaveCurrentSceneToTexture, hi, SceneState.emit, SceneState.setConstants]

theorem polygon_counter (w : World) (pp : PostProcess) (pts : List CVector3)
    (m : CVector4 → CVector4) (t : ℚ) (i : Int) (s : SceneState) :
    (PolygonPostProcess w pp pts m t i s).gPostProcessingConstants.dualFilterIteration
      = if pp = PostProcess.Bloom then 0
        else if pp = PostProcess.DualFiltering then
          s.gPostProcessingConstants.dualFilterIteration + 1
        else s.gPostProcessingConstants.dualFilterIteration := by
  by_cases hi : i.tmod 2 = 0 <;>
    simp [PolygonPostProcess, hi, select_counter, fullScreen_counter, SceneState.emit,
      SceneState.setConstants]

theorem area_counter (w : World) (pp : PostProcess) (pt : CVector3) (size : CVector2) (t : ℚ)
    (i : Int) (s : SceneState) :
    (AreaPostProcess w pp pt size t i s).gPostProcessingConstants.dualFilterIteration
      = if pp = PostProcess.Bloom then 0
        else if pp = PostProcess.DualFiltering then
          s.gPostProcessingConstants.dualFilterIteration + 1
        else s.gPostProcessingConstants.dualFilterIteration := by
  by_cases hb : (w.gCamera.PixelFromWorldPt pt w.gViewportWidth w.gViewportHeight).z
      < w.gCamera.NearClip <;>
    simp [AreaPostProcess, hb, select_counter, fullScreen_counter, SceneState.emit,
      SceneState.setConstants]

theorem renderEntry_counter (w : World) (t : ℚ) (e : PostProcess × PostProcessMode) (i : Int)
    (s : SceneState) :
    (renderEntry w t e i s).1.gPostProcessingConstants.dualFilterIteration
      = if e.1 = PostProcess.Bloom then 0
        else if e.1 = PostProcess.DualFiltering then
          s.gPostProcessingConstants.dualFilterIteration + 1
        else s.gPostProcessingConstants.dualFilterIteration := by
  obtain ⟨pp, mode⟩ := e
  cases mode
  · by_cases hb : pp = PostProcess.Bloom <;>
      simp [renderEntry, hb, fullScreen_counter, save_current, save_counter]
  · simp [renderEntry, area_counter]
  · simp [renderEntry, polygon_counter]

theorem renderEntries_append (w : World) (t : ℚ) (l1 l2 : List (PostProcess × PostProcessMode)) :
    ∀ (i : Int) (s : SceneState),
      renderEntries w t (l1 ++ l2) i s
        = renderEntries w t l2 (renderEntries w t l1 i s).2 (renderEntries w t l1 i s).1 := by
  induction l1 with
  | nil => intro i s; rfl
  | cons e rest ih => intro i s; simp [renderEntries, ih]

theorem renderEntries_index (w : World) (t : ℚ) (l : List (PostProcess × PostProcessMode)) :
    ∀ (i : Int) (s : SceneState), (renderEntries w t l i s).2 = i + l.length := by
  induction l with
  | nil => intro i s; simp [renderEntries]
  | cons e rest ih =>
    intro i s
    simp [renderEntries, ih, renderEntry_index]
    ring

theorem renderEntries_counter_filters (w : World) (t : ℚ)
    (l : List (PostProcess × PostProcessMode)) (hl : ∀ e ∈ l, e.1 = PostProcess.DualFiltering) :
    ∀ (i : Int) (s : SceneState),
      (renderEntries w t l i s).1.gPostProcessingConstants.dualFilterIteration
        = s.gPostProcessingConstants.dualFilterIteration + l.length := by
  induction l with
  | nil => intro i s; simp [renderEntries]
  | cons e rest ih =>
    intro i s
    have he : e.1 = PostProcess.DualFiltering := hl e (List.mem_cons_self _ _)
    have hrest : ∀ e' ∈ rest, e'.1 = PostProcess.DualFiltering :=
      fun e' h' => hl e' (List.mem_cons_of_mem _ h')
    rw [renderEntries, ih hrest, renderEntry_counter, he]
    simp
    ring

theorem passCmds_getElem_state (w : World) (t : ℚ) (l : List (PostProcess × PostProcessMode)) :
    ∀ (i : Int) (s : SceneState) (k : Nat) (seg : List Cmd),
      (passCmds w t l i s)[k]? = some seg →
      ∃ e, l[k]? = some e
        ∧ seg = cmdsOf (fun st => (renderEntry w t e (i + k) st).1)
            (renderEntries w t (l.take k) i s).1 := by
  induction l with
  | nil => intro i s k seg h; simp [passCmds] at h
  | cons e rest ih =>
    intro i s k seg h
    cases k with
    | zero =>
      refine ⟨e, by simp, ?_⟩
      simp [passCmds] at h
      simp [← h, cmdsOf, renderEntries]
    | succ k =>
      simp only [passCmds, List.getElem?_cons_succ, renderEntry_index] at h
      obtain ⟨e', he, hs⟩ := ih _ _ k seg h
      refine ⟨e', by simpa using he, ?_⟩
      rw [hs]
      simp only [List.take_succ_cons, renderEntries, renderEntry_index]
      have : i + 1 + (k : Int) = i + ((k + 1 : Nat) : Int) := by push_cast; ring
      rw [this]

theorem stateAfter_succ (w : World) (t : ℚ) (s : SceneState) (j : Nat)
    (e : PostProcess × PostProcessMode) (he : s.gPostProcessAndModeStack[j]? = some e) :
    stateAfterPasses w t s (j + 1)
      = (renderEntry w t e j (stateAfterPasses w t s j)).1 := by
  have hj : j < s.gPostProcessAndModeStack.length := by
    rcases List.getElem?_eq_some_iff.mp he with ⟨h, -⟩
    exact h
  have htake : s.gPostProcessAndModeStack.take (j + 1)
      = s.gPostProcessAndModeStack.take j ++ [e] := by
    rw [List.take_succ, he]; rfl
  have hlen : (s.gPostProcessAndModeStack.take j).length = j := by
    rw [List.length_take]; omega
  simp only [stateAfterPasses, htake, renderEntries_append, renderEntries_index, hlen,
    renderEntries, zero_add]

theorem fullScreen_uploads (pp : PostProcess) (i : Int) (k : PostProcessingConstants) :
    uploads (fullScreenCmds pp i k) = [k] := by
  by_cases h : i.tmod 2 = 0 <;> cases pp <;>
    simp [uploads, fullScreenCmds, routeCmds, selectCmds, h]

theorem fullscreen_entry_uploads (w : World) (t : ℚ) (pp : PostProcess) (i : Int)
    (s : SceneState) (hb : pp ≠ PostProcess.Bloom) :
    uploads (cmdsOf (fun st => (renderEntry w t (pp, .Fullscreen) i st).1) s)
      = [(renderEntry w t (pp, .Fullscreen) i s).1.gPostProcessingConstants] := by
  have hg : (renderEntry w t (pp, .Fullscreen) i s).1.gpu
      = s.gpu ++ fullScreenCmds pp i
          (renderEntry w t (pp, .Fullscreen) i s).1.gPostProcessingConstants := by
    simp [renderEntry, hb, fullScreen_gpu]
  rw [cmdsOf_eq _ s _ hg, fullScreen_uploads]

theorem fullScreen_run (p : Pipeline) (pp : PostProcess) (i : Int)
    (k : PostProcessingConstants) :
    (p.run (fullScreenCmds pp i k)).renderTarget = some .gBackBufferRenderTarget := by
  by_cases h : i.tmod 2 = 0 <;> cases pp <;>
    simp [fullScreenCmds, routeCmds, selectCmds, Pipeline.run, Pipeline.apply, h]

theorem polygon_points (w : World) (pp : PostProcess) (pts : List CVector3)
    (m : CVector4 → CVector4) (t : ℚ) (i : Int) (s : SceneState) :
    (PolygonPostProcess w pp pts m t i s).gPostProcessingConstants.polygon2DPoints
      = pts.map fun point => w.gCamera.ViewProjectionMatrix (m ⟨point.x, point.y, point.z, 1⟩) := by
  by_cases hi : i.tmod 2 = 0 <;>
    simp [PolygonPostProcess, hi, SceneState.emit, SceneState.setConstants]

theorem windowPoint_outside (i : Int) (h : i < 0 ∨ 3 < i) :
    GetWindowPoint i = List.replicate 4 ⟨0, 0, 0⟩ := by
  have h0 : i ≠ 0 := by omega
  have h1 : i ≠ 1 := by omega
  have h2 : i ≠ 2 := by omega
  have h3 : i ≠ 3 := by omega
  simp [GetWindowPoint, h0, h1, h2, h3, List.replicate]

set_option maxHeartbeats 1000000 in
theorem select_acc_congr (w w' : World) (pp : PostProcess) (t : ℚ) (s s' : SceneState)
    (acc : Accumulator) (h : acc.value s = acc.value s') :
    acc.value (SelectPostProcessShaderAndTextures w pp t s)
      = acc.value (SelectPostProcessShaderAndTextures w' pp t s') := by
  cases pp <;> cases acc <;>
    simp_all [SelectPostProcessShaderAndTextures, Accumulator.value, SceneState.emit,
      SceneState.setConstants]

theorem fullScreen_acc (w : World) (pp : PostProcess) (t : ℚ) (i : Int) (s : SceneState)
    (acc : Accumulator) :
    acc.value (FullScreenPostProcess w pp t i s)
      = acc.value (SelectPostProcessShaderAndTextures w pp t s) := by
  have key : ∀ s1 : SceneState,
      acc.value (SelectPostProcessShaderAndTextures w pp t s1)
        = acc.value (SelectPostProcessShaderAndTextures w pp t s) →
      acc.value
          ((((SelectPostProcessShaderAndTextures w pp t s1).setConstants
            fun k => { k with area2DTopLeft := ⟨0, 0⟩ }).setConstants
            fun k => { k with area2DSize := ⟨1, 1⟩ }).setConstants
            fun k => { k with area2DDepth := 0 })
        = acc.value (SelectPostProcessShaderAndTextures w pp t s) := by
    intro s1 h1
    rw [← h1]
    cases acc <;> simp [Accumulator.value, SceneState.setConstants]
  by_cases hi : i.tmod 2 = 0
  · have hc := key (((((s.emit (.VSSetShader .g2DQuadVertexShader)).emit
        (.OMSetBlendState .gNoBlendingState)).emit (.PSSetShaderResources 0 .nullSRV)).emit
        (.OMSetRenderTargets (some .gSceneRenderTargetTwo) .gDepthStencil)).emit
        (.PSSetShaderResources 0 .gSceneTextureSRV))
      (select_acc_congr w w pp t _ s acc (by cases acc <;> rfl))
    rw [← hc]
    cases acc <;> simp [FullScreenPostProcess, hi, Accumulator.value, SceneState.emit]
  · have hc := key (((((s.emit (.VSSetShader .g2DQuadVertexShader)).emit
        (.OMSetBlendState .gNoBlendingState)).emit (.PSSetShaderResources 0 .nullSRV)).emit
        (.OMSetRenderTargets (some .gSceneRenderTarget) .gDepthStencil)).emit
        (.PSSetShaderResources 0 .gSceneTextureSRVTwo))
      (select_acc_congr w w pp t _ s acc (by cases acc <;> rfl))
    rw [← hc]
    cases acc <;> simp [FullScreenPostProcess, hi, Accumulator.value, SceneState.emit]

theorem copy_acc (w : World) (t : ℚ) (s : SceneState) (acc : Accumulator) :
    acc.value (SelectPostProcessShaderAndTextures w .Copy t s) = acc.value s :=
  select_acc_unchanged w .Copy t s acc (by cases acc <;> rfl)

theorem area_acc (w : World) (pp : PostProcess) (pt : CVector3) (size : CVector2) (t : ℚ)
    (i : Int) (s : SceneState) (acc : Accumulator) :
    acc.value (AreaPostProcess w pp pt size t i s)
      = acc.value (SelectPostProcessShaderAndTextures w pp t s) := by
  have h1 : acc.value (FullScreenPostProcess w .Copy t i s) = acc.value s := by
    rw [fullScreen_acc, copy_acc]
  have h2 := select_acc_congr w w pp t (FullScreenPostProcess w .Copy t i s) s acc h1
  rw [← h2]
  by_cases hb : (w.gCamera.PixelFromWorldPt pt w.gViewportWidth w.gViewportHeight).z
      < w.gCamera.NearClip <;>
    cases acc <;>
    simp [AreaPostProcess, hb, Accumulator.value, SceneState.emit, SceneState.setConstants]

theorem area_front_gpu (w : World) (pp : PostProcess) (pt : CVector3) (size : CVector2) (t : ℚ)
    (i : Int) (s : SceneState)
    (h : ¬ (w.gCamera.PixelFromWorldPt pt w.gViewportWidth w.gViewportHeight).z
      < w.gCamera.NearClip) :
    cmdsOf (AreaPostProcess w pp pt size t i) s
      = cmdsOf (FullScreenPostProcess w .Copy t i) s
        ++ (selectCmds pp ++ [Cmd.OMSetBlendState .gAlphaBlendingState])
        ++ [Cmd.UpdateConstantBuffer (AreaPostProcess w pp pt size t i s).gPostProcessingConstants,
            Cmd.Draw] := by
  rw [cmdsOf_eq _ s _ (fullScreen_gpu w .Copy t i s)]
  apply cmdsOf_eq
  simp [AreaPostProcess, h, select_gpu, fullScreen_gpu, SceneState.emit,
    SceneState.setConstants]

theorem select_blend_no_draw (pp : PostProcess) :
    Cmd.Draw ∉ selectCmds pp ++ [Cmd.OMSetBlendState .gAlphaBlendingState] := by
  cases pp <;> simp [selectCmds]

/-! ## The claims -/

/-- C1: for every pass index `i ≥ 0`, the scene texture that
`FullScreenPostProcess` and `PolygonPostProcess` bind to texture slot 0 differs
from the offscreen texture they bind as render target: for an even `i` every
such input binding is scene texture One (`gSceneTexture`) and every offscreen
target binding is Two (`gSceneTextureTwo`), for an odd `i` it is the other way
round; and no draw of either function samples the texture it writes. -/
theorem parity_input_differs_from_target (w : World) (pp : PostProcess) (pts : List CVector3)
    (m : CVector4 → CVector4) (t : ℚ) (i : Int) (s : SceneState) (hi : 0 ≤ i) :
    (i % 2 = 0 →
      boundInputs (cmdsOf (FullScreenPostProcess w pp t i) s) = [.gSceneTexture]
      ∧ boundOffscreenTargets (cmdsOf (FullScreenPostProcess w pp t i) s) = [.gSceneTextureTwo]
      ∧ boundInputs (cmdsOf (PolygonPostProcess w pp pts m t i) s)
          = [.gSceneTexture, .gSceneTexture]
      ∧ boundOffscreenTargets (cmdsOf (PolygonPostProcess w pp pts m t i) s)
          = [.gSceneTextureTwo, .gSceneTextureTwo])
    ∧ (i % 2 = 1 →
      boundInputs (cmdsOf (FullScreenPostProcess w pp t i) s) = [.gSceneTextureTwo]
      ∧ boundOffscreenTargets (cmdsOf (FullScreenPostProcess w pp t i) s) = [.gSceneTexture]
      ∧ boundInputs (cmdsOf (PolygonPostProcess w pp pts m t i) s)
          = [.gSceneTextureTwo, .gSceneTextureTwo]
      ∧ boundOffscreenTargets (cmdsOf (PolygonPostProcess w pp pts m t i) s)
          = [.gSceneTexture, .gSceneTexture])
    ∧ (∀ a ∈ boundInputs (cmdsOf (FullScreenPostProcess w pp t i) s),
        ∀ b ∈ boundOffscreenTargets (cmdsOf (FullScreenPostProcess w pp t i) s), a ≠ b)
    ∧ (∀ a ∈ boundInputs (cmdsOf (PolygonPostProcess w pp pts m t i) s),
        ∀ b ∈ boundOffscreenTargets (cmdsOf (PolygonPostProcess w pp pts m t i) s), a ≠ b)
    ∧ (∀ p, ∀ d ∈ drawCalls p (cmdsOf (FullScreenPostProcess w pp t i) s), d.input ≠ d.target)
    ∧ (∀ p, ∀ d ∈ drawCalls p (cmdsOf (PolygonPostProcess w pp pts m t i) s),
        d.input ≠ d.target) := by
  have hmod : i.tmod 2 = i % 2 := Int.tmod_eq_emod hi (by norm_num)
  have hf := cmdsOf_eq _ s _ (fullScreen_gpu w pp t i s)
  obtain ⟨k1, k2, hp⟩ := polygon_gpu w pp pts m t i s
  have hp := cmdsOf_eq _ s _ hp
  have hfb := fullScreen_bound pp i (FullScreenPostProcess w pp t i s).gPostProcessingConstants
  have hpb := polygon_bound pp i k1 k2
  have hne := read_ne_write i
  rw [hf, hp, hfb.1, hfb.2, hpb.1, hpb.2]
  refine ⟨?_, ?_, ?_, ?_, ?_, ?_⟩
  · intro h0
    simp [readTexture, writeTexture, hmod, h0]
  · intro h1
    simp [readTexture, writeTexture, hmod, h1]
  · intro a ha b hb
    simp only [List.mem_singleton] at ha hb
    rw [ha, hb]; exact hne
  · intro a ha b hb
    simp only [List.mem_cons, List.mem_singleton, List.not_mem_nil, or_false, or_self] at ha hb
    rw [ha, hb]; exact hne
  · intro p d hd h
    have hr := route_mem hd
    rw [fullScreen_routes] at hr
    simp only [List.mem_cons, List.mem_singleton, List.not_mem_nil, or_false, Prod.mk.injEq] at hr
    rcases hr with ⟨h1, h2⟩ | ⟨h1, h2⟩
    · rw [h1, h2] at h; exact hne (Option.some.inj h)
    · rw [h1, h2] at h
      have := Option.some.inj h
      by_cases h0 : i.tmod 2 = 0 <;> simp [readTexture, h0] at this
  · intro p d hd h
    have hr := route_mem hd
    rw [polygon_routes p pp i k1 k2 false] at hr
    simp only [entryRoutes, List.mem_cons, List.mem_singleton, List.not_mem_nil, or_false,
      Prod.mk.injEq] at hr
    rcases hr with ⟨h1, h2⟩ | ⟨h1, h2⟩ | ⟨h1, h2⟩ | ⟨h1, h2⟩
    · rw [h1, h2] at h; exact hne (Option.some.inj h)
    · rw [h1, h2] at h
      have := Option.some.inj h
      by_cases h0 : i.tmod 2 = 0 <;> simp [readTexture, h0] at this
    · rw [h1, h2] at h; exact hne (Option.some.inj h)
    · rw [h1, h2] at h
      have := Option.some.inj h
      by_cases h0 : i.tmod 2 = 0 <;> simp [readTexture, h0] at this

/-- C1 (instance): at pass index 2 the full-screen pass binds scene texture One
as input and the polygon pass binds Two as offscreen target, twice. -/
theorem parity_input_differs_from_target_witness :
    (0 : Int) ≤ 2
    ∧ boundInputs (cmdsOf (FullScreenPostProcess sampleWorld .Tint 0 2) (sampleState [] .None))
        = [.gSceneTexture]
    ∧ boundOffscreenTargets
        (cmdsOf (PolygonPostProcess sampleWorld .Sepia (GetWindowPoint 2) id 0 2)
          (sampleState [] .None)) = [.gSceneTextureTwo, .gSceneTextureTwo] :=
  ⟨by decide,
   ((parity_input_differs_from_target sampleWorld .Tint (GetWindowPoint 2) id 0 2
      (sampleState [] .None) (by decide)).1 (by decide)).1,
   ((parity_input_differs_from_target sampleWorld .Sepia (GetWindowPoint 2) id 0 2
      (sampleState [] .None) (by decide)).1 (by decide)).2.2.2⟩

/-- C2: for every non-empty stack rendered by `RenderScene` there is one pass
per entry; the 3D scene is drawn into scene texture One; every draw of pass 0
samples One through slot 0; and for consecutive passes `i` and `i + 1`, pass
`i` draws into one of the ping-pong scene textures and every draw of pass
`i + 1` samples, through slot 0, exactly the ping-pong texture that pass `i`
drew into.  For the stack [(GaussianBlurHorizontal, Fullscreen),
(GaussianBlurVertical, Fullscreen)] pass 0 reads One and writes Two (then the
back buffer) and pass 1 reads Two. -/
theorem each_pass_reads_previous_output (w : World) (t : ℚ) (s : SceneState)
    (h : s.gPostProcessAndModeStack ≠ []) :
    (framePasses w t s).length = s.gPostProcessAndModeStack.length
    ∧ (∀ p, ∀ d ∈ drawCalls p (cmdsOf renderMainScene s),
        d.target = none ∨ d.target = some .gSceneTexture)
    ∧ (∀ p, ∃ d ∈ drawCalls p (cmdsOf renderMainScene s), d.target = some .gSceneTexture)
    ∧ (∀ seg, (framePasses w t s)[0]? = some seg →
        ∀ p, drawCalls p seg ≠ [] ∧ ∀ d ∈ drawCalls p seg, d.input = some .gSceneTexture)
    ∧ (∀ i seg seg', (framePasses w t s)[i]? = some seg → (framePasses w t s)[i + 1]? = some seg' →
        ∀ p p',
          (∃ d ∈ drawCalls p seg, ∃ x, d.target = some x ∧ x.isPingPong = true)
          ∧ drawCalls p' seg' ≠ []
          ∧ ∀ d ∈ drawCalls p seg, ∀ x, d.target = some x → x.isPingPong = true →
              ∀ d' ∈ drawCalls p' seg', d'.input = some x)
    ∧ (s.gPostProcessAndModeStack
          = [(.GaussianBlurHorizontal, .Fullscreen), (.GaussianBlurVertical, .Fullscreen)] →
        ∀ p, (framePasses w t s).map (fun seg => (drawCalls p seg).map DrawCall.route)
          = [[(some .gSceneTextureTwo, some .gSceneTexture),
              (some .backBuffer, some .gSceneTexture)],
             [(some .gSceneTexture, some .gSceneTextureTwo),
              (some .backBuffer, some .gSceneTextureTwo)]]) := by
  have hlen : s.gPostProcessAndModeStack.length ≠ 0 := by
    simpa [List.length_eq_zero] using h
  have hmain := cmdsOf_eq _ s _ (mainScene_gpu s)
  rw [if_pos hlen] at hmain
  refine ⟨?_, ?_, ?_, ?_, ?_, ?_⟩
  · rw [framePasses_eq, passCmds_length]
  · intro p d hd
    rw [hmain] at hd
    simp [mainSceneCmds, depthCmds, sceneCmds, drawCalls, Pipeline.apply] at hd
    rcases hd with h | h | h | h | h | h | h | h | h | h | h | h | h | h <;>
      simp [h, DrawCall.target, RenderTargetView.resource]
  · intro p
    rw [hmain]
    simp [mainSceneCmds, depthCmds, sceneCmds, drawCalls, Pipeline.apply, DrawCall.target,
      RenderTargetView.resource]
  · intro seg hseg p
    obtain ⟨e, -, hr⟩ := framePasses_getElem w t s 0 seg hseg p
    have hne : drawCalls p seg ≠ [] := by
      intro h0
      rw [h0] at hr
      have := entryRoutes_write e (0 : Nat) (areaBehind w)
      rw [← hr] at this
      simp at this
    refine ⟨hne, ?_⟩
    intro d hd
    have := entryRoutes_input e (0 : Nat) (areaBehind w) _ (hr ▸ route_mem hd)
    simpa [readTexture] using this
  · intro i seg seg' hseg hseg' p p'
    obtain ⟨e, -, hr⟩ := framePasses_getElem w t s i seg hseg p
    obtain ⟨e', -, hr'⟩ := framePasses_getElem w t s (i + 1) seg' hseg' p'
    refine ⟨?_, ?_, ?_⟩
    · have hm := entryRoutes_write e (i : Nat) (areaBehind w)
      rw [← hr] at hm
      obtain ⟨d, hd, hdr⟩ := List.mem_map.mp hm
      refine ⟨d, hd, writeTexture i, ?_, write_pingPong _⟩
      exact congrArg Prod.fst hdr
    · intro h0
      rw [h0] at hr'
      have := entryRoutes_write e' ((i + 1 : Nat)) (areaBehind w)
      rw [← hr'] at this
      simp at this
    · intro d hd x hx hpp d' hd'
      have h1 := entryRoutes_target e (i : Nat) (areaBehind w) _ (hr ▸ route_mem hd) x hx hpp
      have h2 := entryRoutes_input e' ((i + 1 : Nat)) (areaBehind w) _ (hr' ▸ route_mem hd')
      simp only at h2
      rw [h2, h1]
      push_cast
      rw [read_succ]
  · intro hs p
    rw [framePasses_eq, passCmds_routes, hs]
    have h1 : ¬ Int.tmod 1 2 = 0 := by decide
    simp [stackRoutes, entryRoutes, readTexture, writeTexture, h1]

/-- C2 (instance): the two-pass blur stack on the sample world. -/
theorem each_pass_reads_previous_output_witness :
    (sampleState [(.GaussianBlurHorizontal, .Fullscreen), (.GaussianBlurVertical, .Fullscreen)]
        .None).gPostProcessAndModeStack ≠ []
    ∧ (framePasses sampleWorld 0
        (sampleState [(.GaussianBlurHorizontal, .Fullscreen), (.GaussianBlurVertical, .Fullscreen)]
          .None)).map (fun seg => (drawCalls samplePipeline seg).map DrawCall.route)
        = [[(some .gSceneTextureTwo, some .gSceneTexture),
            (some .backBuffer, some .gSceneTexture)],
           [(some .gSceneTexture, some .gSceneTextureTwo),
            (some .backBuffer, some .gSceneTextureTwo)]] :=
  ⟨by simp [sampleState],
   (each_pass_reads_previous_output sampleWorld 0
      (sampleState [(.GaussianBlurHorizontal, .Fullscreen), (.GaussianBlurVertical, .Fullscreen)]
        .None) (by simp [sampleState])).2.2.2.2.2 rfl samplePipeline⟩

/-- C3 (counterexample): for the stack [(Tint, Fullscreen)] it is not true that
the final pass issues no draw whose render target is scene texture One or
Two: its first draw has scene texture Two as render target. -/
theorem final_pass_offscreen_counterexample :
    ¬ (∀ seg, (framePasses sampleWorld 0 (sampleState [(.Tint, .Fullscreen)] .None)).getLast?
          = some seg →
        ∀ d ∈ drawCalls samplePipeline seg,
          d.target ≠ some .gSceneTexture ∧ d.target ≠ some .gSceneTextureTwo) := by
  intro hall
  have hr := framePasses_routes sampleWorld 0 (sampleState [(.Tint, .Fullscreen)] .None)
    samplePipeline
  rw [show (sampleState [(.Tint, .Fullscreen)] .None).gPostProcessAndModeStack
    = [(.Tint, .Fullscreen)] from rfl] at hr
  have hlen := congrArg List.length hr
  simp only [List.length_map, stackRoutes, List.length_cons, List.length_nil] at hlen
  obtain ⟨seg, hseg⟩ := List.length_eq_one.mp hlen
  rw [hseg] at hr
  simp [stackRoutes, entryRoutes, readTexture, writeTexture] at hr
  have hd : (some Texture2D.gSceneTextureTwo, some Texture2D.gSceneTexture)
      ∈ (drawCalls samplePipeline seg).map DrawCall.route := by rw [hr]; simp
  obtain ⟨d, hd, hdr⟩ := List.mem_map.mp hd
  have := (hall seg (by rw [hseg]; rfl) d hd).2
  exact this (congrArg Prod.fst hdr)

/-- C3 (amended): for every non-empty stack the final pass of the frame ends
with a draw into the display (back) buffer, whatever the parity of its index,
and it also draws into the parity-selected offscreen scene texture (Two when
its index is even, One when it is odd); for the stack [(Tint, Fullscreen)] the
single pass samples scene texture One and draws into Two and then into the
back buffer. -/
theorem final_pass_ends_on_back_buffer (w : World) (t : ℚ) (s : SceneState)
    (h : s.gPostProcessAndModeStack ≠ []) :
    (framePasses w t s).getLast? ≠ none
    ∧ (∀ seg, (framePasses w t s).getLast? = some seg → ∀ p,
        (drawCalls p seg).getLast?.map DrawCall.target = some (some .backBuffer)
        ∧ (∃ d ∈ drawCalls p seg, d.target = some
            (if (s.gPostProcessAndModeStack.length - 1) % 2 = 0 then Texture2D.gSceneTextureTwo
              else Texture2D.gSceneTexture)))
    ∧ (s.gPostProcessAndModeStack = [(.Tint, .Fullscreen)] →
        ∀ p, (framePasses w t s).map (fun seg => (drawCalls p seg).map DrawCall.route)
          = [[(some .gSceneTextureTwo, some .gSceneTexture),
              (some .backBuffer, some .gSceneTexture)]]) := by
  have hlen : (framePasses w t s).length = s.gPostProcessAndModeStack.length := by
    rw [framePasses_eq, passCmds_length]
  refine ⟨?_, ?_, ?_⟩
  · intro h0
    rw [List.getLast?_eq_none_iff] at h0
    rw [h0] at hlen
    exact h (List.length_eq_zero.mp hlen.symm)
  · intro seg hseg p
    rw [List.getLast?_eq_getElem?, hlen] at hseg
    obtain ⟨e, -, hr⟩ := framePasses_getElem w t s _ seg hseg p
    constructor
    · have hl := entryRoutes_last e ((s.gPostProcessAndModeStack.length - 1 : Nat))
        (areaBehind w)
      rw [← hr, List.getLast?_map] at hl
      cases hd : (drawCalls p seg).getLast? with
      | none => simp [hd] at hl
      | some d =>
        simp only [hd, Option.map_some', Option.some.injEq] at hl
        simp only [Option.map_some', Option.some.injEq]
        exact congrArg Prod.fst hl
    · have hm := entryRoutes_write e ((s.gPostProcessAndModeStack.length - 1 : Nat))
        (areaBehind w)
      rw [← hr] at hm
      obtain ⟨d, hd, hdr⟩ := List.mem_map.mp hm
      refine ⟨d, hd, ?_⟩
      rw [← write_nat]
      exact congrArg Prod.fst hdr
  · intro hs p
    rw [framePasses_routes, hs]
    simp [stackRoutes, entryRoutes, readTexture, writeTexture]

/-- C3 (instance): the single Tint pass on the sample world. -/
theorem final_pass_ends_on_back_buffer_witness :
    (sampleState [(.Tint, .Fullscreen)] .None).gPostProcessAndModeStack ≠ []
    ∧ (framePasses sampleWorld 0 (sampleState [(.Tint, .Fullscreen)] .None)).map
        (fun seg => (drawCalls samplePipeline seg).map DrawCall.route)
        = [[(some .gSceneTextureTwo, some .gSceneTexture),
            (some .backBuffer, some .gSceneTexture)]] :=
  ⟨by simp [sampleState],
   (final_pass_ends_on_back_buffer sampleWorld 0 (sampleState [(.Tint, .Fullscreen)] .None)
      (by simp [sampleState])).2.2 rfl samplePipeline⟩

/-- C6: when the effect stack is empty, `RenderScene` issues no post-process
pass and no quad draw, binds the back buffer as the render target of the
scene (the only colour target it ever binds; the seven draws of the scene go
to it), issues no call that binds or clears scene texture One, Two or Copy as
render target or as texture, and no draw of the frame writes one of them. -/
theorem empty_stack_renders_to_back_buffer (w : World) (t : ℚ) (s : SceneState)
    (h : s.gPostProcessAndModeStack = []) :
    framePasses w t s = []
    ∧ Cmd.OMSetRenderTargets (some .gBackBufferRenderTarget) .gDepthStencil
        ∈ cmdsOf renderMainScene s
    ∧ (∀ rtv dsv, Cmd.OMSetRenderTargets (some rtv) dsv ∈ cmdsOf (RenderScene w t) s →
        rtv = .gBackBufferRenderTarget)
    ∧ (∀ p, (drawCalls p (cmdsOf renderMainScene s)).map DrawCall.target
        = List.replicate 7 none ++ List.replicate 7 (some .backBuffer))
    ∧ Cmd.Draw ∉ cmdsOf (RenderScene w t) s
    ∧ (∀ c ∈ cmdsOf (RenderScene w t) s, c.touchesOffscreen = false)
    ∧ (∀ p, ∀ d ∈ drawCalls p (cmdsOf (RenderScene w t) s),
        d.target = none ∨ d.target = some .backBuffer) := by
  have hp : framePasses w t s = [] := by simp [framePasses_eq, h, passCmds]
  have hmain := cmdsOf_eq _ s _ (mainScene_gpu s)
  have hall := renderScene_gpu w t s
  simp only [h, List.length_nil, ne_eq, not_true_eq_false, if_false] at hmain hall
  rw [hp] at hall
  rw [hmain, hall]
  refine ⟨hp, ?_, ?_, ?_, ?_, ?_, ?_⟩
  · simp [mainSceneCmds]
  · intro rtv dsv hm
    simp [mainSceneCmds, presentCmds, depthCmds, sceneCmds] at hm
    exact hm.1
  · intro p
    simp [mainSceneCmds, depthCmds, sceneCmds, drawCalls, Pipeline.apply, DrawCall.target,
      RenderTargetView.resource, List.replicate]
  · simp [mainSceneCmds, presentCmds, depthCmds, sceneCmds]
  · intro c hc
    have hall : (mainSceneCmds .gBackBufferRenderTarget ++ [] ++ presentCmds s.lockFPS).all
        (fun c => !c.touchesOffscreen) = true := by
      cases s.lockFPS <;> rfl
    simpa using List.all_eq_true.mp hall c (by simpa using hc)
  · intro p d hd
    have ht : (drawCalls p (mainSceneCmds .gBackBufferRenderTarget ++ [].flatten
          ++ presentCmds s.lockFPS)).map DrawCall.target
        = List.replicate 7 none ++ List.replicate 14 (some .backBuffer) := by
      simp [mainSceneCmds, presentCmds, depthCmds, sceneCmds, drawCalls, Pipeline.apply,
        DrawCall.target, RenderTargetView.resource, List.replicate]
    have hm : d.target ∈ (drawCalls p (mainSceneCmds .gBackBufferRenderTarget ++ [].flatten
          ++ presentCmds s.lockFPS)).map DrawCall.target := List.mem_map.mpr ⟨d, hd, rfl⟩
    rw [ht] at hm
    simp only [List.mem_append, List.mem_replicate] at hm
    rcases hm with ⟨-, h⟩ | ⟨-, h⟩
    · exact Or.inl h
    · exact Or.inr h

/-- C6 (instance): the empty stack on the sample world. -/
theorem empty_stack_renders_to_back_buffer_witness :
    (sampleState [] .None).gPostProcessAndModeStack = []
    ∧ framePasses sampleWorld 0 (sampleState [] .None) = []
    ∧ Cmd.Draw ∉ cmdsOf (RenderScene sampleWorld 0) (sampleState [] .None) :=
  ⟨rfl,
   (empty_stack_renders_to_back_buffer sampleWorld 0 (sampleState [] .None) rfl).1,
   (empty_stack_renders_to_back_buffer sampleWorld 0 (sampleState [] .None) rfl).2.2.2.2.1⟩

/-- C7: for every stack, `RenderScene` is the main scene rendering, followed by
the mode-level pass of each entry in insertion order, the entry at 0-based
position `k` being run with pass index `k`, followed by the presentation; the
frame has exactly one pass per entry, and the device calls of the frame are
those of the main scene, then those of the passes in order, then those of the
presentation. -/
theorem one_pass_per_entry_in_order (w : World) (t : ℚ) (s : SceneState) :
    RenderScene w t s
      = renderPresent
          (s.gPostProcessAndModeStack.enum.foldl (fun st ke => modePass w t ke.1 ke.2 st)
            (renderMainScene s))
    ∧ (framePasses w t s).length = s.gPostProcessAndModeStack.length
    ∧ cmdsOf (RenderScene w t) s
        = cmdsOf renderMainScene s ++ (framePasses w t s).flatten
          ++ cmdsOf renderPresent (renderPostProcesses w t (renderMainScene s)) := by
  refine ⟨?_, ?_, ?_⟩
  · have h := renderEntries_fold w t s.gPostProcessAndModeStack 0 (renderMainScene s)
    by_cases hs : s.gPostProcessAndModeStack = []
    · simp [RenderScene, renderPostProcesses, mainScene_stack, hs, List.enum]
    · have hlen : s.gPostProcessAndModeStack.length ≠ 0 := by
        simpa [List.length_eq_zero] using hs
      simp only [RenderScene, renderPostProcesses, mainScene_stack, hlen, ne_eq,
        not_false_eq_true, if_true, List.enum]
      rw [← h]; rfl
  · rw [framePasses_eq, passCmds_length]
  · rw [renderScene_gpu, cmdsOf_eq _ s _ (mainScene_gpu s), cmdsOf_eq _ _ _ (present_gpu _)]
    by_cases hs : s.gPostProcessAndModeStack = []
    · simp [renderPostProcesses, mainScene_stack, mainScene_lockFPS, hs]
    · have hlen : s.gPostProcessAndModeStack.length ≠ 0 := by
        simpa [List.length_eq_zero] using hs
      simp only [renderPostProcesses, mainScene_stack, hlen, ne_eq, not_false_eq_true,
        if_true, renderEntries_lockFPS, mainScene_lockFPS]

/-- C8: `AddProcessAndMode(e, m)` turns the stack `s` into `s` followed by
`(e, m)`, for every effect and mode: the length grows by one, the earlier
entries keep their values and positions, and the new last entry is `(e, m)`. -/
theorem add_appends_entry (process : PostProcess) (mode : PostProcessMode) (s : SceneState) :
    (AddProcessAndMode process mode s).gPostProcessAndModeStack
      = s.gPostProcessAndModeStack ++ [(process, mode)]
    ∧ (AddProcessAndMode process mode s).gPostProcessAndModeStack.length
      = s.gPostProcessAndModeStack.length + 1
    ∧ (AddProcessAndMode process mode s).gPostProcessAndModeStack.take
        s.gPostProcessAndModeStack.length = s.gPostProcessAndModeStack
    ∧ (∀ k, k < s.gPostProcessAndModeStack.length →
        (AddProcessAndMode process mode s).gPostProcessAndModeStack[k]?
          = s.gPostProcessAndModeStack[k]?)
    ∧ (AddProcessAndMode process mode s).gPostProcessAndModeStack.getLast?
      = some (process, mode) := by
  refine ⟨rfl, by simp [AddProcessAndMode], by simp [AddProcessAndMode], ?_,
    by simp [AddProcessAndMode]⟩
  intro k hk
  simp [AddProcessAndMode, List.getElem?_append_left hk]

/-- C9: for every stack with at most `NUM_OF_WINDOWS` entries, every value of
the current effect and every number `n` of successive calls,
`RemoveProcessAndMode` returns normally and leaves the state unchanged; from
the four-entry window stack five calls leave the length at 4. -/
theorem remove_at_floor_is_noop (s : SceneState) (n : Nat)
    (h : s.gPostProcessAndModeStack.length ≤ NUM_OF_WINDOWS) :
    removeTimes n s = some s
    ∧ (s.gPostProcessAndModeStack = windowStack →
        (removeTimes 5 s).map (fun s' => s'.gPostProcessAndModeStack.length) = some 4) := by
  have key : ∀ m, removeTimes m s = some s := by
    intro m
    induction m with
    | zero => rfl
    | succ m ih => simp [removeTimes, remove_at_floor s h, ih]
  refine ⟨key n, ?_⟩
  intro hs
  rw [key 5, Option.map_some', hs]
  rfl

/-- C9 (instance): five calls on the window stack. -/
theorem remove_at_floor_is_noop_witness :
    (sampleState windowStack .MergeTextures).gPostProcessAndModeStack.length ≤ NUM_OF_WINDOWS
    ∧ (removeTimes 5 (sampleState windowStack .MergeTextures)).map
        (fun s' => s'.gPostProcessAndModeStack.length) = some 4 :=
  ⟨by decide,
   (remove_at_floor_is_noop (sampleState windowStack .MergeTextures) 5 (by decide)).2 rfl⟩

/-- C11 (evaluation at the failing input): on the same stack, the window
entries followed by GaussianBlurHorizontal, GaussianBlurVertical and Tint,
`RemoveProcessAndMode` removes two entries (Tint and the vertical blur) when
`gCurrentPostProcess` is GaussianBlurVertical and one entry when it is Tint;
rendering the stack first makes the current effect Tint; and the first state
arises by rendering the stack that ends with the blur pair and then pushing
Tint before the removal. -/
theorem removal_depends_on_current_effect :
    (RemoveProcessAndMode (sampleState
        (windowStack ++ [(.GaussianBlurHorizontal, .Fullscreen),
          (.GaussianBlurVertical, .Fullscreen), (.Tint, .Fullscreen)])
        .GaussianBlurVertical)).map (fun s' => s'.gPostProcessAndModeStack)
      = some (windowStack ++ [(.GaussianBlurHorizontal, .Fullscreen)])
    ∧ (RemoveProcessAndMode (sampleState
        (windowStack ++ [(.GaussianBlurHorizontal, .Fullscreen),
          (.GaussianBlurVertical, .Fullscreen), (.Tint, .Fullscreen)])
        .Tint)).map (fun s' => s'.gPostProcessAndModeStack)
      = some (windowStack ++ [(.GaussianBlurHorizontal, .Fullscreen),
          (.GaussianBlurVertical, .Fullscreen)])
    ∧ (RemoveProcessAndMode (RenderScene sampleWorld 0 (sampleState
        (windowStack ++ [(.GaussianBlurHorizontal, .Fullscreen),
          (.GaussianBlurVertical, .Fullscreen), (.Tint, .Fullscreen)])
        .GaussianBlurVertical))).map (fun s' => s'.gPostProcessAndModeStack)
      = some (windowStack ++ [(.GaussianBlurHorizontal, .Fullscreen),
          (.GaussianBlurVertical, .Fullscreen)])
    ∧ (RemoveProcessAndMode (AddProcessAndMode .Tint .Fullscreen (RenderScene sampleWorld 0
        (sampleState (windowStack ++ [(.GaussianBlurHorizontal, .Fullscreen),
          (.GaussianBlurVertical, .Fullscreen)]) .None)))).map
        (fun s' => s'.gPostProcessAndModeStack)
      = some (windowStack ++ [(.GaussianBlurHorizontal, .Fullscreen)]) := by
  refine ⟨rfl, rfl, ?_, ?_⟩
  · rw [remove_stack _ (by rw [renderScene_stack]; decide), renderScene_stack,
      renderScene_current]
    rfl
  · rw [remove_stack _ (by simp only [AddProcessAndMode, renderScene_stack]; decide)]
    simp only [AddProcessAndMode, renderScene_stack, renderScene_current]
    rfl

/-- C12: for every stack with at least `NUM_OF_WINDOWS` entries, pushing the
blur pair as the `Key_2` block of `UpdateScene` does, rendering one frame and
calling `RemoveProcessAndMode` once returns normally with the original
stack. -/
theorem blur_group_removed_as_unit (w : World) (t : ℚ) (s : SceneState)
    (h : NUM_OF_WINDOWS ≤ s.gPostProcessAndModeStack.length) :
    (UpdateScene_Key_2 s).gPostProcessAndModeStack
      = s.gPostProcessAndModeStack
        ++ [(.GaussianBlurHorizontal, .Fullscreen), (.GaussianBlurVertical, .Fullscreen)]
    ∧ (RemoveProcessAndMode (RenderScene w t (UpdateScene_Key_2 s))).map
        (fun s' => s'.gPostProcessAndModeStack) = some s.gPostProcessAndModeStack := by
  refine ⟨key2_stack s, ?_⟩
  have hlen : NUM_OF_WINDOWS
      < (RenderScene w t (UpdateScene_Key_2 s)).gPostProcessAndModeStack.length := by
    rw [renderScene_stack, key2_stack]
    simp only [List.length_append, List.length_cons, List.length_nil]
    omega
  rw [remove_stack _ hlen, renderScene_stack, renderScene_current, key2_stack]
  simp

/-- C12 (instance): the blur pair pushed on the window stack. -/
theorem blur_group_removed_as_unit_witness :
    NUM_OF_WINDOWS ≤ (sampleState windowStack .Inverted).gPostProcessAndModeStack.length
    ∧ (RemoveProcessAndMode (RenderScene sampleWorld 0
        (UpdateScene_Key_2 (sampleState windowStack .Inverted)))).map
        (fun s' => s'.gPostProcessAndModeStack) = some windowStack :=
  ⟨by decide,
   (blur_group_removed_as_unit sampleWorld 0 (sampleState windowStack .Inverted)
      (by decide)).2⟩

/-- C13 (evaluation of the code): the `Key_O` block of `UpdateScene` pushes
Bloom, eight DualFiltering and MergeTextures; after one rendered frame a
single `RemoveProcessAndMode` removes four entries only, leaving the original
stack followed by Bloom and five DualFiltering entries; on the window stack
10 entries remain instead of 4. -/
theorem bloom_group_removal_pops_four (w : World) (t : ℚ) (s : SceneState) :
    (UpdateScene_Key_O s).gPostProcessAndModeStack
      = s.gPostProcessAndModeStack ++ [(.Bloom, .Fullscreen)]
        ++ List.replicate 8 (.DualFiltering, .Fullscreen) ++ [(.MergeTextures, .Fullscreen)]
    ∧ (RemoveProcessAndMode (RenderScene w t (UpdateScene_Key_O s))).map
        (fun s' => s'.gPostProcessAndModeStack)
      = some (s.gPostProcessAndModeStack ++ [(.Bloom, .Fullscreen)]
          ++ List.replicate 5 (.DualFiltering, .Fullscreen))
    ∧ (RemoveProcessAndMode (RenderScene sampleWorld 0
        (UpdateScene_Key_O (sampleState windowStack .Inverted)))).map
        (fun s' => s'.gPostProcessAndModeStack.length) = some 10 := by
  have main : ∀ (w : World) (t : ℚ) (s : SceneState),
      (RemoveProcessAndMode (RenderScene w t (UpdateScene_Key_O s))).map
        (fun s' => s'.gPostProcessAndModeStack)
      = some (s.gPostProcessAndModeStack ++ [(.Bloom, .Fullscreen)]
          ++ List.replicate 5 (.DualFiltering, .Fullscreen)) := by
    intro w t s
    have hlen : NUM_OF_WINDOWS
        < (RenderScene w t (UpdateScene_Key_O s)).gPostProcessAndModeStack.length := by
      rw [renderScene_stack, keyO_stack]
      simp only [List.length_append, List.length_cons, List.length_nil, List.length_replicate,
        NUM_OF_WINDOWS]
      omega
    rw [remove_stack _ hlen, renderScene_stack, renderScene_current, keyO_stack]
    simp [List.replicate, List.dropLast_append_cons]
  refine ⟨keyO_stack s, main w t s, ?_⟩
  have h3 := congrArg (Option.map List.length)
    (main sampleWorld 0 (sampleState windowStack .Inverted))
  rw [Option.map_map] at h3
  exact h3

/-- C14: for every stack with more than `NUM_OF_WINDOWS` entries whose current
effect is neither GaussianBlurVertical nor MergeTextures,
`RemoveProcessAndMode` returns normally, and the stack it leaves is the stack
without its last entry: one entry shorter, with all other entries unchanged
and in place. -/
theorem ungrouped_removal_pops_one (s : SceneState)
    (h : NUM_OF_WINDOWS < s.gPostProcessAndModeStack.length)
    (h1 : s.gCurrentPostProcess ≠ PostProcess.GaussianBlurVertical)
    (h2 : s.gCurrentPostProcess ≠ PostProcess.MergeTextures) :
    RemoveProcessAndMode s
      = some { s with gPostProcessAndModeStack := s.gPostProcessAndModeStack.dropLast }
    ∧ s.gPostProcessAndModeStack.dropLast.length + 1 = s.gPostProcessAndModeStack.length
    ∧ (∀ k, k < s.gPostProcessAndModeStack.dropLast.length →
        s.gPostProcessAndModeStack.dropLast[k]? = s.gPostProcessAndModeStack[k]?) := by
  have hgt : s.gPostProcessAndModeStack.length > NUM_OF_WINDOWS := h
  have h4 : 4 < s.gPostProcessAndModeStack.length := h
  refine ⟨?_, ?_, ?_⟩
  · simp only [RemoveProcessAndMode, hgt, if_true, h1, h2, if_false]
    exact pop_back_stack s (List.length_pos.mp (by omega))
  · simp only [List.length_dropLast]; omega
  · intro k hk
    rw [List.dropLast_eq_take, List.getElem?_take]
    simp only [List.length_dropLast] at hk
    simp [hk]

/-- C14 (instance): Tint on top of the window stack. -/
theorem ungrouped_removal_pops_one_witness :
    NUM_OF_WINDOWS
      < (sampleState (windowStack ++ [(.Tint, .Fullscreen)]) .Tint).gPostProcessAndModeStack.length
    ∧ (RemoveProcessAndMode (sampleState (windowStack ++ [(.Tint, .Fullscreen)]) .Tint)).map
        (fun s' => s'.gPostProcessAndModeStack) = some windowStack :=
  ⟨by decide,
   congrArg (Option.map fun s' => s'.gPostProcessAndModeStack)
     (ungrouped_removal_pops_one (sampleState (windowStack ++ [(.Tint, .Fullscreen)]) .Tint)
       (by decide) (by decide) (by decide)).1⟩

/-- C15: for every prior stack and every baseline list `b`, clearing the stack
and calling `CreateWindowPostProcesses(b)` gives exactly the entries
`(b[k], Polygon)` in the order of `b`; the `Key_0` block of `UpdateScene` does
this with `windowPostProcesses`, and doing it twice is the same as doing it
once; and when `InitScene` starts from empty globals the baseline is
[NightVision, Contour, Sepia, Inverted], of length `NUM_OF_WINDOWS`. -/
theorem clear_and_reset_gives_baseline (s : SceneState) (b : List PostProcess) :
    (CreateWindowPostProcesses b { s with gPostProcessAndModeStack := [] }).gPostProcessAndModeStack
      = b.map (fun e => (e, PostProcessMode.Polygon))
    ∧ (UpdateScene_Key_0 s).gPostProcessAndModeStack
      = s.windowPostProcesses.map (fun e => (e, PostProcessMode.Polygon))
    ∧ UpdateScene_Key_0 (UpdateScene_Key_0 s) = UpdateScene_Key_0 s
    ∧ (s.windowPostProcesses = [] → s.gPostProcessAndModeStack = [] →
        (InitScene_windows s).windowPostProcesses
          = [PostProcess.NightVision, .Contour, .Sepia, .Inverted]
        ∧ (InitScene_windows s).gPostProcessAndModeStack
          = [(.NightVision, .Polygon), (.Contour, .Polygon), (.Sepia, .Polygon),
             (.Inverted, .Polygon)]
        ∧ (InitScene_windows s).gPostProcessAndModeStack.length = NUM_OF_WINDOWS
        ∧ (UpdateScene_Key_0 (InitScene_windows s)).gPostProcessAndModeStack
          = (InitScene_windows s).gPostProcessAndModeStack) := by
  refine ⟨?_, ?_, ?_, ?_⟩
  · simp [createWindows_eq]
  · simp [UpdateScene_Key_0, createWindows_eq]
  · simp [UpdateScene_Key_0, createWindows_eq]
  · intro hw hs
    simp [InitScene_windows, UpdateScene_Key_0, createWindows_eq, hw, hs, NUM_OF_WINDOWS]

/-- C16: for all clip distances with `0 < NearClip < FarClip`, when the
projected distance of the anchor equals `NearClip`, the depth constant that
`AreaPostProcess` computes, `FarClip * (distance - NearClip) / (FarClip -
NearClip) / distance`, is a quotient by non-zero denominators and equals 0. -/
theorem area_depth_zero_at_near_clip (w : World) (pp : PostProcess) (pt : CVector3)
    (size : CVector2) (t : ℚ) (i : Int) (s : SceneState)
    (hn : 0 < w.gCamera.NearClip) (hf : w.gCamera.NearClip < w.gCamera.FarClip)
    (hd : (w.gCamera.PixelFromWorldPt pt w.gViewportWidth w.gViewportHeight).z
      = w.gCamera.NearClip) :
    (AreaPostProcess w pp pt size t i s).gPostProcessingConstants.area2DDepth
      = w.gCamera.FarClip * (w.gCamera.NearClip - w.gCamera.NearClip)
          / (w.gCamera.FarClip - w.gCamera.NearClip) / w.gCamera.NearClip
    ∧ w.gCamera.FarClip - w.gCamera.NearClip ≠ 0
    ∧ w.gCamera.NearClip ≠ 0
    ∧ (AreaPostProcess w pp pt size t i s).gPostProcessingConstants.area2DDepth = 0 := by
  have h : ¬ (w.gCamera.PixelFromWorldPt pt w.gViewportWidth w.gViewportHeight).z
      < w.gCamera.NearClip := by rw [hd]; exact lt_irrefl _
  have hdepth := area_depth w pp pt size t i s h
  rw [hd] at hdepth
  refine ⟨hdepth, sub_ne_zero.mpr (ne_of_gt hf), ne_of_gt hn, ?_⟩
  rw [hdepth]
  simp

/-- C16 (instance): the cube exactly at the near clip distance. -/
theorem area_depth_zero_at_near_clip_witness :
    0 < nearWorld.gCamera.NearClip
    ∧ nearWorld.gCamera.NearClip < nearWorld.gCamera.FarClip
    ∧ (AreaPostProcess nearWorld .Tint nearWorld.gCubePosition ⟨10, 10⟩ 0 0
        (sampleState [(.Tint, .Area)] .None)).gPostProcessingConstants.area2DDepth = 0 :=
  ⟨by norm_num [nearWorld, sampleWorld, sampleCamera],
   by norm_num [nearWorld, sampleWorld, sampleCamera],
   (area_depth_zero_at_near_clip nearWorld .Tint nearWorld.gCubePosition ⟨10, 10⟩ 0 0
      (sampleState [(.Tint, .Area)] .None)
      (by norm_num [nearWorld, sampleWorld, sampleCamera])
      (by norm_num [nearWorld, sampleWorld, sampleCamera]) rfl).2.2.2⟩

/-- C17: for every effect and pass index, when the projected distance of the
Area anchor is less than the near clip, the draws of `AreaPostProcess` are
exactly those of its full-screen Copy step, the calls after that step contain
no draw and no constants upload, and the area top-left, size and depth
constants are those the Copy step left (the full-screen values). -/
theorem area_behind_camera_is_copy_only (w : World) (pp : PostProcess) (pt : CVector3)
    (size : CVector2) (t : ℚ) (i : Int) (s : SceneState)
    (h : (w.gCamera.PixelFromWorldPt pt w.gViewportWidth w.gViewportHeight).z
      < w.gCamera.NearClip) :
    (∀ p, drawCalls p (cmdsOf (AreaPostProcess w pp pt size t i) s)
        = drawCalls p (cmdsOf (FullScreenPostProcess w .Copy t i) s))
    ∧ (∃ rest, cmdsOf (AreaPostProcess w pp pt size t i) s
        = cmdsOf (FullScreenPostProcess w .Copy t i) s ++ rest
        ∧ Cmd.Draw ∉ rest ∧ ∀ k, Cmd.UpdateConstantBuffer k ∉ rest)
    ∧ (AreaPostProcess w pp pt size t i s).gPostProcessingConstants.area
        = (FullScreenPostProcess w .Copy t i s).gPostProcessingConstants.area
    ∧ (AreaPostProcess w pp pt size t i s).gPostProcessingConstants.area
        = (⟨0, 0⟩, ⟨1, 1⟩, 0) := by
  have hg := area_behind_gpu w pp pt size t i s h
  have ha : (AreaPostProcess w pp pt size t i s).gPostProcessingConstants.area
      = (FullScreenPostProcess w .Copy t i s).gPostProcessingConstants.area := by
    have := select_area w pp t (FullScreenPostProcess w .Copy t i s)
    simpa [AreaPostProcess, h, SceneState.emit] using this
  refine ⟨?_, ?_, ha, ?_⟩
  · intro p
    rw [hg, List.append_assoc, drawCalls_append, select_no_draw, List.append_nil]
  · refine ⟨selectCmds pp ++ [Cmd.OMSetBlendState .gAlphaBlendingState], ?_, ?_, ?_⟩
    · rw [hg, List.append_assoc]
    · cases pp <;> simp [selectCmds]
    · intro k; cases pp <;> simp [selectCmds]
  · rw [ha, fullScreen_area]

/-- C17 (instance): the cube behind the camera. -/
theorem area_behind_camera_is_copy_only_witness :
    (behindWorld.gCamera.PixelFromWorldPt behindWorld.gCubePosition behindWorld.gViewportWidth
        behindWorld.gViewportHeight).z < behindWorld.gCamera.NearClip
    ∧ (drawCalls samplePipeline (cmdsOf (AreaPostProcess behindWorld .Tint
          behindWorld.gCubePosition ⟨10, 10⟩ 0 0) (sampleState [(.Tint, .Area)] .None))
        = drawCalls samplePipeline (cmdsOf (FullScreenPostProcess behindWorld .Copy 0 0)
            (sampleState [(.Tint, .Area)] .None))) :=
  ⟨by norm_num [behindWorld, sampleWorld, sampleCamera],
   (area_behind_camera_is_copy_only behindWorld .Tint behindWorld.gCubePosition ⟨10, 10⟩ 0 0
      (sampleState [(.Tint, .Area)] .None)
      (by norm_num [behindWorld, sampleWorld, sampleCamera])).1 samplePipeline⟩

/-- C18: the device calls of `AreaPostProcess` and of `PolygonPostProcess` at
pass index `i` begin with the calls of a complete
`FullScreenPostProcess(Copy, _, i)`, and the selection of the shader of the
effect comes after them; in a frame, the pass of an entry performs such a copy
step before its own step exactly when the entry is not in Fullscreen mode, so
the number of these copy steps is the number of Area and Polygon entries. -/
theorem area_and_polygon_begin_with_copy (w : World) (t : ℚ) (s : SceneState) :
    (∀ pp pt size i s', ∃ rest,
        cmdsOf (AreaPostProcess w pp pt size t i) s'
          = cmdsOf (FullScreenPostProcess w .Copy t i) s' ++ selectCmds pp ++ rest)
    ∧ (∀ pp pts m i s', ∃ rest,
        cmdsOf (PolygonPostProcess w pp pts m t i) s'
          = cmdsOf (FullScreenPostProcess w .Copy t i) s'
            ++ ([Cmd.PSSetShaderResources 0 .nullSRV] ++ routeCmds i) ++ selectCmds pp ++ rest)
    ∧ (∀ (k : Nat) seg e, (framePasses w t s)[k]? = some seg →
        s.gPostProcessAndModeStack[k]? = some e →
        beginsWithCopyStep k seg = decide (e.2 ≠ PostProcessMode.Fullscreen))
    ∧ implicitCopySteps (framePasses w t s) 0
        = s.gPostProcessAndModeStack.countP
            (fun e => decide (e.2 = PostProcessMode.Area ∨ e.2 = PostProcessMode.Polygon)) := by
  refine ⟨?_, ?_, ?_, ?_⟩
  · intro pp pt size i s'
    exact area_split w pp pt size t i s'
  · intro pp pts m i s'
    exact polygon_split w pp pts m t i s'
  · intro k seg e hseg he
    rw [framePasses_eq] at hseg
    obtain ⟨e', k0, k1, k2, he', hs⟩ := passCmds_getElem w t _ 0 _ k seg hseg
    rw [he] at he'
    cases Option.some.inj he'
    rw [hs, zero_add, entry_begins]
  · rw [framePasses_eq, passCmds_copySteps]
    congr 1
    funext e
    cases e.2 <;> simp

/-- C19: for every index `i`, `SaveCurrentSceneToTexture(i)` binds to slot 0 the
scene texture that a pass of index `i` binds (One for an even `i`, Two for an
odd one), draws it into the scratch texture `gSceneTextureCopy` and then into
the back buffer, binds neither One nor Two as render target and draws into
neither; and the mode functions never bind the scratch texture as render
target. -/
theorem snapshot_leaves_ping_pong_undisturbed (w : World) (pp : PostProcess) (t : ℚ) (i : Int)
    (s : SceneState) (pts : List CVector3) (m : CVector4 → CVector4) (pt : CVector3)
    (size : CVector2) :
    (i % 2 = 0 →
      boundInputs (cmdsOf (SaveCurrentSceneToTexture i) s) = [.gSceneTexture]
      ∧ ∀ p, (drawCalls p (cmdsOf (SaveCurrentSceneToTexture i) s)).map DrawCall.route
          = [(some .gSceneTextureCopy, some .gSceneTexture),
             (some .backBuffer, some .gSceneTexture)])
    ∧ (i % 2 ≠ 0 →
      boundInputs (cmdsOf (SaveCurrentSceneToTexture i) s) = [.gSceneTextureTwo]
      ∧ ∀ p, (drawCalls p (cmdsOf (SaveCurrentSceneToTexture i) s)).map DrawCall.route
          = [(some .gSceneTextureCopy, some .gSceneTextureTwo),
             (some .backBuffer, some .gSceneTextureTwo)])
    ∧ boundInputs (cmdsOf (SaveCurrentSceneToTexture i) s)
        = boundInputs (cmdsOf (FullScreenPostProcess w pp t i) s)
    ∧ boundOffscreenTargets (cmdsOf (SaveCurrentSceneToTexture i) s) = [.gSceneTextureCopy]
    ∧ (∀ rtv dsv, Cmd.OMSetRenderTargets (some rtv) dsv ∈ cmdsOf (SaveCurrentSceneToTexture i) s →
        rtv ≠ .gSceneRenderTarget ∧ rtv ≠ .gSceneRenderTargetTwo)
    ∧ (∀ p, ∀ d ∈ drawCalls p (cmdsOf (SaveCurrentSceneToTexture i) s),
        d.target ≠ some .gSceneTexture ∧ d.target ≠ some .gSceneTextureTwo)
    ∧ Texture2D.gSceneTextureCopy
        ∉ boundOffscreenTargets (cmdsOf (FullScreenPostProcess w pp t i) s)
    ∧ Texture2D.gSceneTextureCopy
        ∉ boundOffscreenTargets (cmdsOf (PolygonPostProcess w pp pts m t i) s)
    ∧ Texture2D.gSceneTextureCopy
        ∉ boundOffscreenTargets (cmdsOf (AreaPostProcess w pp pt size t i) s) := by
  have hs := cmdsOf_eq _ s _ (save_gpu i s)
  have hf := cmdsOf_eq _ s _ (fullScreen_gpu w pp t i s)
  obtain ⟨k1, k2, hp⟩ := polygon_gpu w pp pts m t i s
  have hp := cmdsOf_eq _ s _ hp
  obtain ⟨k1', k2', ha⟩ := area_gpu w pp pt size t i s
  have ha := cmdsOf_eq _ s _ ha
  obtain ⟨hb1, hb2, hb3, hb4⟩ := save_bound i (SaveCurrentSceneToTexture i s).gPostProcessingConstants
  have hfb := fullScreen_bound pp i (FullScreenPostProcess w pp t i s).gPostProcessingConstants
  have hpb := polygon_bound pp i k1 k2
  have hne := write_ne_copy i
  rw [hs, hf, hp, ha, hb1, hb2, hfb.1, hfb.2, hpb.2, area_bound]
  refine ⟨?_, ?_, rfl, rfl, ?_, ?_, ?_, ?_, ?_⟩
  · intro h0
    have e : readTexture i = .gSceneTexture := by
      simp [readTexture, (tmod_two_eq_zero_iff i).mpr h0]
    refine ⟨by rw [e], fun p => ?_⟩
    rw [hb3, e]
  · intro h1
    have : ¬ i.tmod 2 = 0 := fun h => h1 ((tmod_two_eq_zero_iff i).mp h)
    have e : readTexture i = .gSceneTextureTwo := by simp [readTexture, this]
    refine ⟨by rw [e], fun p => ?_⟩
    rw [hb3, e]
  · intro rtv dsv hm
    rcases hb4 rtv dsv hm with h | h <;> simp [h]
  · intro p d hd
    have hr := route_mem hd
    rw [hb3] at hr
    simp only [List.mem_cons, List.mem_singleton, List.not_mem_nil, or_false,
      Prod.mk.injEq] at hr
    rcases hr with ⟨h1, -⟩ | ⟨h1, -⟩ <;> simp [h1]
  · simp only [List.mem_singleton]; exact fun h => hne h.symm
  · simp only [List.mem_cons, List.mem_singleton, List.not_mem_nil, or_false, or_self]
    exact fun h => hne h.symm
  · simp only [List.mem_singleton]; exact fun h => hne h.symm

/-- C20: for every stack and frame time `t`, one `RenderScene` adds to
`underWaterTimer` the product of `t` and the number of UnderWater entries of
the stack, whatever their modes, and to `heatHazeTimer` the product of `t` and
the number of HeatHaze entries. -/
theorem timers_advance_once_per_entry (w : World) (t : ℚ) (s : SceneState) :
    (RenderScene w t s).gPostProcessingConstants.underWaterTimer
      = s.gPostProcessingConstants.underWaterTimer
        + t * (s.gPostProcessAndModeStack.countP
            (fun e => decide (e.1 = PostProcess.UnderWater)) : Nat)
    ∧ (RenderScene w t s).gPostProcessingConstants.heatHazeTimer
      = s.gPostProcessingConstants.heatHazeTimer
        + t * (s.gPostProcessAndModeStack.countP
            (fun e => decide (e.1 = PostProcess.HeatHaze)) : Nat) := by
  have key : (RenderScene w t s).gPostProcessingConstants.timers
      = (s.gPostProcessingConstants.underWaterTimer
          + t * (s.gPostProcessAndModeStack.countP
              (fun e => decide (e.1 = PostProcess.UnderWater)) : Nat),
         s.gPostProcessingConstants.heatHazeTimer
          + t * (s.gPostProcessAndModeStack.countP
              (fun e => decide (e.1 = PostProcess.HeatHaze)) : Nat)) := by
    rw [RenderScene, present_constants]
    by_cases h : s.gPostProcessAndModeStack = []
    · simp [renderPostProcesses, mainScene_stack, mainScene_constants, h,
        PostProcessingConstants.timers]
    · have hlen : s.gPostProcessAndModeStack.length ≠ 0 := by
        simpa [List.length_eq_zero] using h
      simp only [renderPostProcesses, mainScene_stack, hlen, ne_eq, not_false_eq_true, if_true,
        renderEntries_timers, mainScene_constants]
  simp only [PostProcessingConstants.timers, Prod.mk.injEq] at key
  exact key

/-- C22 (counterexample): it is not true that for every two distinct effects
`A` and `B` selecting `A` leaves unchanged every accumulator that selecting `B`
changes: selecting Bloom resets `dualFilterIteration`, which selecting
DualFiltering increments (from 5 it becomes 0). -/
theorem accumulators_shared_counterexample :
    ¬ (∀ A B : PostProcess, A ≠ B → ∀ acc : Accumulator, updates B acc →
        ∀ (w : World) (t : ℚ) (s : SceneState),
          acc.value (SelectPostProcessShaderAndTextures w A t s) = acc.value s) := by
  intro h
  have h1 := h .Bloom .DualFiltering (by decide) .dualFilterIteration updates_dualFiltering
    sampleWorld 1 countingState
  simp [SelectPostProcessShaderAndTextures, Accumulator.value, SceneState.emit,
    SceneState.setConstants, countingState, sampleState, zeroConstants] at h1

/-- C22 (amended): for every two distinct effects `A` and `B` other than the
pairs Dilation with HueVerticalColourGradient and Bloom with DualFiltering,
selecting `A` leaves unchanged every accumulator that selecting `B` can
change. -/
theorem accumulators_per_effect_except_shared (A B : PostProcess) (acc : Accumulator)
    (hAB : A ≠ B) (hs : sharePair A B = false) (hB : updates B acc)
    (w : World) (t : ℚ) (s : SceneState) :
    acc.value (SelectPostProcessShaderAndTextures w A t s) = acc.value s := by
  have hb := updates_assigns B acc hB
  apply select_acc_unchanged
  cases acc <;> cases B <;> simp [assigns] at hb <;> cases A <;>
    first
    | rfl
    | (exact absurd rfl hAB)
    | (simp [sharePair] at hs)

/-- C22 (instance): UnderWater leaves the heat-haze timer alone. -/
theorem accumulators_per_effect_except_shared_witness :
    PostProcess.UnderWater ≠ PostProcess.HeatHaze
    ∧ sharePair .UnderWater .HeatHaze = false
    ∧ Accumulator.value .heatHazeTimer
        (SelectPostProcessShaderAndTextures sampleWorld .UnderWater 1 countingState)
      = Accumulator.value .heatHazeTimer countingState :=
  ⟨by decide, by decide,
   accumulators_per_effect_except_shared .UnderWater .HeatHaze .heatHazeTimer (by decide)
     (by decide)
     ⟨sampleWorld, 1, sampleState [] .None, by
        simp [SelectPostProcessShaderAndTextures, Accumulator.value, SceneState.emit,
          SceneState.setConstants, sampleState, zeroConstants]⟩
     sampleWorld 1 countingState⟩

/-- C23: when the first `KeyHit(Key_O)` test is the only one that succeeds,
`UpdateScene` returns normally and appends to the stack exactly Bloom, eight
DualFiltering and MergeTextures, in this order and all in Fullscreen mode, 10
entries; when it is the `Key_2` test, it appends exactly
GaussianBlurHorizontal then GaussianBlurVertical. -/
theorem bloom_and_blur_keys_append_groups (s : SceneState) :
    (UpdateScene (onlyKey .Key_O) s).map (fun s' => s'.gPostProcessAndModeStack)
      = some (s.gPostProcessAndModeStack ++ [(.Bloom, .Fullscreen)]
          ++ List.replicate 8 (.DualFiltering, .Fullscreen) ++ [(.MergeTextures, .Fullscreen)])
    ∧ (UpdateScene (onlyKey .Key_2) s).map (fun s' => s'.gPostProcessAndModeStack)
      = some (s.gPostProcessAndModeStack
          ++ [(.GaussianBlurHorizontal, .Fullscreen), (.GaussianBlurVertical, .Fullscreen)])
    ∧ (UpdateScene_Key_O s).gPostProcessAndModeStack.length
      = s.gPostProcessAndModeStack.length + 10
    ∧ (UpdateScene_Key_2 s).gPostProcessAndModeStack.length
      = s.gPostProcessAndModeStack.length + 2 := by
  refine ⟨?_, ?_, ?_, ?_⟩
  · simp [UpdateScene, onlyKey, keyO_stack]
  · simp [UpdateScene, onlyKey, key2_stack]
  · simp [keyO_stack]
  · simp [key2_stack]

/-- C24: when the stack contains a Bloom entry immediately followed by
DualFiltering entries, then after the pass of the `k`-th of them
`dualFilterIteration` is `k`, whatever its value at the start of the frame,
and when that entry is in Fullscreen mode the pass uploads one constants
block, which carries `k`; an iteration of the loop on an entry other than
Bloom leaves the counter unchanged or adds 1 to it, and on a Bloom entry sets
it to 0. -/
theorem dual_filter_iteration_counts_from_bloom (w : World) (t : ℚ) (s : SceneState)
    (pre dfs post : List (PostProcess × PostProcessMode)) (m0 : PostProcessMode) (k : Nat)
    (hstack : s.gPostProcessAndModeStack = pre ++ (PostProcess.Bloom, m0) :: dfs ++ post)
    (hdfs : ∀ e ∈ dfs, e.1 = PostProcess.DualFiltering)
    (hk1 : 1 ≤ k) (hk : k ≤ dfs.length) :
    (stateAfterPasses w t s (pre.length + 1 + k)).gPostProcessingConstants.dualFilterIteration
      = k
    ∧ (∀ seg, (framePasses w t s)[pre.length + k]? = some seg →
        (∃ pp, s.gPostProcessAndModeStack[pre.length + k]? = some (pp, .Fullscreen)) →
        ∃ c, uploads seg = [c] ∧ c.dualFilterIteration = k)
    ∧ (∀ e i s', e.1 ≠ PostProcess.Bloom →
        (renderEntry w t e i s').1.gPostProcessingConstants.dualFilterIteration
          = s'.gPostProcessingConstants.dualFilterIteration
            + (if e.1 = PostProcess.DualFiltering then 1 else 0))
    ∧ (∀ e i s', e.1 = PostProcess.Bloom →
        (renderEntry w t e i s').1.gPostProcessingConstants.dualFilterIteration = 0) := by
  have hcount : (stateAfterPasses w t s
      (pre.length + 1 + k)).gPostProcessingConstants.dualFilterIteration = k := by
    have htake : s.gPostProcessAndModeStack.take (pre.length + 1 + k)
        = pre ++ ((PostProcess.Bloom, m0) :: dfs.take k) := by
      rw [hstack, List.append_assoc, Nat.add_assoc, List.take_append, List.cons_append,
        Nat.add_comm 1 k, List.take_succ_cons, List.take_append_of_le_length hk]
    have htk : ∀ e ∈ dfs.take k, e.1 = PostProcess.DualFiltering :=
      fun e he => hdfs e (List.mem_of_mem_take he)
    simp only [stateAfterPasses, htake, renderEntries_append]
    rw [renderEntries, renderEntries_counter_filters w t _ htk, renderEntry_counter]
    simp [List.length_take, hk]
  refine ⟨hcount, ?_, ?_, ?_⟩
  · intro seg hseg hmode
    obtain ⟨pp, hpp⟩ := hmode
    -- the entry at this position is one of the DualFiltering entries
    have hentry : s.gPostProcessAndModeStack[pre.length + k]? = dfs[k - 1]? := by
      rw [hstack, List.append_assoc, List.getElem?_append_right (by omega)]
      have : pre.length + k - pre.length = (k - 1) + 1 := by omega
      rw [this, List.cons_append, List.getElem?_cons_succ,
        List.getElem?_append_left (by omega)]
    have hdf : pp = PostProcess.DualFiltering := by
      rw [hpp] at hentry
      have hm := List.getElem?_mem hentry.symm
      exact hdfs _ hm
    rw [framePasses_eq] at hseg
    obtain ⟨e, he, hs⟩ := passCmds_getElem_state w t _ 0 _ _ seg hseg
    rw [hpp] at he
    cases Option.some.inj he
    have hb : pp ≠ PostProcess.Bloom := by rw [hdf]; decide
    have hup := fullscreen_entry_uploads w t pp ((pre.length + k : Nat) : Int)
      (stateAfterPasses w t s (pre.length + k)) hb
    have hsucc := stateAfter_succ w t s (pre.length + k) (pp, .Fullscreen) hpp
    refine ⟨(stateAfterPasses w t s (pre.length + k + 1)).gPostProcessingConstants, ?_, ?_⟩
    · rw [hs, zero_add, hsucc]
      exact hup
    · have : pre.length + k + 1 = pre.length + 1 + k := by omega
      rw [this]
      exact hcount
  · intro e i s' he
    rw [renderEntry_counter]
    simp [he]
    split <;> simp
  · intro e i s' he
    rw [renderEntry_counter]
    simp [he]

/-- C24 (instance): Bloom, two DualFiltering and MergeTextures, with the
counter at 5 before the frame. -/
theorem dual_filter_iteration_counts_from_bloom_witness :
    ({ countingState with gPostProcessAndModeStack :=
          [(PostProcess.Bloom, PostProcessMode.Fullscreen), (.DualFiltering, .Fullscreen),
           (.DualFiltering, .Fullscreen), (.MergeTextures, .Fullscreen)] }
        : SceneState).gPostProcessAndModeStack
      = [] ++ (PostProcess.Bloom, PostProcessMode.Fullscreen)
          :: [(.DualFiltering, .Fullscreen), (.DualFiltering, .Fullscreen)]
          ++ [(.MergeTextures, .Fullscreen)]
    ∧ (stateAfterPasses sampleWorld 0
        { countingState with gPostProcessAndModeStack :=
          [(PostProcess.Bloom, PostProcessMode.Fullscreen), (.DualFiltering, .Fullscreen),
           (.DualFiltering, .Fullscreen), (.MergeTextures, .Fullscreen)] }
        3).gPostProcessingConstants.dualFilterIteration = 2 :=
  ⟨rfl,
   (dual_filter_iteration_counts_from_bloom sampleWorld 0
      { countingState with gPostProcessAndModeStack :=
          [(PostProcess.Bloom, PostProcessMode.Fullscreen), (.DualFiltering, .Fullscreen),
           (.DualFiltering, .Fullscreen), (.MergeTextures, .Fullscreen)] }
      [] [(.DualFiltering, .Fullscreen), (.DualFiltering, .Fullscreen)]
      [(.MergeTextures, .Fullscreen)] .Fullscreen 2 rfl
      (by intro e he; simp at he; rw [he])
      (by decide) (by decide)).1⟩

/-- C25: for every effect and every pass index, `FullScreenPostProcess` issues
exactly two draws, both quads: the first with the parity-selected scene
texture as render target (Two for an even index, One for an odd one), the
second with the back buffer, and the back buffer is the render target bound
when it returns. -/
theorem full_screen_draws_twice (w : World) (pp : PostProcess) (t : ℚ) (i : Int)
    (s : SceneState) (p : Pipeline) :
    (drawCalls p (cmdsOf (FullScreenPostProcess w pp t i) s)).length = 2
    ∧ (drawCalls p (cmdsOf (FullScreenPostProcess w pp t i) s)).map DrawCall.target
        = [some (if i % 2 = 0 then Texture2D.gSceneTextureTwo else Texture2D.gSceneTexture),
           some .backBuffer]
    ∧ (drawCalls p (cmdsOf (FullScreenPostProcess w pp t i) s)).map (fun d => d.model)
        = [none, none]
    ∧ (p.run (cmdsOf (FullScreenPostProcess w pp t i) s)).renderTarget
        = some .gBackBufferRenderTarget := by
  have hf := cmdsOf_eq _ s _ (fullScreen_gpu w pp t i s)
  have hr := fullScreen_routes p pp i (FullScreenPostProcess w pp t i s).gPostProcessingConstants
  have hw : writeTexture i
      = if i % 2 = 0 then Texture2D.gSceneTextureTwo else Texture2D.gSceneTexture := by
    by_cases h : i.tmod 2 = 0
    · simp [writeTexture, h, (tmod_two_eq_zero_iff i).mp h]
    · have : ¬ i % 2 = 0 := fun h' => h ((tmod_two_eq_zero_iff i).mpr h')
      simp [writeTexture, h, this]
  rw [hf]
  have hlen := congrArg List.length hr
  simp only [List.length_map, List.length_cons, List.length_nil] at hlen
  refine ⟨hlen, ?_, ?_, fullScreen_run _ _ _ _⟩
  · have := congrArg (List.map Prod.fst) hr
    simp only [List.map_map, List.map_cons, List.map_nil] at this
    rw [← hw, ← this]
    rfl
  · by_cases h : i.tmod 2 = 0 <;> cases pp <;>
      simp [fullScreenCmds, routeCmds, selectCmds, drawCalls, h]

/-- C26: for every state, `RemoveProcessAndMode` returns normally, that is,
none of the `pop_back` calls it makes is applied to an empty vector (a
`pop_back` fails exactly on the empty vector). -/
theorem removal_never_pops_empty (s : SceneState) :
    (RemoveProcessAndMode s).isSome = true
    ∧ (pop_back s = none ↔ s.gPostProcessAndModeStack = []) := by
  constructor
  · by_cases h : NUM_OF_WINDOWS < s.gPostProcessAndModeStack.length
    · have := remove_stack s h
      cases hr : RemoveProcessAndMode s with
      | none => rw [hr] at this; simp at this
      | some s' => rfl
    · rw [remove_at_floor s (by omega)]; rfl
  · unfold pop_back
    cases s.gPostProcessAndModeStack <;> simp

/-- C27: for every stack and frame time, `RenderScene` leaves the effect stack
unchanged, so that a second frame is rendered over the same stack. -/
theorem render_leaves_stack_unchanged (w : World) (t : ℚ) (s : SceneState) :
    (RenderScene w t s).gPostProcessAndModeStack = s.gPostProcessAndModeStack
    ∧ (RenderScene w t s).gPostProcessAndModeStack.length = s.gPostProcessAndModeStack.length
    ∧ ∀ t', (RenderScene w t' (RenderScene w t s)).gPostProcessAndModeStack
        = s.gPostProcessAndModeStack := by
  refine ⟨renderScene_stack w t s, by rw [renderScene_stack], fun t' => ?_⟩
  rw [renderScene_stack, renderScene_stack]

/-- C28: after `RenderScene` on a non-empty stack the current effect and mode
are those of the last entry of the stack; after `RenderScene` on an empty
stack, after `AddProcessAndMode` and after the clearing `Key_0` block they are
what they were before. -/
theorem current_effect_is_last_rendered_entry (w : World) (t : ℚ) (s : SceneState) :
    (∀ e, s.gPostProcessAndModeStack.getLast? = some e →
        (RenderScene w t s).gCurrentPostProcess = e.1
        ∧ (RenderScene w t s).gCurrentPostProcessMode = e.2)
    ∧ (s.gPostProcessAndModeStack = [] →
        (RenderScene w t s).gCurrentPostProcess = s.gCurrentPostProcess
        ∧ (RenderScene w t s).gCurrentPostProcessMode = s.gCurrentPostProcessMode)
    ∧ (∀ process mode,
        (AddProcessAndMode process mode s).gCurrentPostProcess = s.gCurrentPostProcess
        ∧ (AddProcessAndMode process mode s).gCurrentPostProcessMode
            = s.gCurrentPostProcessMode)
    ∧ ((UpdateScene_Key_0 s).gCurrentPostProcess = s.gCurrentPostProcess
        ∧ (UpdateScene_Key_0 s).gCurrentPostProcessMode = s.gCurrentPostProcessMode) := by
  have h := renderScene_control w t s
  simp only [SceneState.control, Prod.mk.injEq] at h
  refine ⟨?_, ?_, ?_, ?_⟩
  · intro e he
    rw [h.1, h.2.1, he]
    exact ⟨rfl, rfl⟩
  · intro hs
    rw [h.1, h.2.1, hs]
    exact ⟨rfl, rfl⟩
  · intro process mode
    exact ⟨rfl, rfl⟩
  · simp [UpdateScene_Key_0, createWindows_eq]

/-- C29: for the indices 0 to 3 `GetWindowPoint` returns four distinct points
in the plane `z = -50`, with x coordinates 22 and 33, 36 and 49, 50 and 63, 64
and 78, so that an earlier quad lies entirely to the left of a later one; for
every other index it returns four zero points; and the Polygon pass of a
stack entry at position 4 or later is run with four zero points, whichever
way the arguments of the call are evaluated. -/
theorem window_quads_only_for_first_four :
    (∀ i : Int, 0 ≤ i → i ≤ 3 →
        (GetWindowPoint i).length = 4 ∧ (GetWindowPoint i).Nodup
        ∧ ∀ p ∈ GetWindowPoint i, p.z = -50)
    ∧ (GetWindowPoint 0).map (fun p => p.x) = [22, 22, 33, 33]
    ∧ (GetWindowPoint 1).map (fun p => p.x) = [36, 36, 49, 49]
    ∧ (GetWindowPoint 2).map (fun p => p.x) = [50, 50, 63, 63]
    ∧ (GetWindowPoint 3).map (fun p => p.x) = [64, 64, 78, 78]
    ∧ (∀ i j : Int, 0 ≤ i → i < j → j ≤ 3 →
        ∀ p ∈ GetWindowPoint i, ∀ q ∈ GetWindowPoint j, p.x < q.x)
    ∧ (∀ i : Int, i < 0 ∨ 3 < i → GetWindowPoint i = List.replicate 4 ⟨0, 0, 0⟩)
    ∧ (∀ (w : World) (t : ℚ) (k : Nat) (pp : PostProcess) (s : SceneState), 4 ≤ k →
        modePass w t k (pp, .Polygon) s
          = PolygonPostProcess w pp (List.replicate 4 ⟨0, 0, 0⟩) (w.MatrixTranslation ⟨0, 0, 0⟩)
              t k { s with gCurrentPostProcess := pp, gCurrentPostProcessMode := .Polygon }
        ∧ (modePass w t k (pp, .Polygon) s).gPostProcessingConstants.polygon2DPoints
          = List.replicate 4
              (w.gCamera.ViewProjectionMatrix (w.MatrixTranslation ⟨0, 0, 0⟩ ⟨0, 0, 0, 1⟩))) := by
  have cases4 : ∀ i : Int, 0 ≤ i → i ≤ 3 → i = 0 ∨ i = 1 ∨ i = 2 ∨ i = 3 := by
    intro i h0 h3; omega
  refine ⟨?_, ?_, ?_, ?_, ?_, ?_, ?_, ?_⟩
  · intro i h0 h3
    rcases cases4 i h0 h3 with h | h | h | h <;> subst h <;>
      (refine ⟨rfl, ?_, ?_⟩ <;> simp [GetWindowPoint])
  · simp [GetWindowPoint]
  · simp [GetWindowPoint]
  · simp [GetWindowPoint]
  · simp [GetWindowPoint]
  · intro i j h0 hij h3 p hp q hq
    have hj0 : 0 ≤ j := by omega
    have hi3 : i ≤ 3 := by omega
    rcases cases4 i h0 hi3 with h | h | h | h <;> subst h <;>
      rcases cases4 j hj0 h3 with h' | h' | h' | h' <;> subst h' <;>
      first
      | (exfalso; omega)
      | (simp [GetWindowPoint] at hp hq
         rcases hp with rfl | rfl | rfl | rfl <;> rcases hq with rfl | rfl | rfl | rfl <;>
           norm_num)
  · exact windowPoint_outside
  · intro w t k pp s hk
    have hpts : GetWindowPoint (if w.argumentsRightToLeft = true then (k : Int) + 1 else k)
        = List.replicate 4 ⟨0, 0, 0⟩ := by
      apply windowPoint_outside
      right
      split <;> omega
    constructor
    · simp only [modePass, hpts]
    · simp only [modePass, hpts, polygon_points]
      simp [List.replicate]

/-- C30: for every effect and frame time, an `AreaPostProcess` whose anchor is
nearer than the near clip leaves every accumulator with the same value as an
`AreaPostProcess` from the same state whose anchor is not, namely the value
`SelectPostProcessShaderAndTextures` gives it (UnderWater advances
`underWaterTimer` by the frame time); the first issues no draw after its copy
step, the second ends with an upload and a draw. -/
theorem area_updates_state_before_camera_check (w w' : World) (pp : PostProcess)
    (pt pt' : CVector3) (size size' : CVector2) (t : ℚ) (i : Int) (s : SceneState)
    (hb : (w.gCamera.PixelFromWorldPt pt w.gViewportWidth w.gViewportHeight).z
      < w.gCamera.NearClip)
    (hf : ¬ (w'.gCamera.PixelFromWorldPt pt' w'.gViewportWidth w'.gViewportHeight).z
      < w'.gCamera.NearClip) :
    (∀ acc : Accumulator,
        acc.value (AreaPostProcess w pp pt size t i s)
          = acc.value (AreaPostProcess w' pp pt' size' t i s))
    ∧ (∀ acc : Accumulator,
        acc.value (AreaPostProcess w pp pt size t i s)
          = acc.value (SelectPostProcessShaderAndTextures w pp t s))
    ∧ (pp = PostProcess.UnderWater →
        (AreaPostProcess w pp pt size t i s).gPostProcessingConstants.underWaterTimer
          = s.gPostProcessingConstants.underWaterTimer + t)
    ∧ (∃ rest, cmdsOf (AreaPostProcess w pp pt size t i) s
          = cmdsOf (FullScreenPostProcess w .Copy t i) s ++ rest ∧ Cmd.Draw ∉ rest)
    ∧ (∃ rest k, cmdsOf (AreaPostProcess w' pp pt' size' t i) s
          = cmdsOf (FullScreenPostProcess w' .Copy t i) s ++ rest
            ++ [Cmd.UpdateConstantBuffer k, Cmd.Draw]) := by
  refine ⟨?_, ?_, ?_, ?_, ?_⟩
  · intro acc
    rw [area_acc, area_acc]
    exact select_acc_congr w w' pp t s s acc rfl
  · intro acc
    exact area_acc w pp pt size t i s acc
  · intro hp
    have h := area_timers w pp pt size t i s
    simp only [PostProcessingConstants.timers, Prod.mk.injEq] at h
    rw [h.1, hp]
    simp
  · refine ⟨selectCmds pp ++ [Cmd.OMSetBlendState .gAlphaBlendingState], ?_,
      select_blend_no_draw pp⟩
    rw [area_behind_gpu w pp pt size t i s hb, List.append_assoc]
  · exact ⟨_, _, area_front_gpu w' pp pt' size' t i s hf⟩

/-- C30 (instance): UnderWater with the cube behind the camera and in front of
it. -/
theorem area_updates_state_before_camera_check_witness :
    (behindWorld.gCamera.PixelFromWorldPt behindWorld.gCubePosition behindWorld.gViewportWidth
        behindWorld.gViewportHeight).z < behindWorld.gCamera.NearClip
    ∧ ¬ (sampleWorld.gCamera.PixelFromWorldPt sampleWorld.gCubePosition
        sampleWorld.gViewportWidth sampleWorld.gViewportHeight).z < sampleWorld.gCamera.NearClip
    ∧ (AreaPostProcess behindWorld .UnderWater behindWorld.gCubePosition ⟨10, 10⟩ 3 0
        countingState).gPostProcessingConstants.underWaterTimer
      = countingState.gPostProcessingConstants.underWaterTimer + 3 :=
  ⟨by norm_num [behindWorld, sampleWorld, sampleCamera],
   by norm_num [sampleWorld, sampleCamera],
   (area_updates_state_before_camera_check behindWorld sampleWorld .UnderWater
      behindWorld.gCubePosition sampleWorld.gCubePosition ⟨10, 10⟩ ⟨10, 10⟩ 3 0 countingState
      (by norm_num [behindWorld, sampleWorld, sampleCamera])
      (by norm_num [sampleWorld, sampleCamera])).2.2.1 rfl⟩

end PostProcessing
